import Mathlib

/-!
Hog renderer: render-graph execution engine.

A shallow embedding of `Hog-Core/src/Hog/Renderer/Renderer.cpp` (frame
lifecycle, stage derivation, per-frame execution, descriptor assembly), with
the buffer kinds of `Buffer.h`, followed by theorems about the embedding.

Conventions of the embedding:

* `uint32_t` values are naturals reduced modulo `2 ^ 32` where the source can
  wrap.
* Native handles are naturals; `0` is `VK_NULL_HANDLE`.
* Calls recorded into a command buffer, and calls made on the device or the
  queue, are appended to `World.Log` in program order.
* A call the source makes through an empty `Ref`, an out-of-range vector index
  and a modulo by zero end the run with `Abort.Undefined`; a failed
  `CheckVkResult` ends it with `Abort.Fatal`.
* Single-precision values that the source writes as literals (`0.0f`, `1.0f`)
  or converts from integers are kept as the integer they denote.
-/

namespace Hog

/-! ## Native values -/

/-- Native handle (`VkFence`, `VkSemaphore`, `VkCommandBuffer`, ...). -/
abbrev Handle := Nat

/-- Index of an image object in the heap of images (`Ref<Image>`). -/
abbrev ImageId := Nat

/-- The null handle `VK_NULL_HANDLE`. -/
def VK_NULL_HANDLE : Handle := 0

/-- Result code of a native call (`VkResult`); error codes are negative. -/
abbrev VkResult := Int

def VK_SUCCESS : VkResult := 0
def VK_NOT_READY : VkResult := 1
def VK_TIMEOUT : VkResult := 2
def VK_SUBOPTIMAL_KHR : VkResult := 1000001003
def VK_ERROR_DEVICE_LOST : VkResult := -4
def VK_ERROR_SURFACE_LOST_KHR : VkResult := -1000000000
def VK_ERROR_OUT_OF_DATE_KHR : VkResult := -1000001004

/-- How a run of the renderer ends when it does not return. -/
inductive Abort where
  | Fatal
  | Undefined
deriving DecidableEq, Repr

/-- Modelled from the spec: `CheckVkResult` (its definition is not among the
sources) treats every non-success result of a checked native call as fatal. -/
def CheckVkResult (r : VkResult) : Except Abort Unit :=
  if r = VK_SUCCESS then .ok () else .error .Fatal

/-- Layout of an image; the source casts `ImageLayout` to `VkImageLayout` and
back without change, so a layout is its native code. -/
structure ImageLayout where
  code : Nat
deriving DecidableEq, Repr

namespace ImageLayout

def Undefined : ImageLayout := ⟨0⟩
def General : ImageLayout := ⟨1⟩
def ColorAttachmentOptimal : ImageLayout := ⟨2⟩
def DepthStencilAttachmentOptimal : ImageLayout := ⟨3⟩
def DepthStencilReadOnlyOptimal : ImageLayout := ⟨4⟩
def ShaderReadOnlyOptimal : ImageLayout := ⟨5⟩
def TransferSrcOptimal : ImageLayout := ⟨6⟩
def TransferDstOptimal : ImageLayout := ⟨7⟩
def PresentSrcKHR : ImageLayout := ⟨1000001002⟩

end ImageLayout

/-- Native load-op (`VkAttachmentLoadOp`); `LOAD` is the zero value. -/
inductive VkAttachmentLoadOp where
  | LOAD
  | CLEAR
  | DONT_CARE
deriving DecidableEq, Repr

/-- Native store-op (`VkAttachmentStoreOp`); `STORE` is the zero value. -/
inductive VkAttachmentStoreOp where
  | STORE
  | DONT_CARE
deriving DecidableEq, Repr

structure VkExtent2D where
  width : Nat
  height : Nat
deriving DecidableEq, Repr

def VK_SAMPLE_COUNT_1_BIT : Nat := 1

/-- The source subpass of an external dependency (`~0U`). -/
def VK_SUBPASS_EXTERNAL : Nat := 2 ^ 32 - 1

/-- Element of `ClearValues` (`VkClearValue`, a union): value-initialised, a
colour, or a depth/stencil pair. -/
inductive VkClearValue where
  | zero
  | color (r g b a : Int)
  | depthStencil (depth : Int) (stencil : Nat)
deriving DecidableEq, Repr

/-! ## Declarations of the render graph -/

inductive AttachmentType where
  | Color
  | Depth
  | DepthStencil
  | Swapchain
deriving DecidableEq, Repr

/-- Stage kinds dispatched by `RendererStage::Execute`. -/
inductive RendererStageType where
  | ForwardGraphics
  | DeferredGraphics
  | ForwardCompute
  | DeferredCompute
  | ImGui
  | Blit
deriving DecidableEq, Repr

inductive ResourceType where
  | Uniform
  | Constant
  | PushConstant
  | Storage
  | Sampler
  | SamplerArray
deriving DecidableEq, Repr

/-- Buffer kinds of `Buffer.h`. -/
inductive BufferType where
  | CPUWritableVertexBuffer
  | GPUOnlyVertexBuffer
  | TransferSourceBuffer
  | CPUWritableIndexBuffer
  | UniformBuffer
  | ReadbackStorageBuffer
deriving DecidableEq, Repr

/-- The barrier declared on an attachment. -/
structure BarrierDescription where
  SrcStage : Nat := 0
  SrcAccessMask : Nat := 0
  DstStage : Nat := 0
  DstAccessMask : Nat := 0
  OldLayout : ImageLayout := ImageLayout.Undefined
  NewLayout : ImageLayout := ImageLayout.Undefined
deriving DecidableEq, Repr

/-- One entry of `Info.Attachments` (`Kind` is the source's field `Type`);
`Image` is empty for a swapchain attachment. -/
structure Attachment where
  Name : String := ""
  Kind : AttachmentType
  Image : Option ImageId
  Clear : Bool
  Barrier : BarrierDescription
deriving DecidableEq, Repr

/-- A buffer object behind `Ref<Buffer>`. -/
structure Buffer where
  Handle : Handle
  Description : BufferType
deriving DecidableEq, Repr

/-- One entry of `Info.Resources` (`Kind` is the source's field `Type`).
`Texture` and `Images` refer to image
objects; `ConstantData` is the byte block behind `ConstantDataPointer`. -/
structure Resource where
  Name : String := ""
  Kind : ResourceType
  BindLocation : Nat := 0
  Binding : Nat := 0
  Set : Nat := 0
  Buffer : Buffer := ⟨0, BufferType.UniformBuffer⟩
  Texture : ImageId := 0
  Images : List ImageId := []
  ArrayMaxCount : Nat := 0
  ConstantID : Nat := 0
  ConstantSize : Nat := 0
  ConstantData : List Nat := []
deriving DecidableEq, Repr

/-- A mesh behind `Ref<Mesh>`: its identity and the 64 bytes of the
`glm::mat4` that `GetModelMatrix()` returns. -/
structure Mesh where
  Id : Handle
  ModelMatrix : List Nat
  matrixSize : ModelMatrix.length = 64
deriving DecidableEq, Repr

/-- The declaration a stage is built from (`stage.Info`). -/
structure StageDescription where
  Name : String := ""
  Shader : Option Handle
  StageType : RendererStageType
  Resources : List Resource
  Meshes : List Mesh
  Attachments : List Attachment
  GroupCounts : Nat × Nat × Nat := (0, 0, 0)
deriving DecidableEq, Repr

/-- A node of the render graph: a stage declaration and the index of the
parent node it was added under (none for a root). -/
structure Node where
  StageInfo : StageDescription
  Parent : Option Nat := none
deriving DecidableEq, Repr

/-- The render graph; `Nodes` is in insertion order. -/
structure RenderGraph where
  Nodes : List Node := []
deriving DecidableEq, Repr

/-- Stages of the graph (`RenderGraph::GetStages`), in insertion order. -/
def RenderGraph.GetStages (g : RenderGraph) : List Node := g.Nodes

/-! ## Objects of the renderer -/

/-- An image object behind `Ref<Image>`; `ImageLayout` is the tracked layout
read by `GetDescription().ImageLayout` and written by `SetImageLayout`. -/
structure Image where
  Format : Nat := 0
  Samples : Nat := 1
  Extent : VkExtent2D := ⟨0, 0⟩
  ImageLayout : ImageLayout := Hog.ImageLayout.Undefined
  Sampler : Handle := 0
  ImageView : Handle := 0
deriving DecidableEq, Repr

/-- State of a `FrameBuffer` member: what `Create` was called with. -/
structure FrameBuffer where
  Created : Bool := false
  Attachments : List (Option ImageId) := []
  RenderPass : Handle := VK_NULL_HANDLE
  Extent : VkExtent2D := ⟨0, 0⟩
deriving DecidableEq, Repr

/-- One slot of `s_Data.Frames`. The descriptor allocator is a member of the
frame, so it is identified by the index of the slot. -/
structure RendererFrame where
  Device : Handle := 0
  Queue : Handle := 0
  Swapchain : Handle := 0
  CommandPool : Handle := 0
  CommandBuffer : Handle := 0
  Fence : Handle := 0
  PresentSemaphore : Handle := 0
  RenderSemaphore : Handle := 0
  SwapchainImage : Option ImageId := none
  FrameBuffer : FrameBuffer := {}
deriving DecidableEq, Repr

/-- One element of `s_Data.Stages`. -/
structure RendererStage where
  Info : StageDescription
  RenderPass : Handle := VK_NULL_HANDLE
  FrameBuffer : FrameBuffer := {}
  ClearValues : List VkClearValue := []
deriving DecidableEq, Repr

/-- The value of a default-constructed `RendererStage` (what `resize` adds). -/
def RendererStage.empty : RendererStage :=
  { Info := { Shader := none, StageType := RendererStageType.ForwardGraphics,
              Resources := [], Meshes := [], Attachments := [] } }

/-- The process-wide `s_Data`. -/
structure RendererData where
  Graph : RenderGraph := {}
  Frames : List RendererFrame := []
  Stages : List RendererStage := []
  FinalTarget : Option ImageId := none
  ImGuiLayer : Option Handle := none
  FrameIndex : Nat := 0
  MaxFrameCount : Nat := 2
deriving DecidableEq, Repr

/-! ## Native descriptions built by `RendererStage::Init` -/

structure VkAttachmentDescription2 where
  format : Nat := 0
  samples : Nat := 0
  loadOp : VkAttachmentLoadOp := VkAttachmentLoadOp.LOAD
  storeOp : VkAttachmentStoreOp := VkAttachmentStoreOp.STORE
  stencilLoadOp : VkAttachmentLoadOp := VkAttachmentLoadOp.LOAD
  stencilStoreOp : VkAttachmentStoreOp := VkAttachmentStoreOp.STORE
  initialLayout : Nat := 0
  finalLayout : Nat := 0
deriving DecidableEq, Repr

structure VkAttachmentReference2 where
  attachment : Nat := 0
  layout : Nat := 0
deriving DecidableEq, Repr

structure VkSubpassDependency2 where
  srcSubpass : Nat := 0
  dstSubpass : Nat := 0
  srcStageMask : Nat := 0
  dstStageMask : Nat := 0
  srcAccessMask : Nat := 0
  dstAccessMask : Nat := 0
deriving DecidableEq, Repr

/-- The subpass: `colorAttachments` stands for `pColorAttachments` with its
count, `depthStencilAttachment` for the one reference `pDepthStencilAttachment`
points to (none for a null pointer). -/
structure VkSubpassDescription2 where
  pipelineBindPoint : Nat := 0
  colorAttachments : List VkAttachmentReference2 := []
  depthStencilAttachment : Option VkAttachmentReference2 := none
deriving DecidableEq, Repr

structure VkRenderPassCreateInfo2 where
  attachments : List VkAttachmentDescription2
  subpasses : List VkSubpassDescription2
  dependencies : List VkSubpassDependency2
deriving DecidableEq, Repr

structure VkSpecializationMapEntry where
  constantID : Nat
  offset : Nat
  size : Nat
deriving DecidableEq, Repr

structure VkSpecializationInfo where
  mapEntries : List VkSpecializationMapEntry := []
  dataSize : Nat := 0
  data : List Nat := []
deriving DecidableEq, Repr

/-! ## Descriptor writes and the log of native calls -/

structure VkDescriptorImageInfo where
  sampler : Handle
  imageView : Handle
  imageLayout : ImageLayout
deriving DecidableEq, Repr

structure VkDescriptorBufferInfo where
  buffer : Handle
  offset : Nat
  range : Nat
deriving DecidableEq, Repr

def VK_WHOLE_SIZE : Nat := 2 ^ 64 - 1

inductive VkDescriptorType where
  | COMBINED_IMAGE_SAMPLER
  | UNIFORM_BUFFER
  | STORAGE_BUFFER
deriving DecidableEq, Repr

/-- One call on the `DescriptorBuilder`, with the arguments the source passes:
`BindBuffer(binding, info, description, stageFlags)`, the four-argument
`BindImage(binding, info, type, stageFlags)` and the six-argument
`BindImage(binding, infos, type, stageFlags, count, maxCount)`. -/
inductive DescriptorWrite where
  | BindBuffer (binding : Nat) (info : VkDescriptorBufferInfo)
      (description : BufferType) (stageFlags : Nat)
  | BindImage (binding : Nat) (info : VkDescriptorImageInfo)
      (type : VkDescriptorType) (stageFlags : Nat)
  | BindImageArray (binding : Nat) (infos : List VkDescriptorImageInfo)
      (type : VkDescriptorType) (stageFlags : Nat) (count : Nat) (maxCount : Nat)
deriving DecidableEq, Repr

structure VkViewport where
  x : Int
  y : Int
  width : Nat
  height : Nat
  minDepth : Int
  maxDepth : Int
deriving DecidableEq, Repr

structure VkRect2D where
  offsetX : Int
  offsetY : Int
  extent : VkExtent2D
deriving DecidableEq, Repr

/-- A native call, or a call on a collaborator, made by the renderer. The
first argument of a command is the command buffer it is recorded into. A
pipeline layout is named by the shader it belongs to, a descriptor allocator
by the frame slot it is a member of. -/
inductive Event where
  | WaitForFences (device fence : Handle)
  | ResetFences (device fence : Handle)
  | ResetPools (slot : Nat)
  | AcquireNextImage (device swapchain semaphore : Handle)
  | BeginCommandBuffer (cb : Handle)
  | ImageBarrier (cb : Handle) (image : ImageId) (oldLayout newLayout : ImageLayout)
  | CmdBeginRenderPass2 (cb : Handle) (renderPass : Handle) (framebuffer : FrameBuffer)
      (renderArea : VkExtent2D) (clearValues : List VkClearValue)
  | CmdSetViewport (cb : Handle) (viewport : VkViewport)
  | CmdSetScissor (cb : Handle) (scissor : VkRect2D)
  | CmdSetDepthBias (cb : Handle)
  | ShaderBind (cb : Handle) (shader : Handle)
  | DescriptorBuild (slot : Nat) (writes : List DescriptorWrite)
  | CmdBindDescriptorSets (cb : Handle) (stageType : RendererStageType) (shader : Handle)
      (firstSet : Nat) (setCount : Nat)
  | CmdPushConstants (cb : Handle) (shader : Handle) (stageFlags : Nat) (offset : Nat)
      (size : Nat) (data : List Nat)
  | MeshDraw (cb : Handle) (mesh : Handle)
  | CmdDraw (cb : Handle) (vertexCount instanceCount firstVertex firstInstance : Nat)
  | CmdDispatch (cb : Handle) (x y z : Nat)
  | ImGuiLayerDraw (cb : Handle) (layer : Handle)
  | CmdEndRenderPass (cb : Handle)
  | EndCommandBuffer (cb : Handle)
  | QueueSubmit2 (queue : Handle) (waits : List Handle) (commandBuffers : List Handle)
      (signals : List Handle) (fence : Handle)
  | QueuePresent (queue : Handle) (waits : List Handle) (swapchains : List Handle)
      (imageIndices : List Nat)
  | CreateRenderPass2 (info : VkRenderPassCreateInfo2)
  | ShaderGenerate (shader : Handle) (renderPass : Option Handle)
      (specialization : VkSpecializationInfo)
deriving DecidableEq, Repr

/-- The renderer in its surroundings: `s_Data`, the heap of image objects and
the log of calls made so far. -/
structure World where
  Data : RendererData := {}
  Images : ImageId → Image := fun _ => {}
  Log : List Event := []

/-- A run that did not return: why, and the calls made up to that point. -/
structure Aborted where
  reason : Abort
  Log : List Event
deriving DecidableEq, Repr

/-- Behaviour of code outside the embedded sources, taken as parameters:
the flag conversions of `RendererUtils.h`, the layout an image is tracked in
after `Image::ExecuteBarrier(current, barrierOld, barrierNew)`, and the extent
the two-argument `FrameBuffer::Create` gives a framebuffer. -/
structure Collaborators where
  ToStageFlags1 : Nat → Nat
  ToAccessFlags1 : Nat → Nat
  BarrierTracks : ImageLayout → ImageLayout → ImageLayout → ImageLayout
  DefaultExtent : List Image → VkExtent2D

/-- What `GraphicsContext`, the configuration store and the driver answer
while the renderer is initialised. -/
structure Context where
  frameCount : Int
  Device : Handle
  Queue : Handle
  Swapchain : Handle
  SwapchainFormat : Nat
  SwapchainImages : List ImageId
  CreateCommandPool : Nat → Handle
  CreateCommandBuffer : Handle → Handle
  CreateFence : Nat → Handle
  CreateVkSemaphore : Nat → Handle
  CreateRenderPass2 : VkRenderPassCreateInfo2 → VkResult × Handle
  CreateImGuiLayer : Handle → Handle

/-- What the driver answers during one `Renderer::Draw`: the results of the
native calls, and `imageIndex`, the value the acquisition leaves in the
`uint32_t` it is given (the index of the acquired image). -/
structure DrawEnv where
  waitResult : VkResult
  acquireResult : VkResult
  imageIndex : Nat
  beginResult : VkResult
  endResult : VkResult
  submitResult : VkResult
  presentResult : VkResult
deriving DecidableEq, Repr

/-! ## `RendererStage::Init` -/

/-- The effect of `std::vector::resize(n)`: keep the first `n` elements and pad
with value-initialised ones. -/
def resize {α : Type} (l : List α) (n : Nat) (d : α) : List α :=
  l.take n ++ List.replicate (n - l.length) d

/-- The local `attachmentRefs`, a map from attachment kind to the references
pushed under it; a key is present once something was pushed under it. -/
structure AttachmentRefs where
  Color : List VkAttachmentReference2 := []
  Depth : List VkAttachmentReference2 := []
  DepthStencil : List VkAttachmentReference2 := []
  Swapchain : List VkAttachmentReference2 := []
deriving DecidableEq, Repr

def AttachmentRefs.get (m : AttachmentRefs) : AttachmentType → List VkAttachmentReference2
  | AttachmentType.Color => m.Color
  | AttachmentType.Depth => m.Depth
  | AttachmentType.DepthStencil => m.DepthStencil
  | AttachmentType.Swapchain => m.Swapchain

/-- `attachmentRefs[k].push_back(r)`. -/
def AttachmentRefs.push (m : AttachmentRefs) (k : AttachmentType)
    (r : VkAttachmentReference2) : AttachmentRefs :=
  match k with
  | AttachmentType.Color => { m with Color := m.Color ++ [r] }
  | AttachmentType.Depth => { m with Depth := m.Depth ++ [r] }
  | AttachmentType.DepthStencil => { m with DepthStencil := m.DepthStencil ++ [r] }
  | AttachmentType.Swapchain => { m with Swapchain := m.Swapchain ++ [r] }

/-- `attachmentRefs.contains(k)`. -/
def AttachmentRefs.contains (m : AttachmentRefs) (k : AttachmentType) : Bool :=
  !(m.get k).isEmpty

/-- The locals of the attachment loop of `Init`, with the member `ClearValues`. -/
structure PassBuild where
  attachments : List VkAttachmentDescription2
  attachmentRefs : AttachmentRefs
  dependencies : List VkSubpassDependency2
  ClearValues : List VkClearValue
deriving DecidableEq, Repr

/-- Format and sample count of attachment `a` (lines 274-283): those of its
image, or the swapchain format with one sample for a swapchain attachment. -/
def resolveFormat (ctx : Context) (images : ImageId → Image) (a : Attachment) :
    Except Abort (Nat × Nat) :=
  if a.Kind ≠ AttachmentType.Swapchain then
    match a.Image with
    | some id => .ok ((images id).Format, (images id).Samples)
    | none => .error Abort.Undefined
  else .ok (ctx.SwapchainFormat, VK_SAMPLE_COUNT_1_BIT)

/-- The attachment description written to `attachments[i]` (lines 272-298),
assignment by assignment. -/
def describeAttachment (a : Attachment) (format samples : Nat) : VkAttachmentDescription2 :=
  let d0 : VkAttachmentDescription2 := {}
  let d1 := { d0 with format := format, samples := samples }
  let d2 := { d1 with loadOp :=
    if a.Clear then VkAttachmentLoadOp.CLEAR else VkAttachmentLoadOp.LOAD }
  let d3 := if a.Barrier.OldLayout = ImageLayout.Undefined
    then { d2 with loadOp := VkAttachmentLoadOp.DONT_CARE } else d2
  let d4 := { d3 with storeOp := VkAttachmentStoreOp.STORE }
  let d5 := if a.Kind = AttachmentType.DepthStencil
    then { d4 with
            stencilLoadOp :=
              if a.Clear then VkAttachmentLoadOp.CLEAR else VkAttachmentLoadOp.LOAD,
            stencilStoreOp := VkAttachmentStoreOp.STORE }
    else d4
  { d5 with initialLayout := a.Barrier.OldLayout.code,
            finalLayout := a.Barrier.NewLayout.code }

/-- The layout of the attachment reference (the switch of lines 305-311). -/
def referenceLayout : AttachmentType → Nat
  | AttachmentType.Color => ImageLayout.ColorAttachmentOptimal.code
  | AttachmentType.Swapchain => ImageLayout.ColorAttachmentOptimal.code
  | AttachmentType.Depth => ImageLayout.DepthStencilAttachmentOptimal.code
  | AttachmentType.DepthStencil => ImageLayout.DepthStencilAttachmentOptimal.code

/-- The assignment `ClearValues[i].depthStencil.depth = 1.f` on a stored value;
the only colour ever stored has a zero second component, which is the word the
stencil shares. -/
def setClearDepth : VkClearValue → VkClearValue
  | VkClearValue.zero => VkClearValue.depthStencil 1 0
  | VkClearValue.color _ _ _ _ => VkClearValue.depthStencil 1 0
  | VkClearValue.depthStencil _ s => VkClearValue.depthStencil 1 s

/-- The update of `ClearValues[i]` (lines 333-345). -/
def cacheClearValue (values : List VkClearValue) (i : Nat) (a : Attachment) :
    List VkClearValue :=
  if a.Clear then
    if a.Kind = AttachmentType.Color ∨ a.Kind = AttachmentType.Swapchain then
      values.set i (VkClearValue.color 0 0 0 1)
    else if a.Kind = AttachmentType.Depth ∨ a.Kind = AttachmentType.DepthStencil then
      values.set i (setClearDepth (values.getD i VkClearValue.zero))
    else values
  else values

/-- One iteration of the attachment loop of `Init` (lines 270-346) for index `i`
and `a = Info.Attachments[i]`. -/
def initAttachment (ext : Collaborators) (ctx : Context) (images : ImageId → Image)
    (b : PassBuild) (i : Nat) (a : Attachment) : Except Abort PassBuild :=
  match resolveFormat ctx images a with
  | .error e => .error e
  | .ok (format, samples) =>
    let attachRef : VkAttachmentReference2 :=
      { attachment := i % 2 ^ 32, layout := referenceLayout a.Kind }
    let refs :=
      if a.Kind = AttachmentType.Swapchain
      then b.attachmentRefs.push AttachmentType.Color attachRef
      else b.attachmentRefs.push a.Kind attachRef
    let dependency : VkSubpassDependency2 :=
      { srcSubpass := VK_SUBPASS_EXTERNAL,
        srcStageMask := ext.ToStageFlags1 a.Barrier.SrcStage,
        dstStageMask := ext.ToStageFlags1 a.Barrier.DstStage,
        srcAccessMask := ext.ToAccessFlags1 a.Barrier.SrcAccessMask,
        dstAccessMask := ext.ToAccessFlags1 a.Barrier.DstAccessMask }
    .ok { attachments := b.attachments.set i (describeAttachment a format samples),
          attachmentRefs := refs,
          dependencies := b.dependencies ++ [dependency],
          ClearValues := cacheClearValue b.ClearValues i a }

/-- The attachment loop of `Init`, from index `i` on; the list is the rest of
`Info.Attachments` from that index. -/
def initLoop (ext : Collaborators) (ctx : Context) (images : ImageId → Image) :
    Nat → List Attachment → PassBuild → Except Abort PassBuild
  | _, [], b => .ok b
  | i, a :: rest, b =>
    match initAttachment ext ctx images b i a with
    | .error e => .error e
    | .ok b1 => initLoop ext ctx images (i + 1) rest b1

/-- Whether `Init` derives a render pass for the stage type (lines 261-262). -/
def rasterizes (t : RendererStageType) : Bool :=
  t = RendererStageType.DeferredGraphics || t = RendererStageType.ForwardGraphics
    || t = RendererStageType.ImGui || t = RendererStageType.Blit

/-- The locals of the attachment loop before its first iteration (lines
264-268) for a stage whose member `ClearValues` is `values`. -/
def passBuildStart (info : StageDescription) (values : List VkClearValue) : PassBuild :=
  { attachments := List.replicate info.Attachments.length {},
    attachmentRefs := {},
    dependencies := [],
    ClearValues := resize values info.Attachments.length VkClearValue.zero }

/-- The single subpass (lines 349-363). -/
def buildSubpass (refs : AttachmentRefs) : VkSubpassDescription2 :=
  let s0 : VkSubpassDescription2 := { pipelineBindPoint := 0 }
  let s1 := if refs.contains AttachmentType.Color
    then { s0 with colorAttachments := refs.get AttachmentType.Color } else s0
  if refs.contains AttachmentType.Depth
    then { s1 with depthStencilAttachment := (refs.get AttachmentType.Depth).head? } else s1

/-- The create-info handed to `vkCreateRenderPass2` (lines 365-373). -/
def renderPassInfo (b : PassBuild) : VkRenderPassCreateInfo2 :=
  { attachments := b.attachments,
    subpasses := [buildSubpass b.attachmentRefs],
    dependencies := b.dependencies }

/-- The first block of `Init` (lines 261-376): derive and create the render
pass of a rasterizing stage. -/
def RendererStage.initRenderPass (ext : Collaborators) (ctx : Context)
    (stage : RendererStage) (w : World) : Except Aborted (RendererStage × World) :=
  if rasterizes stage.Info.StageType then
    match initLoop ext ctx w.Images 0 stage.Info.Attachments
        (passBuildStart stage.Info stage.ClearValues) with
    | .error e => .error ⟨e, w.Log⟩
    | .ok b =>
      let info := renderPassInfo b
      let w1 := { w with Log := w.Log ++ [Event.CreateRenderPass2 info] }
      match CheckVkResult (ctx.CreateRenderPass2 info).1 with
      | .error e => .error ⟨e, w1.Log⟩
      | .ok _ =>
        .ok ({ stage with ClearValues := b.ClearValues,
                          RenderPass := (ctx.CreateRenderPass2 info).2 }, w1)
  else .ok (stage, w)

/-- The locals of the specialization-constant loop of `Init`. -/
structure ConstantPack where
  entries : List VkSpecializationMapEntry := []
  offset : Nat := 0
  size : Nat := 0
  buffer : List Nat := []
deriving DecidableEq, Repr

/-- The effect of `memcpy(buf + off, bytes, bytes.length)` inside `buf`. -/
def writeBytes (buf : List Nat) (off : Nat) (bytes : List Nat) : List Nat :=
  buf.take off ++ bytes ++ buf.drop (off + bytes.length)

/-- One iteration of the specialization-constant loop (lines 389-401). -/
def packConstant (p : ConstantPack) (r : Resource) : Except Abort ConstantPack :=
  if r.Kind = ResourceType.Constant then
    let entries := p.entries ++
      [{ constantID := r.ConstantID, offset := p.offset, size := r.ConstantSize }]
    let size := (p.size + r.ConstantSize) % 2 ^ 64
    let buffer := resize p.buffer size 0
    if r.ConstantData.length < r.ConstantSize ∨ buffer.length < p.offset + r.ConstantSize then
      .error Abort.Undefined
    else
      .ok { entries := entries,
            size := size,
            buffer := writeBytes buffer p.offset (r.ConstantData.take r.ConstantSize),
            offset := (p.offset + r.ConstantSize % 2 ^ 32) % 2 ^ 32 }
  else .ok p

/-- A loop whose body can end the run. -/
def foldExcept {ε σ α : Type} (f : σ → α → Except ε σ) : σ → List α → Except ε σ
  | s, [] => .ok s
  | s, a :: rest =>
    match f s a with
    | .error e => .error e
    | .ok s1 => foldExcept f s1 rest

/-- The specialization info of lines 378-407. -/
def specializationInfo (resources : List Resource) : Except Abort VkSpecializationInfo :=
  if resources.any (fun r => r.Kind = ResourceType.Constant) then
    match foldExcept packConstant {} resources with
    | .error e => .error e
    | .ok p => .ok { mapEntries := p.entries, dataSize := p.size, data := p.buffer }
  else .ok {}

/-- The second block of `Init` (lines 378-417): pack the specialization
constants and generate the shader. -/
def RendererStage.initShader (stage : RendererStage) (w : World) : Except Aborted World :=
  match stage.Info.Shader with
  | none => .ok w
  | some shader =>
    match specializationInfo stage.Info.Resources with
    | .error e => .error ⟨e, w.Log⟩
    | .ok info =>
      if stage.RenderPass ≠ VK_NULL_HANDLE then
        .ok { w with Log := w.Log ++ [Event.ShaderGenerate shader (some stage.RenderPass) info] }
      else
        .ok { w with Log := w.Log ++ [Event.ShaderGenerate shader none info] }

/-- The third block of `Init` (lines 419-429): the framebuffer of the stage. -/
def RendererStage.initFrameBuffer (stage : RendererStage) (w : World) :
    Except Aborted RendererStage :=
  if stage.Info.StageType ≠ RendererStageType.Blit ∧ stage.RenderPass ≠ VK_NULL_HANDLE then
    let fbAttachments := stage.Info.Attachments.map (fun a => a.Image)
    match fbAttachments.head? with
    | some (some first) =>
      .ok { stage with FrameBuffer :=
              { Created := true, Attachments := fbAttachments,
                RenderPass := stage.RenderPass, Extent := (w.Images first).Extent } }
    | _ => .error ⟨Abort.Undefined, w.Log⟩
  else .ok stage

/-- `RendererStage::Init` (lines 259-430). -/
def RendererStage.Init (ext : Collaborators) (ctx : Context) (stage : RendererStage)
    (w : World) : Except Aborted (RendererStage × World) :=
  match RendererStage.initRenderPass ext ctx stage w with
  | .error e => .error e
  | .ok built =>
    match RendererStage.initShader built.1 built.2 with
    | .error e => .error e
    | .ok w2 =>
      match RendererStage.initFrameBuffer built.1 w2 with
      | .error e => .error e
      | .ok stage2 => .ok (stage2, w2)

/-! ## `Renderer::Initialize` and `RendererFrame::Init` -/

/-- `RendererFrame::Init()` on the frame of slot `slot` (lines 142-153). -/
def RendererFrame.Init (ctx : Context) (slot : Nat) (this : RendererFrame) : RendererFrame :=
  { this with
    Device := ctx.Device,
    Queue := ctx.Queue,
    Swapchain := ctx.Swapchain,
    CommandPool := ctx.CreateCommandPool slot,
    CommandBuffer := ctx.CreateCommandBuffer (ctx.CreateCommandPool slot),
    Fence := ctx.CreateFence slot,
    PresentSemaphore := ctx.CreateVkSemaphore (2 * slot),
    RenderSemaphore := ctx.CreateVkSemaphore (2 * slot + 1) }

/-- `RendererFrame::Init(swapchainImage, renderPass)` (lines 155-170). -/
def RendererFrame.InitWithImage (ext : Collaborators) (ctx : Context)
    (images : ImageId → Image) (slot : Nat) (this : RendererFrame)
    (swapchainImage : ImageId) (renderPass : Handle) : RendererFrame :=
  { RendererFrame.Init ctx slot this with
    SwapchainImage := some swapchainImage,
    FrameBuffer :=
      { Created := true, Attachments := [some swapchainImage], RenderPass := renderPass,
        Extent := ext.DefaultExtent [images swapchainImage] } }

/-- The stage loop of `Initialize` (lines 48-65) over the stage objects and
the graph nodes from the same index on; `blit` is `blitRenderPass`. -/
def initStages (ext : Collaborators) (ctx : Context) :
    List RendererStage → List Node → Handle → World →
      Except Aborted (List RendererStage × Handle × World)
  | [], _, blit, w => .ok ([], blit, w)
  | _ :: _, [], _, w => .error ⟨Abort.Undefined, w.Log⟩
  | stage :: stages, node :: nodes, blit, w =>
    match RendererStage.Init ext ctx { stage with Info := node.StageInfo } w with
    | .error e => .error e
    | .ok built =>
      let stage1 := built.1
      let w1 := built.2
      let w2 :=
        if stage1.Info.StageType = RendererStageType.ImGui
        then { w1 with Data := { w1.Data with
                ImGuiLayer := some (ctx.CreateImGuiLayer stage1.RenderPass) } }
        else w1
      let blit1 :=
        if stage1.Info.StageType = RendererStageType.Blit then stage1.RenderPass else blit
      match initStages ext ctx stages nodes blit1 w2 with
      | .error e => .error e
      | .ok rest => .ok (stage1 :: rest.1, rest.2.1, rest.2.2)

/-- The frame loops of `Initialize` (lines 68-81) from slot `i` on. -/
def initFrames (ext : Collaborators) (ctx : Context) (images : ImageId → Image)
    (finalTarget : Bool) (blit : Handle) : Nat → List RendererFrame →
      Except Abort (List RendererFrame)
  | _, [] => .ok []
  | i, frame :: frames =>
    let first : Except Abort RendererFrame :=
      if finalTarget then
        match ctx.SwapchainImages[i]? with
        | some image => .ok (RendererFrame.InitWithImage ext ctx images i frame image blit)
        | none => .error Abort.Undefined
      else .ok (RendererFrame.Init ctx i frame)
    match first with
    | .error e => .error e
    | .ok frame1 =>
      match initFrames ext ctx images finalTarget blit (i + 1) frames with
      | .error e => .error e
      | .ok rest => .ok (frame1 :: rest)

/-- `Renderer::Initialize` (lines 35-82). -/
def Renderer.Initialize (ext : Collaborators) (ctx : Context) (renderGraph : RenderGraph)
    (w : World) : Except Aborted World :=
  let maxFrameCount := (ctx.frameCount % 2 ^ 32).toNat
  let stages := renderGraph.GetStages
  let objects := resize w.Data.Stages stages.length RendererStage.empty
  let w0 : World := { w with Data := { w.Data with
    MaxFrameCount := maxFrameCount, Graph := renderGraph, Stages := objects } }
  match initStages ext ctx objects stages VK_NULL_HANDLE w0 with
  | .error e => .error e
  | .ok loop =>
    let built := loop.1
    let blitRenderPass := loop.2.1
    let w1 := loop.2.2
    let w2 : World := { w1 with Data := { w1.Data with Stages := built } }
    let frames := resize w2.Data.Frames w2.Data.MaxFrameCount ({} : RendererFrame)
    match initFrames ext ctx w2.Images w2.Data.FinalTarget.isSome blitRenderPass 0 frames with
    | .error e => .error ⟨e, w2.Log⟩
    | .ok frames1 => .ok { w2 with Data := { w2.Data with Frames := frames1 } }

/-- `Renderer::Cleanup` (lines 102-114). -/
def Renderer.Cleanup (w : World) : World :=
  { w with Data := { w.Data with
      FinalTarget := none, Frames := [], Stages := [], Graph := {}, ImGuiLayer := none } }

/-! ## `RendererStage::BindResources` -/

/-- Append the events `es` to the log. -/
def World.record (w : World) (es : List Event) : World :=
  { w with Log := w.Log ++ es }

/-- The image info the source fills in for a texture (lines 660-664 and
698-701). -/
def imageInfo (images : ImageId → Image) (texture : ImageId) : VkDescriptorImageInfo :=
  { sampler := (images texture).Sampler,
    imageView := (images texture).ImageView,
    imageLayout := (images texture).ImageLayout }

/-- One iteration of the resource loop of `BindResources` (lines 654-708): the
calls made on the descriptor builder `db` for resource `r`. -/
def bindResource (images : ImageId → Image) (db : List DescriptorWrite) (r : Resource) :
    List DescriptorWrite :=
  match r.Kind with
  | ResourceType.Sampler =>
    db ++ [DescriptorWrite.BindImage r.Binding (imageInfo images r.Texture)
            VkDescriptorType.COMBINED_IMAGE_SAMPLER r.BindLocation]
  | ResourceType.Storage =>
    db ++ [DescriptorWrite.BindBuffer r.Binding
            { buffer := r.Buffer.Handle, offset := 0, range := VK_WHOLE_SIZE }
            r.Buffer.Description r.BindLocation]
  | ResourceType.Uniform =>
    db ++ [DescriptorWrite.BindBuffer r.Binding
            { buffer := r.Buffer.Handle, offset := 0, range := VK_WHOLE_SIZE }
            r.Buffer.Description r.BindLocation]
  | ResourceType.PushConstant => db
  | ResourceType.Constant => db
  | ResourceType.SamplerArray =>
    db ++ [DescriptorWrite.BindImageArray r.Binding (r.Images.map (imageInfo images))
            VkDescriptorType.COMBINED_IMAGE_SAMPLER r.BindLocation
            r.Images.length r.ArrayMaxCount]

/-- `RendererStage::BindResources(commandBuffer, allocator)` (lines 645-725);
`slot` is the frame slot whose `DescriptorAllocator` is passed. -/
def RendererStage.BindResources (stage : RendererStage) (commandBuffer : Handle)
    (slot : Nat) (w : World) : Except Aborted World :=
  let db := stage.Info.Resources.foldl (bindResource w.Images) []
  let w1 := w.record [Event.DescriptorBuild slot db]
  match stage.Info.Shader with
  | none => .error ⟨Abort.Undefined, w1.Log⟩
  | some shader =>
    .ok (w1.record [Event.CmdBindDescriptorSets commandBuffer stage.Info.StageType shader 0 1])

/-! ## `RendererStage::Execute` and the stage bodies -/

/-- `Image::ExecuteBarrier(commandBuffer, {oldLayout, newLayout})` on image
`image`: one barrier is recorded; the layout the image is tracked in afterwards
is left to `ext.BarrierTracks`. -/
def Image.ExecuteBarrier (ext : Collaborators) (commandBuffer : Handle) (image : ImageId)
    (oldLayout newLayout : Hog.ImageLayout) (w : World) : World :=
  { w with
    Log := w.Log ++ [Event.ImageBarrier commandBuffer image oldLayout newLayout],
    Images := Function.update w.Images image
      ({ w.Images image with
        ImageLayout := ext.BarrierTracks (w.Images image).ImageLayout oldLayout newLayout }) }

/-- `Image::SetImageLayout(layout)` on image `image`. -/
def Image.SetImageLayout (image : ImageId) (layout : Hog.ImageLayout) (w : World) : World :=
  { w with
    Images := Function.update w.Images image
      ({ w.Images image with ImageLayout := layout }) }

/-- One iteration of the first loop of `Execute` (lines 434-443). -/
def preBarrier (ext : Collaborators) (commandBuffer : Handle) (w : World) (a : Attachment) :
    World :=
  match a.Image with
  | some image =>
    if (w.Images image).ImageLayout ≠ a.Barrier.OldLayout
        ∧ a.Barrier.OldLayout ≠ ImageLayout.Undefined then
      Image.ExecuteBarrier ext commandBuffer image (w.Images image).ImageLayout
        a.Barrier.OldLayout w
    else w
  | none => w

/-- One iteration of the last loop of `Execute` (lines 467-473). -/
def postUpdate (w : World) (a : Attachment) : World :=
  match a.Image with
  | some image => Image.SetImageLayout image a.Barrier.NewLayout w
  | none => w

/-- The viewport of lines 508-514. -/
def viewportOf (extent : VkExtent2D) : VkViewport :=
  { x := 0, y := 0, width := extent.width, height := extent.height,
    minDepth := 0, maxDepth := 1 }

/-- The scissor of lines 516-518. -/
def scissorOf (extent : VkExtent2D) : VkRect2D :=
  { offsetX := 0, offsetY := 0, extent := extent }

/-- One iteration of the resource loop inside the mesh loop (lines 532-545)
for mesh `m`: the matrix is copied into the scratch block of a push-constant
resource and pushed from there. -/
def pushConstants (commandBuffer shader : Handle) (m : Mesh) (w : World) (r : Resource) :
    Except Aborted World :=
  match r.Kind with
  | ResourceType.PushConstant =>
    if r.ConstantSize ≤ m.ModelMatrix.length then
      .ok (w.record [Event.CmdPushConstants commandBuffer shader r.BindLocation 0
            (r.ConstantSize % 2 ^ 32) (m.ModelMatrix.take r.ConstantSize)])
    else .error ⟨Abort.Undefined, w.Log⟩
  | _ => .ok w

/-- One iteration of the mesh loop (lines 529-548). -/
def drawMesh (commandBuffer shader : Handle) (resources : List Resource) (w : World)
    (m : Mesh) : Except Aborted World :=
  match foldExcept (pushConstants commandBuffer shader m) w resources with
  | .error e => .error e
  | .ok w1 => .ok (w1.record [Event.MeshDraw commandBuffer m.Id])

/-- `s_Data.GetCurrentFrame()`: the frame at the current frame index. -/
def RendererData.GetCurrentFrame (d : RendererData) : Option RendererFrame :=
  d.Frames[d.FrameIndex]?

/-- `RendererStage::ForwardGraphics` (lines 482-551). -/
def RendererStage.ForwardGraphics (stage : RendererStage) (commandBuffer : Handle)
    (w : World) : Except Aborted World :=
  match w.Data.GetCurrentFrame with
  | none => .error ⟨Abort.Undefined, w.Log⟩
  | some currentFrame =>
    let extent := currentFrame.FrameBuffer.Extent
    let w1 := w.record
      [Event.CmdBeginRenderPass2 commandBuffer stage.RenderPass stage.FrameBuffer extent
          stage.ClearValues,
       Event.CmdSetViewport commandBuffer (viewportOf extent),
       Event.CmdSetScissor commandBuffer (scissorOf extent),
       Event.CmdSetDepthBias commandBuffer]
    match stage.Info.Shader with
    | none => .error ⟨Abort.Undefined, w1.Log⟩
    | some shader =>
      let w2 := w1.record [Event.ShaderBind commandBuffer shader]
      match RendererStage.BindResources stage commandBuffer w2.Data.FrameIndex w2 with
      | .error e => .error e
      | .ok w3 =>
        match foldExcept (drawMesh commandBuffer shader stage.Info.Resources) w3
            stage.Info.Meshes with
        | .error e => .error e
        | .ok w4 => .ok (w4.record [Event.CmdEndRenderPass commandBuffer])

/-- `RendererStage::ForwardCompute` (lines 553-563). -/
def RendererStage.ForwardCompute (stage : RendererStage) (commandBuffer : Handle)
    (w : World) : Except Aborted World :=
  match stage.Info.Shader with
  | none => .error ⟨Abort.Undefined, w.Log⟩
  | some shader =>
    let w1 := w.record [Event.ShaderBind commandBuffer shader]
    match w1.Data.GetCurrentFrame with
    | none => .error ⟨Abort.Undefined, w1.Log⟩
    | some _ =>
      match RendererStage.BindResources stage commandBuffer w1.Data.FrameIndex w1 with
      | .error e => .error e
      | .ok w2 =>
        .ok (w2.record [Event.CmdDispatch commandBuffer stage.Info.GroupCounts.1
              stage.Info.GroupCounts.2.1 stage.Info.GroupCounts.2.2])

/-- `RendererStage::ImGui` (lines 565-592). -/
def RendererStage.ImGui (stage : RendererStage) (commandBuffer : Handle) (w : World) :
    Except Aborted World :=
  let w1 := w.record
    [Event.CmdBeginRenderPass2 commandBuffer stage.RenderPass stage.FrameBuffer
        stage.FrameBuffer.Extent stage.ClearValues]
  match w1.Data.ImGuiLayer with
  | none => .error ⟨Abort.Undefined, w1.Log⟩
  | some layer =>
    .ok (w1.record [Event.ImGuiLayerDraw commandBuffer layer,
                    Event.CmdEndRenderPass commandBuffer])

/-- `RendererStage::BlitStage` (lines 594-643). -/
def RendererStage.BlitStage (stage : RendererStage) (commandBuffer : Handle) (w : World) :
    Except Aborted World :=
  match w.Data.GetCurrentFrame with
  | none => .error ⟨Abort.Undefined, w.Log⟩
  | some currentFrame =>
    let extent := currentFrame.FrameBuffer.Extent
    let w1 := w.record
      [Event.CmdBeginRenderPass2 commandBuffer stage.RenderPass currentFrame.FrameBuffer
          extent stage.ClearValues,
       Event.CmdSetViewport commandBuffer (viewportOf extent),
       Event.CmdSetScissor commandBuffer (scissorOf extent),
       Event.CmdSetDepthBias commandBuffer]
    match stage.Info.Shader with
    | none => .error ⟨Abort.Undefined, w1.Log⟩
    | some shader =>
      let w2 := w1.record [Event.ShaderBind commandBuffer shader]
      match RendererStage.BindResources stage commandBuffer w2.Data.FrameIndex w2 with
      | .error e => .error e
      | .ok w3 =>
        .ok (w3.record [Event.CmdDraw commandBuffer 3 1 0 0,
                        Event.CmdEndRenderPass commandBuffer])

/-- The switch of `Execute` (lines 445-465). -/
def RendererStage.dispatch (stage : RendererStage) (commandBuffer : Handle) (w : World) :
    Except Aborted World :=
  match stage.Info.StageType with
  | RendererStageType.Blit => RendererStage.BlitStage stage commandBuffer w
  | RendererStageType.DeferredCompute => RendererStage.ForwardCompute stage commandBuffer w
  | RendererStageType.ForwardCompute => RendererStage.ForwardCompute stage commandBuffer w
  | RendererStageType.ImGui => RendererStage.ImGui stage commandBuffer w
  | RendererStageType.ForwardGraphics => RendererStage.ForwardGraphics stage commandBuffer w
  | RendererStageType.DeferredGraphics => RendererStage.ForwardGraphics stage commandBuffer w

/-- `RendererStage::Execute(commandBuffer)` (lines 432-474). -/
def RendererStage.Execute (ext : Collaborators) (stage : RendererStage)
    (commandBuffer : Handle) (w : World) : Except Aborted World :=
  let w1 := stage.Info.Attachments.foldl (preBarrier ext commandBuffer) w
  match RendererStage.dispatch stage commandBuffer w1 with
  | .error e => .error e
  | .ok w2 => .ok (stage.Info.Attachments.foldl postUpdate w2)

/-! ## `RendererFrame::BeginFrame`, `RendererFrame::EndFrame`, `Renderer::Draw` -/

/-- `RendererFrame::BeginFrame` (lines 172-193) on the frame `this` of slot
`slot`. The result of the acquisition is not looked at; the acquisition
writes the image index into `s_Data.FrameIndex`. -/
def RendererFrame.BeginFrame (ext : Collaborators) (env : DrawEnv) (slot : Nat)
    (this : RendererFrame) (w : World) : Except Aborted World :=
  let w1 := w.record [Event.WaitForFences this.Device this.Fence]
  match CheckVkResult env.waitResult with
  | .error e => .error ⟨e, w1.Log⟩
  | .ok _ =>
    let w2 := w1.record [Event.ResetFences this.Device this.Fence]
    let w3 := w2.record [Event.ResetPools slot]
    let w4 := w3.record
      [Event.AcquireNextImage this.Device this.Swapchain this.PresentSemaphore]
    let w5 : World := { w4 with Data := { w4.Data with FrameIndex := env.imageIndex % 2 ^ 32 } }
    let w6 := w5.record [Event.BeginCommandBuffer this.CommandBuffer]
    match CheckVkResult env.beginResult with
    | .error e => .error ⟨e, w6.Log⟩
    | .ok _ =>
      match this.SwapchainImage with
      | some image =>
        .ok (Image.ExecuteBarrier ext this.CommandBuffer image ImageLayout.Undefined
              ImageLayout.ColorAttachmentOptimal w6)
      | none => .ok w6

/-- `RendererFrame::EndFrame` (lines 195-247) on the frame `this`. -/
def RendererFrame.EndFrame (env : DrawEnv) (this : RendererFrame) (w : World) :
    Except Aborted World :=
  let w1 := w.record [Event.EndCommandBuffer this.CommandBuffer]
  match CheckVkResult env.endResult with
  | .error e => .error ⟨e, w1.Log⟩
  | .ok _ =>
    let w2 := w1.record
      [Event.QueueSubmit2 this.Queue [this.PresentSemaphore] [this.CommandBuffer]
          [this.RenderSemaphore] this.Fence]
    match CheckVkResult env.submitResult with
    | .error e => .error ⟨e, w2.Log⟩
    | .ok _ =>
      if w2.Data.FinalTarget.isSome then
        let w3 := w2.record
          [Event.QueuePresent this.Queue [this.RenderSemaphore] [this.Swapchain]
              [w2.Data.FrameIndex]]
        match CheckVkResult env.presentResult with
        | .error e => .error ⟨e, w3.Log⟩
        | .ok _ => .ok w3
      else .ok w2

/-- The stage loop of `Draw` (lines 92-95). -/
def executeStages (ext : Collaborators) (commandBuffer : Handle) (w : World)
    (stages : List RendererStage) : Except Aborted World :=
  foldExcept (fun s stage => RendererStage.Execute ext stage commandBuffer s) w stages

/-- The frame-advance step of `Draw` (line 99) on the `uint32_t` frame index. -/
def advanceFrameIndex (d : RendererData) : RendererData :=
  { d with FrameIndex := ((d.FrameIndex + 1) % 2 ^ 32) % d.MaxFrameCount }

/-- `Renderer::Draw` (lines 84-100). `currentFrame` is bound to the frame at the
index held on entry and is used for `BeginFrame`, the command buffer and
`EndFrame`. -/
def Renderer.Draw (ext : Collaborators) (env : DrawEnv) (w : World) : Except Aborted World :=
  let slot := w.Data.FrameIndex
  match w.Data.Frames[slot]? with
  | none => .error ⟨Abort.Undefined, w.Log⟩
  | some currentFrame =>
    match RendererFrame.BeginFrame ext env slot currentFrame w with
    | .error e => .error e
    | .ok w1 =>
      match executeStages ext currentFrame.CommandBuffer w1 w1.Data.Stages with
      | .error e => .error e
      | .ok w2 =>
        match RendererFrame.EndFrame env currentFrame w2 with
        | .error e => .error e
        | .ok w3 =>
          if w3.Data.MaxFrameCount = 0 then .error ⟨Abort.Undefined, w3.Log⟩
          else .ok { w3 with Data := advanceFrameIndex w3.Data }

/-- A run of `Draw` calls, one per element of `envs`. -/
def drawFrames (ext : Collaborators) : List DrawEnv → World → Except Aborted World
  | [], w => .ok w
  | env :: envs, w =>
    match Renderer.Draw ext env w with
    | .error e => .error e
    | .ok w1 => drawFrames ext envs w1

/-! ## Observations on runs -/

/-- The calls made by a run, whether it returned or not. -/
def outcomeLog : Except Aborted World → List Event
  | .ok w => w.Log
  | .error a => a.Log

/-- The world a run returned, or `w` when it did not return. -/
def returned (w : World) : Except Aborted World → World
  | .ok w1 => w1
  | .error _ => w

/-- Whether a run returned. -/
def returns : Except Aborted World → Bool
  | .ok _ => true
  | .error _ => false

/-- The part of `log` recorded after the first `n` calls. -/
def recordedSince (n : Nat) (log : List Event) : List Event := log.drop n

/-- Whether a call is a push-constant update. -/
def Event.isPushConstants : Event → Bool
  | Event.CmdPushConstants _ _ _ _ _ _ => true
  | _ => false

/-- Whether a call is the draw call of a mesh. -/
def Event.isMeshDraw : Event → Bool
  | Event.MeshDraw _ _ => true
  | _ => false

/-- The frame slot whose descriptor pools a call resets. -/
def Event.resetSlot : Event → Option Nat
  | Event.ResetPools slot => some slot
  | _ => none

/-- The frame slot from whose descriptor allocator a call allocates a set. -/
def Event.allocationSlot : Event → Option Nat
  | Event.DescriptorBuild slot _ => some slot
  | _ => none

/-! ## The render graph of `GraphicsExample::OnAttach` -/

namespace Example

/-- Collaborators used to run the examples: conversions that narrow the flags,
barriers that leave the image tracked in their new layout. -/
def collaborators : Collaborators :=
  { ToStageFlags1 := fun f => f % 2 ^ 32,
    ToAccessFlags1 := fun f => f % 2 ^ 32,
    BarrierTracks := fun _ _ newLayout => newLayout,
    DefaultExtent := fun _ => ⟨1280, 720⟩ }

/-- A context with two frames in flight and two swapchain images. -/
def context : Context :=
  { frameCount := 2,
    Device := 1, Queue := 2, Swapchain := 3, SwapchainFormat := 44,
    SwapchainImages := [100, 101],
    CreateCommandPool := fun i => 10 + i,
    CreateCommandBuffer := fun pool => 10 + pool,
    CreateFence := fun i => 30 + i,
    CreateVkSemaphore := fun i => 40 + i,
    CreateRenderPass2 := fun info => (VK_SUCCESS, 50 + info.attachments.length),
    CreateImGuiLayer := fun renderPass => 60 + renderPass }

/-- Image 1 is the colour target (the final render target), image 2 the depth
image. -/
def colorAttachment : ImageId := 1

def depthAttachment : ImageId := 2

def meshA : Mesh := ⟨201, List.replicate 64 1, rfl⟩

def meshB : Mesh := ⟨202, List.replicate 64 2, rfl⟩

/-- The push-constant resource `p_Model`, of the size of one matrix. -/
def pushConstant : Resource :=
  { Name := "p_Model", Kind := ResourceType.PushConstant, BindLocation := 1,
    ConstantSize := 64 }

/-- The `ForwardGraphics` stage of lines 39-58. -/
def graphicsStage : StageDescription :=
  { Name := "ForwardGraphics", Shader := some 70,
    StageType := RendererStageType.ForwardGraphics,
    Resources :=
      [ { Name := "u_ViewProjection", Kind := ResourceType.Uniform, BindLocation := 1,
          Buffer := ⟨7, BufferType.UniformBuffer⟩, Binding := 0, Set := 0 },
        { Name := "u_Materials", Kind := ResourceType.Uniform, BindLocation := 16,
          Buffer := ⟨8, BufferType.UniformBuffer⟩, Binding := 1, Set := 0 },
        { Name := "u_Textures", Kind := ResourceType.SamplerArray, BindLocation := 16,
          Images := [10, 11, 12], Binding := 2, Set := 0, ArrayMaxCount := 512 },
        pushConstant ],
    Meshes := [meshA, meshB],
    Attachments :=
      [ { Name := "Color", Kind := AttachmentType.Color, Image := some colorAttachment,
          Clear := true,
          Barrier := { OldLayout := ImageLayout.ColorAttachmentOptimal,
                       NewLayout := ImageLayout.ShaderReadOnlyOptimal } },
        { Name := "Depth", Kind := AttachmentType.Depth, Image := some depthAttachment,
          Clear := true,
          Barrier := { OldLayout := ImageLayout.DepthStencilAttachmentOptimal,
                       NewLayout := ImageLayout.DepthStencilAttachmentOptimal } } ] }

/-- The graphics stage as a stage object. -/
def graphicsObject : RendererStage := { Info := graphicsStage }

/-- The `Blit` stage of lines 71-78, sampling the colour target. -/
def blitStage : StageDescription :=
  { Name := "BlitStage", Shader := some 71, StageType := RendererStageType.Blit,
    Resources :=
      [ { Name := "FinalRender", Kind := ResourceType.Sampler, BindLocation := 16,
          Texture := colorAttachment, Binding := 0, Set := 0 } ],
    Meshes := [],
    Attachments :=
      [ { Name := "SwapchainImage", Kind := AttachmentType.Swapchain, Image := none,
          Clear := true,
          Barrier := { OldLayout := ImageLayout.ColorAttachmentOptimal,
                       NewLayout := ImageLayout.PresentSrcKHR } } ] }

/-- The graph of `GraphicsExample::OnAttach`: the graphics stage, then the blit
stage added under it. -/
def graph : RenderGraph :=
  { Nodes := [ { StageInfo := graphicsStage, Parent := none },
               { StageInfo := blitStage, Parent := some 0 } ] }

/-- The state before `Renderer::Initialize`: `GetFinalRenderTarget` has set the
final target to the colour image. -/
def start : World :=
  { Data := { FinalTarget := some colorAttachment } }

/-- The state after `Renderer::Initialize(graph)`. -/
def initialized : World :=
  returned start (Renderer.Initialize collaborators context graph start)

/-- A driver that succeeds in every call and acquires image `i`. -/
def success (i : Nat) : DrawEnv :=
  { waitResult := VK_SUCCESS, acquireResult := VK_SUCCESS, imageIndex := i,
    beginResult := VK_SUCCESS, endResult := VK_SUCCESS, submitResult := VK_SUCCESS,
    presentResult := VK_SUCCESS }

/-- The state after the first `Draw`, which acquires image 0. -/
def firstFrame : World :=
  returned initialized (Renderer.Draw collaborators (success 0) initialized)

/-- A scene stage that renders into the colour image and leaves it in
`ColorAttachmentOptimal` for the overlay. -/
def sceneStage : StageDescription :=
  { Name := "Scene", Shader := some 70, StageType := RendererStageType.ForwardGraphics,
    Resources := [], Meshes := [],
    Attachments :=
      [ { Name := "Color", Kind := AttachmentType.Color, Image := some colorAttachment,
          Clear := true,
          Barrier := { OldLayout := ImageLayout.ColorAttachmentOptimal,
                       NewLayout := ImageLayout.ColorAttachmentOptimal } } ] }

/-- An overlay stage that draws over the same colour image and leaves it in
`ShaderReadOnlyOptimal` for the blit. -/
def overlayStage : StageDescription :=
  { Name := "ImGuiStage", Shader := none, StageType := RendererStageType.ImGui,
    Resources := [], Meshes := [],
    Attachments :=
      [ { Name := "ColorTarget", Kind := AttachmentType.Color, Image := some colorAttachment,
          Clear := false,
          Barrier := { OldLayout := ImageLayout.ColorAttachmentOptimal,
                       NewLayout := ImageLayout.ShaderReadOnlyOptimal } } ] }

/-- A graph in which the blit stage samples the colour attachment produced by
the scene stage and drawn over by the overlay stage. -/
def overlayGraph : RenderGraph :=
  { Nodes := [ { StageInfo := sceneStage, Parent := none },
               { StageInfo := overlayStage, Parent := some 0 },
               { StageInfo := blitStage, Parent := some 1 } ] }

/-- The state after `Renderer::Initialize(overlayGraph)`. -/
def overlayInitialized : World :=
  returned start (Renderer.Initialize collaborators context overlayGraph start)

/-- The colour attachment as the scene stage declares it. -/
def sceneColor : Attachment :=
  { Name := "Color", Kind := AttachmentType.Color, Image := some colorAttachment,
    Clear := true,
    Barrier := { OldLayout := ImageLayout.ColorAttachmentOptimal,
                 NewLayout := ImageLayout.ColorAttachmentOptimal } }

/-- A driver whose acquisition fails with `VK_ERROR_OUT_OF_DATE_KHR`, leaving
`i` in the index, while every other call succeeds. -/
def acquireFails (i : Nat) : DrawEnv :=
  { success i with acquireResult := VK_ERROR_OUT_OF_DATE_KHR }

/-- Frame slot 0 after `Initialize`. -/
def frame0 : RendererFrame :=
  { Device := 1, Queue := 2, Swapchain := 3, CommandPool := 10, CommandBuffer := 20,
    Fence := 30, PresentSemaphore := 40, RenderSemaphore := 41,
    SwapchainImage := some 100,
    FrameBuffer := { Created := true, Attachments := [some 100], RenderPass := 51,
                     Extent := ⟨1280, 720⟩ } }

/-- A stage with one `Uniform`, one `Sampler` and one `SamplerArray` of
capacity 512 with three bound images. -/
def bindingStage : RendererStage :=
  { Info :=
      { Name := "Bindings", Shader := some 70,
        StageType := RendererStageType.ForwardGraphics,
        Resources :=
          [ { Name := "u_ViewProjection", Kind := ResourceType.Uniform, BindLocation := 1,
              Buffer := ⟨7, BufferType.UniformBuffer⟩, Binding := 0 },
            { Name := "u_Color", Kind := ResourceType.Sampler, BindLocation := 16,
              Texture := colorAttachment, Binding := 1 },
            { Name := "u_Textures", Kind := ResourceType.SamplerArray, BindLocation := 16,
              Images := [10, 11, 12], Binding := 2, ArrayMaxCount := 512 } ],
        Meshes := [], Attachments := [] } }

/-- Ten frames in which the acquired image index is the index of the frame
slot in use. -/
def tenFrames : List DrawEnv :=
  [success 0, success 1, success 0, success 1, success 0,
   success 1, success 0, success 1, success 0, success 1]

/-- The state after the ten frames on the graph of the example. -/
def afterTenFrames : World :=
  returned initialized (drawFrames collaborators tenFrames initialized)

/-- The state after the ten frames on the graph with the overlay. -/
def overlayAfterTenFrames : World :=
  returned overlayInitialized (drawFrames collaborators tenFrames overlayInitialized)

/-- A blit stage whose swapchain attachment is declared with old layout
`Undefined` and the `Clear` flag set, as a stage object before `Init`. -/
def undefinedStage : RendererStage :=
  { Info :=
      { Name := "Undefined", Shader := none, StageType := RendererStageType.Blit,
        Resources := [], Meshes := [],
        Attachments :=
          [ { Name := "Target", Kind := AttachmentType.Swapchain, Image := none,
              Clear := true,
              Barrier := { OldLayout := ImageLayout.Undefined,
                           NewLayout := ImageLayout.PresentSrcKHR } } ] } }

/-- The stage and the world `Init` returns for `undefinedStage`. -/
def undefinedInit : RendererStage × World :=
  match RendererStage.Init collaborators context undefinedStage start with
  | .ok r => r
  | .error _ => (undefinedStage, start)

end Example

/-! ## The binding rule in the words of the specification -/

/-- The descriptor binding section 4.4 of the specification assigns to a
resource: one buffer descriptor over the whole range for `Uniform` and
`Storage`, one combined image sampler for `Sampler`, one array of combined
image samplers (an element per bound image, declared with the maximum
capacity) for `SamplerArray`, and none for `PushConstant` and
`SpecializationConstant`. -/
def descriptorOf (images : ImageId → Image) (r : Resource) : Option DescriptorWrite :=
  if r.Kind = ResourceType.Uniform ∨ r.Kind = ResourceType.Storage then
    some (DescriptorWrite.BindBuffer r.Binding
      { buffer := r.Buffer.Handle, offset := 0, range := VK_WHOLE_SIZE }
      r.Buffer.Description r.BindLocation)
  else if r.Kind = ResourceType.Sampler then
    some (DescriptorWrite.BindImage r.Binding (imageInfo images r.Texture)
      VkDescriptorType.COMBINED_IMAGE_SAMPLER r.BindLocation)
  else if r.Kind = ResourceType.SamplerArray then
    some (DescriptorWrite.BindImageArray r.Binding (r.Images.map (imageInfo images))
      VkDescriptorType.COMBINED_IMAGE_SAMPLER r.BindLocation r.Images.length r.ArrayMaxCount)
  else none

/-- Whether the specification gives resources of this kind a descriptor. -/
def hasDescriptor (k : ResourceType) : Bool :=
  k = ResourceType.Uniform || k = ResourceType.Storage || k = ResourceType.Sampler
    || k = ResourceType.SamplerArray

/-- The push-constant update and the draw call recorded for mesh `m`, for a
push-constant resource `r` of the size of one matrix. -/
def meshCalls (commandBuffer shader : Handle) (r : Resource) (m : Mesh) : List Event :=
  [Event.CmdPushConstants commandBuffer shader r.BindLocation 0 64 m.ModelMatrix,
   Event.MeshDraw commandBuffer m.Id]

/-- Whether a call is a layout-transition barrier. -/
def Event.isImageBarrier : Event → Bool
  | Event.ImageBarrier _ _ _ _ => true
  | _ => false

/-- The push-constant update recorded for mesh `m` and push-constant resource
`x`. -/
def pushCall (commandBuffer shader : Handle) (m : Mesh) (x : Resource) : Event :=
  Event.CmdPushConstants commandBuffer shader x.BindLocation 0 (x.ConstantSize % 2 ^ 32)
    (m.ModelMatrix.take x.ConstantSize)

/-- Whether a resource is a push constant. -/
def Resource.isPushConstant (x : Resource) : Bool :=
  x.Kind = ResourceType.PushConstant

/-- The calls a graphics stage records before its mesh loop, for the frame
`frame` that is current: pass begin, dynamic state, pipeline and descriptors. -/
def graphicsPrologue (stage : RendererStage) (commandBuffer shader : Handle)
    (frame : RendererFrame) (slot : Nat) (images : ImageId → Image) : List Event :=
  [Event.CmdBeginRenderPass2 commandBuffer stage.RenderPass stage.FrameBuffer
      frame.FrameBuffer.Extent stage.ClearValues,
   Event.CmdSetViewport commandBuffer (viewportOf frame.FrameBuffer.Extent),
   Event.CmdSetScissor commandBuffer (scissorOf frame.FrameBuffer.Extent),
   Event.CmdSetDepthBias commandBuffer,
   Event.ShaderBind commandBuffer shader,
   Event.DescriptorBuild slot (stage.Info.Resources.filterMap (descriptorOf images)),
   Event.CmdBindDescriptorSets commandBuffer stage.Info.StageType shader 0 1]

/-- World `w1` differs from `w` only by calls added to the log. -/
def Quiet (w w1 : World) : Prop :=
  (∃ es, w1.Log = w.Log ++ es) ∧ w1.Data = w.Data ∧ w1.Images = w.Images

/-- The worlds `ws` passed through while the stages are executed in list order
with command buffer `cb`: the stage at index `i` takes the world at index `i`
to the world at index `i + 1`, and only adds calls to the log. -/
def StageChain (ext : Collaborators) (cb : Handle) (stages : List RendererStage)
    (ws : List World) : Prop :=
  ws.length = stages.length + 1 ∧
  ∀ (i : Nat) (stage : RendererStage) (wi wj : World),
    stages[i]? = some stage → ws[i]? = some wi → ws[i + 1]? = some wj →
      RendererStage.Execute ext stage cb wi = .ok wj ∧ ∃ es, wj.Log = wi.Log ++ es

/-- Attachments backed by the same image declare the same new layout. -/
def ConsistentLayouts (stages : List RendererStage) : Prop :=
  ∀ s1 ∈ stages, ∀ a1 ∈ s1.Info.Attachments, ∀ s2 ∈ stages, ∀ a2 ∈ s2.Info.Attachments,
    a1.Image.isSome = true → a1.Image = a2.Image →
      a1.Barrier.NewLayout = a2.Barrier.NewLayout

instance ConsistentLayouts.decidable (stages : List RendererStage) :
    Decidable (ConsistentLayouts stages) := by
  unfold ConsistentLayouts
  infer_instance

/-- The tracked layout of the backing image of every attachment of every stage
is the new layout the attachment declares. -/
def LayoutsTracked (w : World) : Prop :=
  ∀ s ∈ w.Data.Stages, ∀ a ∈ s.Info.Attachments, ∀ id : ImageId, a.Image = some id →
    (w.Images id).ImageLayout = a.Barrier.NewLayout

/-! ## The render pass in the words of the specification -/

/-- The external-to-subpass dependency section 4.2 of the specification asks
for attachment `a`: source the external scope, destination subpass 0, masks
the conversions of the declared barrier masks. -/
def dependencyOf (ext : Collaborators) (a : Attachment) : VkSubpassDependency2 :=
  { srcSubpass := VK_SUBPASS_EXTERNAL,
    dstSubpass := 0,
    srcStageMask := ext.ToStageFlags1 a.Barrier.SrcStage,
    dstStageMask := ext.ToStageFlags1 a.Barrier.DstStage,
    srcAccessMask := ext.ToAccessFlags1 a.Barrier.SrcAccessMask,
    dstAccessMask := ext.ToAccessFlags1 a.Barrier.DstAccessMask }

/-- Whether an attachment is of kind `Color` or `Swapchain`. -/
def Attachment.isColor (a : Attachment) : Bool :=
  a.Kind = AttachmentType.Color || a.Kind = AttachmentType.Swapchain

/-- Whether an attachment is of kind `Depth`. -/
def Attachment.isDepth (a : Attachment) : Bool :=
  a.Kind = AttachmentType.Depth

/-- The reference to attachment index `i` in layout `ColorAttachmentOptimal`. -/
def colorReference (i : Nat) : VkAttachmentReference2 :=
  { attachment := i, layout := ImageLayout.ColorAttachmentOptimal.code }

/-- The reference to attachment index `i` in layout
`DepthStencilAttachmentOptimal`. -/
def depthReference (i : Nat) : VkAttachmentReference2 :=
  { attachment := i, layout := ImageLayout.DepthStencilAttachmentOptimal.code }

/-- The colour references of a subpass in the words of the specification: the
indices of the attachments of kind `Color` or `Swapchain`, in declaration
order, starting to count at `i`. -/
def colorReferencesFrom (i : Nat) (atts : List Attachment) : List VkAttachmentReference2 :=
  ((atts.enumFrom i).filter (fun p => p.2.isColor)).map (fun p => colorReference p.1)

/-- The references to the attachments of kind `Depth`, in declaration order,
starting to count at `i`. -/
def depthReferencesFrom (i : Nat) (atts : List Attachment) : List VkAttachmentReference2 :=
  ((atts.enumFrom i).filter (fun p => p.2.isDepth)).map (fun p => depthReference p.1)

/-- The value `Init` leaves in `ClearValues[i]` for attachment `a` when the
entry held `old`. -/
def cachedClearValue (old : VkClearValue) (a : Attachment) : VkClearValue :=
  if a.Clear then
    if a.isColor then VkClearValue.color 0 0 0 1 else setClearDepth old
  else old

/-- The create-info a call hands to `vkCreateRenderPass2`. -/
def Event.createInfo : Event → Option VkRenderPassCreateInfo2
  | Event.CreateRenderPass2 info => some info
  | _ => none

/-- The attachment description at index `i` of the first render pass created
in `log`. -/
def createdDescription (log : List Event) (i : Nat) : Option VkAttachmentDescription2 :=
  ((log.filterMap Event.createInfo).head?).bind (fun info => info.attachments[i]?)

namespace Example

/-- The stage and the world `Init` returns for the graphics stage of the
example. -/
def graphicsInit : RendererStage × World :=
  match RendererStage.Init collaborators context graphicsObject start with
  | .ok r => r
  | .error _ => (graphicsObject, start)

/-- The depth attachment of the graphics stage of the example. -/
def depthOfGraphics : Attachment :=
  { Name := "Depth", Kind := AttachmentType.Depth, Image := some depthAttachment,
    Clear := true,
    Barrier := { OldLayout := ImageLayout.DepthStencilAttachmentOptimal,
                 NewLayout := ImageLayout.DepthStencilAttachmentOptimal } }

/-- A depth/stencil attachment declared with old layout `Undefined` and the
`Clear` flag set. -/
def freshDepthStencil : Attachment :=
  { Name := "DepthStencil", Kind := AttachmentType.DepthStencil,
    Image := some depthAttachment, Clear := true,
    Barrier := { OldLayout := ImageLayout.Undefined,
                 NewLayout := ImageLayout.DepthStencilAttachmentOptimal } }

/-- A depth/stencil attachment that loads what an earlier stage left. -/
def loadedDepthStencil : Attachment :=
  { Name := "DepthStencil", Kind := AttachmentType.DepthStencil,
    Image := some depthAttachment, Clear := false,
    Barrier := { OldLayout := ImageLayout.DepthStencilAttachmentOptimal,
                 NewLayout := ImageLayout.DepthStencilAttachmentOptimal } }

/-- A graphics stage object with the two depth/stencil attachments. -/
def depthStencilObject : RendererStage :=
  { Info :=
      { Name := "DepthStencil", Shader := none,
        StageType := RendererStageType.ForwardGraphics,
        Resources := [], Meshes := [],
        Attachments := [freshDepthStencil, loadedDepthStencil] } }

/-- The stage and the world `Init` returns for `depthStencilObject`. -/
def depthStencilInit : RendererStage × World :=
  match RendererStage.Init collaborators context depthStencilObject start with
  | .ok r => r
  | .error _ => (depthStencilObject, start)

/-- The overlay stage as a stage object before `Init`. -/
def overlayObject : RendererStage := { Info := overlayStage }

/-- The stage and the world `Init` returns for `overlayObject`. -/
def overlayInit : RendererStage × World :=
  match RendererStage.Init collaborators context overlayObject start with
  | .ok r => r
  | .error _ => (overlayObject, start)

end Example

/-! ## The walk over the attachments in the words of the specification -/

/-- The barrier step 1 of section 4.3 asks for attachment `a` when the images
are tracked as in `images`: one transition from the tracked layout to the old
layout when the attachment has an image, the tracked layout differs from the
old layout and the old layout is not `Undefined`; nothing otherwise. -/
def requiredBarrier (cb : Handle) (images : ImageId → Image) (a : Attachment) : List Event :=
  match a.Image with
  | some image =>
    if (images image).ImageLayout ≠ a.Barrier.OldLayout
        ∧ a.Barrier.OldLayout ≠ ImageLayout.Undefined then
      [Event.ImageBarrier cb image (images image).ImageLayout a.Barrier.OldLayout]
    else []
  | none => []

/-- The world in which the first loop of `Execute` reaches index `i`. -/
def walked (ext : Collaborators) (cb : Handle) (atts : List Attachment) (w : World)
    (i : Nat) : World :=
  (atts.take i).foldl (preBarrier ext cb) w

/-- The run `o` started in `w` adds calls to the log of `w`, none of them a
layout-transition barrier. -/
def AddsNoBarrier (w : World) (o : Except Aborted World) : Prop :=
  ∃ es, outcomeLog o = w.Log ++ es ∧ ∀ e ∈ es, e.isImageBarrier = false

/-! ## The specialization constants in the words of the specification -/

def Resource.isConstant (r : Resource) : Bool :=
  decide (r.Kind = ResourceType.Constant)

/-- The sum of the sizes of the resources `rs`. -/
def totalSize (rs : List Resource) : Nat :=
  (rs.map (fun r => r.ConstantSize)).sum

/-- The map entries section 4.1 describes for the `Constant` resources `rs`,
the first of them placed at `offset`: each entry carries the resource's
constant id, the sum of the sizes before it and its size. -/
def constantEntries : Nat → List Resource → List VkSpecializationMapEntry
  | _, [] => []
  | offset, r :: rest =>
    { constantID := r.ConstantID, offset := offset, size := r.ConstantSize } ::
      constantEntries (offset + r.ConstantSize) rest

/-- The raw data of the resources `rs`, one after the other. -/
def constantBytes (rs : List Resource) : List Nat :=
  rs.flatMap (fun r => r.ConstantData.take r.ConstantSize)

namespace Example

/-- The colour image declared as the image a compute stage writes. -/
def writtenColor : Attachment :=
  { Name := "Written", Kind := AttachmentType.Color, Image := some colorAttachment,
    Clear := false,
    Barrier := { OldLayout := ImageLayout.ColorAttachmentOptimal,
                 NewLayout := ImageLayout.ColorAttachmentOptimal } }

/-- The same colour image declared a second time, handed on for sampling. -/
def sampledColor : Attachment :=
  { Name := "Sampled", Kind := AttachmentType.Color, Image := some colorAttachment,
    Clear := false,
    Barrier := { OldLayout := ImageLayout.ColorAttachmentOptimal,
                 NewLayout := ImageLayout.ShaderReadOnlyOptimal } }

/-- A compute stage whose two attachments are backed by the same image. -/
def twiceDeclared : RendererStage :=
  { Info :=
      { Name := "Twice", Shader := some 72,
        StageType := RendererStageType.ForwardCompute,
        Resources := [], Meshes := [],
        Attachments := [writtenColor, sampledColor],
        GroupCounts := (1, 1, 1) } }

/-- The graphics stage of the example executed once on command buffer 20 in
the state after `Initialize`. -/
def graphicsExecuted : World :=
  returned initialized
    (RendererStage.Execute collaborators graphicsInit.1 20 initialized)

end Example

namespace Example

/-- A compute stage with two specialization constants, of 4 and 2 bytes, and a
uniform buffer between them. -/
def constantObject : RendererStage :=
  { Info :=
      { Name := "Constants", Shader := some 73,
        StageType := RendererStageType.ForwardCompute,
        Resources :=
          [ { Name := "c_Count", Kind := ResourceType.Constant, ConstantID := 0,
              ConstantSize := 4, ConstantData := [16, 0, 0, 0] },
            { Name := "u_Data", Kind := ResourceType.Uniform, BindLocation := 32,
              Buffer := ⟨9, BufferType.UniformBuffer⟩, Binding := 0, Set := 0 },
            { Name := "c_Mode", Kind := ResourceType.Constant, ConstantID := 3,
              ConstantSize := 2, ConstantData := [7, 1, 255] } ],
        Meshes := [], Attachments := [], GroupCounts := (8, 8, 1) } }

/-- The stage and the world `Init` returns for `constantObject`. -/
def constantInit : RendererStage × World :=
  match RendererStage.Init collaborators context constantObject start with
  | .ok r => r
  | .error _ => (constantObject, start)

end Example

/-! ## Render-pass brackets in the log -/

/-- Whether a call begins a render pass. -/
def Event.isPassBegin : Event → Bool
  | Event.CmdBeginRenderPass2 _ _ _ _ _ => true
  | _ => false

/-- Whether a call ends a render pass. -/
def Event.isPassEnd : Event → Bool
  | Event.CmdEndRenderPass _ => true
  | _ => false

/-- The log of `w1` is the log of `w` followed by calls that neither begin nor
end a render pass. -/
def AddsInside (w w1 : World) : Prop :=
  ∃ es, w1.Log = w.Log ++ es ∧ ∀ e ∈ es, e.isPassBegin = false ∧ e.isPassEnd = false

namespace Example

/-- The stage and the world `Init` returns for the blit stage of the example. -/
def blitInit : RendererStage × World :=
  match RendererStage.Init collaborators context { Info := blitStage } start with
  | .ok r => r
  | .error _ => ({ Info := blitStage }, start)

/-- The blit stage of the example executed once on command buffer 20 in the
state after `Initialize`. -/
def blitExecuted : World :=
  returned initialized (RendererStage.Execute collaborators blitInit.1 20 initialized)

/-- The compute stage with the two constants executed once on command buffer
20 in the state after `Initialize`. -/
def constantExecuted : World :=
  returned initialized (RendererStage.Execute collaborators constantInit.1 20 initialized)

end Example

/-! ## Observations on render passes and on the renderer's life cycle -/

/-- The framebuffer a render pass is begun on and the render area given for it. -/
def Event.beginInfo : Event → Option (FrameBuffer × VkExtent2D)
  | Event.CmdBeginRenderPass2 _ _ framebuffer renderArea _ => some (framebuffer, renderArea)
  | _ => none

/-- The viewport a call sets. -/
def Event.viewport : Event → Option VkViewport
  | Event.CmdSetViewport _ viewport => some viewport
  | _ => none

/-- The scissor a call sets. -/
def Event.scissor : Event → Option VkRect2D
  | Event.CmdSetScissor _ scissor => some scissor
  | _ => none

/-- The single subpass of the first render pass created in `log`. -/
def createdSubpass (log : List Event) : Option VkSubpassDescription2 :=
  ((log.filterMap Event.createInfo).head?).bind (fun info => info.subpasses.head?)

/-- `Renderer::SetFinalRenderTarget(image)` (lines 116-119). -/
def Renderer.SetFinalRenderTarget (image : ImageId) (w : World) : World :=
  { w with Data := { w.Data with FinalTarget := some image } }

namespace Example

/-- The state before `Initialize` when the colour and the depth image are
rendered at half the resolution of the window: images 1 and 2 are 640 x 360,
every other image is 1280 x 720. -/
def halfResolution : World :=
  { Data := { FinalTarget := some colorAttachment },
    Images := fun id =>
      if id = colorAttachment ∨ id = depthAttachment then { Extent := ⟨640, 360⟩ }
      else { Extent := ⟨1280, 720⟩ } }

/-- The state after `Renderer::Initialize(graph)` from `halfResolution`. -/
def halfInitialized : World :=
  returned halfResolution (Renderer.Initialize collaborators context graph halfResolution)

/-- The graphics stage object of `halfInitialized`. -/
def halfGraphics : RendererStage :=
  halfInitialized.Data.Stages.headD RendererStage.empty

/-- The state before `Initialize` when no final render target was requested,
as in `DeferredExample::OnAttach`. -/
def noTarget : World := {}

/-- The state after `Renderer::Initialize(graph)` from `noTarget`. -/
def noTargetInitialized : World :=
  returned noTarget (Renderer.Initialize collaborators context graph noTarget)

/-- A context with three frames in flight and three swapchain images. -/
def context3 : Context :=
  { context with frameCount := 3, SwapchainImages := [100, 101, 102] }

/-- A first cycle with three frames: `Initialize`, two `Draw` calls that
acquire images 0 and 1, `Cleanup`. -/
def firstCycle : World :=
  Renderer.Cleanup
    (returned start (drawFrames collaborators [success 0, success 1]
      (returned start (Renderer.Initialize collaborators context3 graph start))))

/-- The second cycle, configured with two frames, after its `Initialize`: the
final render target is requested again, then the same graph is initialised. -/
def secondCycle : World :=
  returned firstCycle (Renderer.Initialize collaborators context graph
    (Renderer.SetFinalRenderTarget colorAttachment firstCycle))

/-- A graphics stage object with a colour attachment and one depth/stencil
attachment. -/
def stencilObject : RendererStage :=
  { Info :=
      { Name := "Stencil", Shader := none,
        StageType := RendererStageType.ForwardGraphics,
        Resources := [], Meshes := [],
        Attachments :=
          [ { Name := "Color", Kind := AttachmentType.Color, Image := some colorAttachment,
              Clear := true,
              Barrier := { OldLayout := ImageLayout.ColorAttachmentOptimal,
                           NewLayout := ImageLayout.ShaderReadOnlyOptimal } },
            loadedDepthStencil ] } }

/-- The stage and the world `Init` returns for `stencilObject`. -/
def stencilInit : RendererStage × World :=
  match RendererStage.Init collaborators context stencilObject start with
  | .ok r => r
  | .error _ => (stencilObject, start)

end Example

/-! ## `Buffer.h`: data types and native formats -/

/-- The enum `DataType` of `Buffer.h` (lines 35-39). -/
inductive DataType where
  | None
  | Float
  | Float2
  | Float3
  | Float4
  | Mat3
  | Mat4
  | Int
  | Int2
  | Int3
  | Int4
  | Bool
  | Depth32
  | Depth32Stencil8
  | Depth24Stencil8
  | RGBA8
  | BGRA8
deriving DecidableEq, Repr

/-- A `VkFormat`, by its native code. -/
abbrev VkFormat := Nat

def VK_FORMAT_UNDEFINED : VkFormat := 0
def VK_FORMAT_R8_UINT : VkFormat := 13
def VK_FORMAT_R8G8B8A8_SRGB : VkFormat := 43
def VK_FORMAT_B8G8R8A8_UNORM : VkFormat := 44
def VK_FORMAT_B8G8R8A8_SRGB : VkFormat := 50
def VK_FORMAT_R32_SINT : VkFormat := 99
def VK_FORMAT_R32_SFLOAT : VkFormat := 100
def VK_FORMAT_R32G32_SINT : VkFormat := 102
def VK_FORMAT_R32G32_SFLOAT : VkFormat := 103
def VK_FORMAT_R32G32B32_SINT : VkFormat := 105
def VK_FORMAT_R32G32B32_SFLOAT : VkFormat := 106
def VK_FORMAT_R32G32B32A32_SINT : VkFormat := 108
def VK_FORMAT_R32G32B32A32_SFLOAT : VkFormat := 109
def VK_FORMAT_D32_SFLOAT : VkFormat := 126
def VK_FORMAT_D24_UNORM_S8_UINT : VkFormat := 129
def VK_FORMAT_D32_SFLOAT_S8_UINT : VkFormat := 130

/-- Modelled from the spec: a core assertion (`HG_CORE_ASSERT`,
`VKC_CORE_ASSERT`; their definitions are not among the sources) that fails
ends the run, as "the process asserts/terminates" says. -/
def CoreAssert (condition : Bool) : Except Abort Unit :=
  if condition then .ok () else .error Abort.Fatal

/-- `DataTypeToVkFormat` (`Buffer.h`, lines 41-65). -/
def DataTypeToVkFormat (type : DataType) : Except Abort VkFormat :=
  match type with
  | DataType.Float => .ok VK_FORMAT_R32_SFLOAT
  | DataType.Float2 => .ok VK_FORMAT_R32G32_SFLOAT
  | DataType.Float3 => .ok VK_FORMAT_R32G32B32_SFLOAT
  | DataType.Float4 => .ok VK_FORMAT_R32G32B32A32_SFLOAT
  | DataType.Mat3 => .ok VK_FORMAT_R32G32B32_SFLOAT
  | DataType.Mat4 => .ok VK_FORMAT_R32G32B32A32_SFLOAT
  | DataType.Int => .ok VK_FORMAT_R32_SINT
  | DataType.Int2 => .ok VK_FORMAT_R32G32_SINT
  | DataType.Int3 => .ok VK_FORMAT_R32G32B32_SINT
  | DataType.Int4 => .ok VK_FORMAT_R32G32B32A32_SINT
  | DataType.Bool => .ok VK_FORMAT_R8_UINT
  | DataType.Depth32 => .ok VK_FORMAT_D32_SFLOAT
  | DataType.Depth24Stencil8 => .ok VK_FORMAT_D24_UNORM_S8_UINT
  | DataType.Depth32Stencil8 => .ok VK_FORMAT_D32_SFLOAT_S8_UINT
  | DataType.BGRA8 => .ok VK_FORMAT_B8G8R8A8_UNORM
  | DataType.RGBA8 => .ok VK_FORMAT_R8G8B8A8_SRGB
  | DataType.None =>
    match CoreAssert false with
    | .error e => .error e
    | .ok _ => .ok VK_FORMAT_UNDEFINED

/-- `VkFormatToDataType` (`Buffer.h`, lines 67-89). -/
def VkFormatToDataType (format : VkFormat) : Except Abort DataType :=
  if format = VK_FORMAT_R32_SFLOAT then .ok DataType.Float
  else if format = VK_FORMAT_R32G32_SFLOAT then .ok DataType.Float2
  else if format = VK_FORMAT_R32G32B32_SFLOAT then .ok DataType.Float3
  else if format = VK_FORMAT_R32G32B32A32_SFLOAT then .ok DataType.Float4
  else if format = VK_FORMAT_R32_SINT then .ok DataType.Int
  else if format = VK_FORMAT_R32G32_SINT then .ok DataType.Int2
  else if format = VK_FORMAT_R32G32B32_SINT then .ok DataType.Int3
  else if format = VK_FORMAT_R32G32B32A32_SINT then .ok DataType.Int4
  else if format = VK_FORMAT_R8_UINT then .ok DataType.Bool
  else if format = VK_FORMAT_D32_SFLOAT then .ok DataType.Depth32
  else if format = VK_FORMAT_D24_UNORM_S8_UINT then .ok DataType.Depth24Stencil8
  else if format = VK_FORMAT_D32_SFLOAT_S8_UINT then .ok DataType.Depth32Stencil8
  else if format = VK_FORMAT_B8G8R8A8_SRGB then .ok DataType.BGRA8
  else if format = VK_FORMAT_R8G8B8A8_SRGB then .ok DataType.RGBA8
  else
    match CoreAssert false with
    | .error e => .error e
    | .ok _ => .ok DataType.None

/-- Converting a data type to a native format and back. -/
def roundTrip (type : DataType) : Except Abort DataType :=
  match DataTypeToVkFormat type with
  | .error e => .error e
  | .ok format => VkFormatToDataType format

/-! ## `GraphicsContext.cpp`: surface format and physical device -/

structure VkSurfaceFormatKHR where
  format : VkFormat
  colorSpace : Nat
deriving DecidableEq, Repr

def VK_COLOR_SPACE_SRGB_NONLINEAR_KHR : Nat := 0

/-- The second loop of `ChooseSurfaceFormat` (lines 50-57) from index `i` on,
over the formats from that index: the first format that is the favoured pair,
if any. The index is an `int`; incrementing it past `2 ^ 31 - 1` is not
described. -/
def favoredFormat : Nat → List VkSurfaceFormatKHR → Except Abort (Option VkSurfaceFormatKHR)
  | _, [] => .ok none
  | i, fmt :: rest =>
    if fmt.format = VK_FORMAT_B8G8R8A8_UNORM
        ∧ fmt.colorSpace = VK_COLOR_SPACE_SRGB_NONLINEAR_KHR then
      .ok (some fmt)
    else if 2 ^ 31 ≤ i + 1 then .error Abort.Undefined
    else favoredFormat (i + 1) rest

/-- `ChooseSurfaceFormat` (lines 37-61). -/
def ChooseSurfaceFormat (formats : List VkSurfaceFormatKHR) :
    Except Abort VkSurfaceFormatKHR :=
  if formats.length = 1
      ∧ formats.head?.map (fun f => f.format) = some VK_FORMAT_UNDEFINED then
    .ok { format := VK_FORMAT_B8G8R8A8_UNORM, colorSpace := VK_COLOR_SPACE_SRGB_NONLINEAR_KHR }
  else
    match favoredFormat 0 formats with
    | .error e => .error e
    | .ok found =>
      match found with
      | some fmt => .ok fmt
      | none =>
        match formats.head? with
        | some first => .ok first
        | none => .error Abort.Undefined

/-- The pair section `ChooseSurfaceFormat` favours. -/
def preferredSurfaceFormat : VkSurfaceFormatKHR :=
  { format := VK_FORMAT_B8G8R8A8_UNORM, colorSpace := VK_COLOR_SPACE_SRGB_NONLINEAR_KHR }

structure VkQueueFamilyProperties where
  queueFlags : Nat
  queueCount : Nat
deriving DecidableEq, Repr

def VK_QUEUE_GRAPHICS_BIT : Nat := 1

/-- What `EnumeratePhysicalDevices` stored for one GPU, as far as
`SelectPhysicalDevice` reads it (`GraphicsContext::GPUInfo`); an extension
property is represented by its `extensionName`. -/
structure GPUInfo where
  Device : Handle
  ExtensionProperties : List String
  SurfaceFormats : List VkSurfaceFormatKHR
  PresentModes : List Nat
  QueueFamilyProperties : List VkQueueFamilyProperties
deriving DecidableEq, Repr

/-- What `SelectPhysicalDevice` writes into `m_Context` when it selects a GPU;
`GPU` is the index of the selected element of `m_Context.GPUs`. -/
structure SelectedDevice where
  GraphicsFamilyIndex : Nat
  PresentFamilyIndex : Nat
  PhysicalDevice : Handle
  GPU : Nat
deriving DecidableEq, Repr

/-- The inner loop of `CheckPhysicalDeviceExtensionSupport` (lines 18-25):
whether some reported extension name compares equal to `extension`. -/
def extensionFound : List String → String → Bool
  | [], _ => false
  | props :: rest, extension =>
    if props = extension then true else extensionFound rest extension

/-- The outer loop of `CheckPhysicalDeviceExtensionSupport` (lines 13-34). -/
def CheckPhysicalDeviceExtensionSupport (gpu : GPUInfo) : List String → Bool
  | [] => true
  | extension :: rest =>
    if extensionFound gpu.ExtensionProperties extension then
      CheckPhysicalDeviceExtensionSupport gpu rest
    else false

/-- The two loops over the queue families (lines 394-408 and 411-431) from
index `j` on: families without queues are skipped, and the index of the first
family that passes `test` is the result. The loops differ in the test only.
The index found is stored in an `int`; indices from `2 ^ 31` on are not
described. -/
def firstFamily (test : Nat → VkQueueFamilyProperties → Bool) :
    Nat → List VkQueueFamilyProperties → Except Abort (Option Nat)
  | _, [] => .ok none
  | j, props :: rest =>
    if props.queueCount ≠ 0 ∧ test j props = true then .ok (some j)
    else if 2 ^ 31 ≤ j + 1 then .error Abort.Undefined
    else firstFamily test (j + 1) rest

/-- The test of the graphics loop (line 403). -/
def isGraphicsFamily (_ : Nat) (props : VkQueueFamilyProperties) : Bool :=
  props.queueFlags &&& VK_QUEUE_GRAPHICS_BIT ≠ 0

/-- The body of the GPU loop of `SelectPhysicalDevice` (lines 365-443) for one
GPU: the graphics and the present family index when the GPU is selected.
`supportsPresent device j` is what `vkGetPhysicalDeviceSurfaceSupportKHR`
answers for family `j` of `device` and the surface of the context. -/
def examineGPU (extensions : List String) (supportsPresent : Handle → Nat → Bool)
    (gpu : GPUInfo) : Except Abort (Option (Nat × Nat)) :=
  if CheckPhysicalDeviceExtensionSupport gpu extensions = false then .ok none
  else if gpu.SurfaceFormats.isEmpty then .ok none
  else if gpu.PresentModes.isEmpty then .ok none
  else
    match firstFamily isGraphicsFamily 0 gpu.QueueFamilyProperties with
    | .error e => .error e
    | .ok graphicsIdx =>
      match firstFamily (fun j _ => supportsPresent gpu.Device j) 0
          gpu.QueueFamilyProperties with
      | .error e => .error e
      | .ok presentIdx =>
        match graphicsIdx with
        | none => .ok none
        | some g =>
          match presentIdx with
          | none => .ok none
          | some p => .ok (some (g, p))

/-- The GPU loop of `SelectPhysicalDevice` from index `i` on, and what follows
it when no GPU was selected (lines 445-448). The index is a `uint32_t`. -/
def selectFrom (extensions : List String) (supportsPresent : Handle → Nat → Bool) :
    Nat → List GPUInfo → Except Abort (Option SelectedDevice)
  | _, [] =>
    match CoreAssert false with
    | .error e => .error e
    | .ok _ => .ok none
  | i, gpu :: rest =>
    match examineGPU extensions supportsPresent gpu with
    | .error e => .error e
    | .ok found =>
      match found with
      | some idx =>
        .ok (some { GraphicsFamilyIndex := idx.1, PresentFamilyIndex := idx.2,
                    PhysicalDevice := gpu.Device, GPU := i })
      | none =>
        if 2 ^ 32 ≤ i + 1 then .error Abort.Undefined
        else selectFrom extensions supportsPresent (i + 1) rest

/-- `GraphicsContext::SelectPhysicalDevice` (lines 359-449) on the GPUs `gpus`
of the context, with the required device extensions `extensions`: what it has
selected when it returns. -/
def SelectPhysicalDevice (extensions : List String) (supportsPresent : Handle → Nat → Bool)
    (gpus : List GPUInfo) : Except Abort (Option SelectedDevice) :=
  selectFrom extensions supportsPresent 0 gpus

/-! ## The selection in the words of the specification -/

/-- Family `j` of `families` has queues and passes `test`, and no family of
lower index does. -/
def LowestFamily (test : Nat → VkQueueFamilyProperties → Bool)
    (families : List VkQueueFamilyProperties) (j : Nat) : Prop :=
  (∃ props, families[j]? = some props ∧ 0 < props.queueCount ∧ test j props = true) ∧
  ∀ (k : Nat) (props : VkQueueFamilyProperties), k < j → families[k]? = some props →
    ¬ (0 < props.queueCount ∧ test k props = true)

/-- The GPU fits the profile: it reports every required extension, has a
surface format and a present mode, and has a graphics-capable and a
present-capable queue family with queues. -/
def Qualifies (extensions : List String) (supportsPresent : Handle → Nat → Bool)
    (gpu : GPUInfo) : Prop :=
  (∀ e ∈ extensions, e ∈ gpu.ExtensionProperties) ∧
  gpu.SurfaceFormats ≠ [] ∧ gpu.PresentModes ≠ [] ∧
  (∃ j props, gpu.QueueFamilyProperties[j]? = some props ∧ 0 < props.queueCount ∧
    isGraphicsFamily j props = true) ∧
  (∃ j props, gpu.QueueFamilyProperties[j]? = some props ∧ 0 < props.queueCount ∧
    supportsPresent gpu.Device j = true)

namespace Example

/-- A GPU that lacks the swapchain extension. -/
def gpuWithoutSwapchain : GPUInfo :=
  { Device := 500, ExtensionProperties := ["VK_KHR_maintenance1"],
    SurfaceFormats := [⟨VK_FORMAT_B8G8R8A8_UNORM, 0⟩], PresentModes := [2],
    QueueFamilyProperties := [⟨1, 1⟩] }

/-- A GPU that reports the swapchain extension; its families are a
compute-only family, a graphics family without queues, a graphics family with
four queues and a transfer family. -/
def gpuDiscrete : GPUInfo :=
  { Device := 501,
    ExtensionProperties := ["VK_KHR_maintenance1", "VK_KHR_swapchain"],
    SurfaceFormats := [⟨VK_FORMAT_B8G8R8A8_UNORM, 0⟩], PresentModes := [2],
    QueueFamilyProperties := [⟨2, 1⟩, ⟨1, 0⟩, ⟨3, 4⟩, ⟨4, 1⟩] }

/-- A second GPU that would fit the profile. -/
def gpuIntegrated : GPUInfo :=
  { Device := 502, ExtensionProperties := ["VK_KHR_swapchain"],
    SurfaceFormats := [⟨VK_FORMAT_B8G8R8A8_UNORM, 0⟩], PresentModes := [2],
    QueueFamilyProperties := [⟨1, 1⟩] }

/-- The GPUs of the example in enumeration order. -/
def gpus : List GPUInfo := [gpuWithoutSwapchain, gpuDiscrete, gpuIntegrated]

/-- The answers of `vkGetPhysicalDeviceSurfaceSupportKHR` in the example: the
discrete GPU presents from families 2 and 3, the integrated one from all. -/
def presents (device : Handle) (family : Nat) : Bool :=
  (device = 501 ∧ 2 ≤ family) ∨ (device = 502)

end Example

/-! # Theorems -/

/-! ## The attachment loop of `Init` -/

theorem initAttachment_ok {ext : Collaborators} {ctx : Context} {images : ImageId → Image}
    {b b1 : PassBuild} {i : Nat} {a : Attachment}
    (h : initAttachment ext ctx images b i a = .ok b1) :
    ∃ f s, resolveFormat ctx images a = .ok (f, s) ∧
      b1.attachments = b.attachments.set i (describeAttachment a f s) := by
  unfold initAttachment at h
  split at h
  · cases h
  · rename_i f s hr
    refine ⟨f, s, hr, ?_⟩
    cases h
    rfl

/-- What the attachment loop leaves in `attachments`: the length is kept, the
entries below the start index are kept, and the entry of every attachment the
loop visits is the description derived from it. -/
theorem initLoop_attachments (ext : Collaborators) (ctx : Context) (images : ImageId → Image) :
    ∀ (rest : List Attachment) (i : Nat) (b b1 : PassBuild),
      initLoop ext ctx images i rest b = .ok b1 →
      b1.attachments.length = b.attachments.length ∧
      (∀ j, j < i → b1.attachments[j]? = b.attachments[j]?) ∧
      (∀ j a, rest[j]? = some a → i + j < b.attachments.length →
        ∃ f s, resolveFormat ctx images a = .ok (f, s) ∧
          b1.attachments[i + j]? = some (describeAttachment a f s)) := by
  intro rest
  induction rest with
  | nil =>
    intro i b b1 h
    simp only [initLoop] at h
    cases h
    exact ⟨rfl, fun _ _ => rfl, fun j a hj => by simp at hj⟩
  | cons a rest ih =>
    intro i b b1 h
    simp only [initLoop] at h
    split at h
    · cases h
    · rename_i b2 hb2
      obtain ⟨f, s, hr, hset⟩ := initAttachment_ok hb2
      obtain ⟨hlen, hlow, hvis⟩ := ih (i + 1) b2 b1 h
      have hlen2 : b2.attachments.length = b.attachments.length := by
        rw [hset, List.length_set]
      refine ⟨by rw [hlen, hlen2], ?_, ?_⟩
      · intro j hj
        rw [hlow j (by omega), hset, List.getElem?_set_ne (by omega)]
      · intro j a1 hj hbound
        cases j with
        | zero =>
          simp only [List.getElem?_cons_zero, Option.some.injEq] at hj
          subst hj
          refine ⟨f, s, hr, ?_⟩
          rw [Nat.add_zero, hlow i (by omega), hset, List.getElem?_set_eq_of_lt _ (by omega)]
        | succ j =>
          simp only [List.getElem?_cons_succ] at hj
          obtain ⟨f1, s1, hr1, hget⟩ := hvis j a1 hj (by omega)
          exact ⟨f1, s1, hr1, by rw [← hget]; congr 1; omega⟩

/-- The load-op of a description derived from an attachment whose old layout
is `Undefined`. -/
theorem describeAttachment_loadOp_undefined (a : Attachment) (format samples : Nat)
    (h : a.Barrier.OldLayout = ImageLayout.Undefined) :
    (describeAttachment a format samples).loadOp = VkAttachmentLoadOp.DONT_CARE := by
  unfold describeAttachment
  simp only [h, if_true]
  split <;> rfl

theorem initRenderPass_ok {ext : Collaborators} {ctx : Context} {stage stage1 : RendererStage}
    {w w1 : World} (hr : rasterizes stage.Info.StageType = true)
    (h : RendererStage.initRenderPass ext ctx stage w = .ok (stage1, w1)) :
    ∃ b, initLoop ext ctx w.Images 0 stage.Info.Attachments
          (passBuildStart stage.Info stage.ClearValues) = .ok b ∧
      w1.Log = w.Log ++ [Event.CreateRenderPass2 (renderPassInfo b)] ∧
      stage1.Info = stage.Info ∧ stage1.ClearValues = b.ClearValues := by
  unfold RendererStage.initRenderPass at h
  rw [if_pos hr] at h
  split at h
  · cases h
  · rename_i b hb
    simp only at h
    split at h
    · cases h
    · cases h
      exact ⟨b, hb, rfl, rfl, rfl⟩

theorem initShader_log {stage : RendererStage} {w w2 : World}
    (h : RendererStage.initShader stage w = .ok w2) :
    ∃ rest, w2.Log = w.Log ++ rest ∧ w2.Data = w.Data ∧ w2.Images = w.Images := by
  unfold RendererStage.initShader at h
  split at h
  · cases h
    exact ⟨[], by simp, rfl, rfl⟩
  · split at h
    · cases h
    · split at h <;> cases h <;> exact ⟨_, rfl, rfl, rfl⟩

theorem initFrameBuffer_info {stage stage2 : RendererStage} {w : World}
    (h : RendererStage.initFrameBuffer stage w = .ok stage2) :
    stage2.Info = stage.Info ∧ stage2.RenderPass = stage.RenderPass ∧
      stage2.ClearValues = stage.ClearValues := by
  unfold RendererStage.initFrameBuffer at h
  split at h
  · simp only at h
    split at h
    · cases h
      exact ⟨rfl, rfl, rfl⟩
    · cases h
  · cases h
    exact ⟨rfl, rfl, rfl⟩

/-- The stage types for which `Init` derives a render pass. -/
theorem rasterizes_iff (t : RendererStageType) :
    rasterizes t = true ↔
      t = RendererStageType.ForwardGraphics ∨ t = RendererStageType.DeferredGraphics
        ∨ t = RendererStageType.ImGui ∨ t = RendererStageType.Blit := by
  cases t <;> simp [rasterizes]

/-- C1. In the render pass that `RendererStage::Init` derives for a rasterizing
stage (forward or deferred graphics, overlay, blit), every attachment declared
with `Barrier.OldLayout = Undefined` gets the load-op `DONT_CARE`, whatever its
`Clear` flag: the create-info handed to `vkCreateRenderPass2` has one
description per declared attachment, and the description at the index of such
an attachment has `loadOp = DONT_CARE`, not `CLEAR` and not `LOAD`. -/
theorem C1_undefined_old_layout_gives_dont_care (ext : Collaborators) (ctx : Context)
    (stage : RendererStage) (w : World) (r : RendererStage × World)
    (ht : stage.Info.StageType = RendererStageType.ForwardGraphics
      ∨ stage.Info.StageType = RendererStageType.DeferredGraphics
      ∨ stage.Info.StageType = RendererStageType.ImGui
      ∨ stage.Info.StageType = RendererStageType.Blit)
    (h : RendererStage.Init ext ctx stage w = .ok r) :
    ∃ info rest,
      r.2.Log = w.Log ++ Event.CreateRenderPass2 info :: rest ∧
      info.attachments.length = stage.Info.Attachments.length ∧
      ∀ (i : Nat) (a : Attachment), stage.Info.Attachments[i]? = some a →
        a.Barrier.OldLayout = ImageLayout.Undefined →
        ∃ d : VkAttachmentDescription2, info.attachments[i]? = some d ∧
          d.loadOp = VkAttachmentLoadOp.DONT_CARE ∧
          d.loadOp ≠ VkAttachmentLoadOp.CLEAR ∧ d.loadOp ≠ VkAttachmentLoadOp.LOAD := by
  have hr : rasterizes stage.Info.StageType = true := (rasterizes_iff _).mpr ht
  unfold RendererStage.Init at h
  split at h
  · cases h
  · rename_i built h1
    obtain ⟨stage1, w1⟩ := built
    simp only at h
    split at h
    · cases h
    · rename_i w2 h2
      split at h
      · cases h
      · rename_i stage2 h3
        cases h
        obtain ⟨b, hb, hlog, -, -⟩ := initRenderPass_ok hr h1
        obtain ⟨rest, hlog2, -, -⟩ := initShader_log h2
        obtain ⟨hlen, -, hvis⟩ :=
          initLoop_attachments ext ctx w.Images stage.Info.Attachments 0 _ b hb
        have hstart : (passBuildStart stage.Info stage.ClearValues).attachments.length
            = stage.Info.Attachments.length := by
          simp [passBuildStart]
        refine ⟨renderPassInfo b, rest, ?_, ?_, ?_⟩
        · simp only [hlog2, hlog, List.append_assoc, List.singleton_append]
        · simp only [renderPassInfo, hlen, hstart]
        · intro i a hi hu
          have hlt : i < stage.Info.Attachments.length := by
            rcases List.getElem?_eq_some_iff.mp hi with ⟨hlt, -⟩
            exact hlt
          obtain ⟨f, s, -, hd⟩ := hvis i a hi (by rw [hstart]; omega)
          rw [Nat.zero_add] at hd
          have hl := describeAttachment_loadOp_undefined a f s hu
          exact ⟨_, hd, hl, by rw [hl]; decide, by rw [hl]; decide⟩

/-- C1 at a blit stage whose swapchain attachment has old layout `Undefined`
and `Clear` set. -/
theorem C1_undefined_old_layout_gives_dont_care_witness :
    ((Example.undefinedStage.Info.StageType = RendererStageType.ForwardGraphics
        ∨ Example.undefinedStage.Info.StageType = RendererStageType.DeferredGraphics
        ∨ Example.undefinedStage.Info.StageType = RendererStageType.ImGui
        ∨ Example.undefinedStage.Info.StageType = RendererStageType.Blit) ∧
      RendererStage.Init Example.collaborators Example.context Example.undefinedStage
        Example.start = .ok Example.undefinedInit) ∧
    ∃ info rest,
      Example.undefinedInit.2.Log = Example.start.Log ++ Event.CreateRenderPass2 info :: rest ∧
      info.attachments.length = Example.undefinedStage.Info.Attachments.length ∧
      ∀ (i : Nat) (a : Attachment), Example.undefinedStage.Info.Attachments[i]? = some a →
        a.Barrier.OldLayout = ImageLayout.Undefined →
        ∃ d : VkAttachmentDescription2, info.attachments[i]? = some d ∧
          d.loadOp = VkAttachmentLoadOp.DONT_CARE ∧
          d.loadOp ≠ VkAttachmentLoadOp.CLEAR ∧ d.loadOp ≠ VkAttachmentLoadOp.LOAD :=
  ⟨⟨Or.inr (Or.inr (Or.inr rfl)), rfl⟩,
    C1_undefined_old_layout_gives_dont_care Example.collaborators Example.context
      Example.undefinedStage Example.start Example.undefinedInit
      (Or.inr (Or.inr (Or.inr rfl))) rfl⟩

/-! ## Frame index rotation -/

theorem advanceFrameIndex_iterate_max (d : RendererData) (N : Nat) :
    (advanceFrameIndex^[N] d).MaxFrameCount = d.MaxFrameCount := by
  induction N with
  | zero => rfl
  | succ n ih =>
    rw [Function.iterate_succ_apply']
    simp only [advanceFrameIndex, ih]

/-- C2. Starting from frame index 0 with `MaxFrameCount = F`, `1 ≤ F` (and `F` a
`uint32_t`), after `N` applications of the frame-advance step of
`Renderer::Draw` the frame index is `N mod F`. -/
theorem C2_frame_advance_is_mod (d : RendererData) (F N : Nat)
    (hF : 1 ≤ F) (h32 : F < 2 ^ 32) (h0 : d.FrameIndex = 0) (hM : d.MaxFrameCount = F) :
    (advanceFrameIndex^[N] d).FrameIndex = N % F := by
  induction N with
  | zero => simp [h0]
  | succ n ih =>
    rw [Function.iterate_succ_apply']
    simp only [advanceFrameIndex, ih, advanceFrameIndex_iterate_max, hM]
    have hlt : n % F < F := Nat.mod_lt _ (by omega)
    rw [Nat.mod_eq_of_lt (a := n % F + 1) (by omega), Nat.mod_add_mod]

/-- C2 at three frames in flight after seven steps. -/
theorem C2_frame_advance_is_mod_witness :
    (1 ≤ 3 ∧ 3 < 2 ^ 32 ∧
      ({ MaxFrameCount := 3 } : RendererData).FrameIndex = 0 ∧
      ({ MaxFrameCount := 3 } : RendererData).MaxFrameCount = 3) ∧
    (advanceFrameIndex^[7] { MaxFrameCount := 3 }).FrameIndex = 7 % 3 :=
  ⟨⟨by decide, by decide, rfl, rfl⟩,
    C2_frame_advance_is_mod { MaxFrameCount := 3 } 3 7 (by decide) (by decide) rfl rfl⟩

/-! ## `BeginFrame` and `EndFrame` -/

/-- C7. `RendererFrame::BeginFrame` makes its calls in this order on its own
slot: wait on the fence, reset the fence, reset the descriptor pools of the
slot, acquire the next image signalling the acquire semaphore, begin
command-buffer recording, and then a barrier `Undefined -> ColorAttachmentOptimal`
on the swapchain image exactly when the frame owns one. A failed wait ends the
run after the wait alone, a failed begin after the five calls, so the reset of
the pools is never made before the wait on the fence of the same frame. -/
theorem C7_begin_frame_order (ext : Collaborators) (env : DrawEnv) (slot : Nat)
    (this : RendererFrame) (w : World) :
    outcomeLog (RendererFrame.BeginFrame ext env slot this w) =
      w.Log ++
        (if env.waitResult = VK_SUCCESS then
          [Event.WaitForFences this.Device this.Fence,
           Event.ResetFences this.Device this.Fence,
           Event.ResetPools slot,
           Event.AcquireNextImage this.Device this.Swapchain this.PresentSemaphore,
           Event.BeginCommandBuffer this.CommandBuffer] ++
          (if env.beginResult = VK_SUCCESS then
            match this.SwapchainImage with
            | some image =>
              [Event.ImageBarrier this.CommandBuffer image ImageLayout.Undefined
                ImageLayout.ColorAttachmentOptimal]
            | none => []
          else [])
        else [Event.WaitForFences this.Device this.Fence]) ∧
    returns (RendererFrame.BeginFrame ext env slot this w) =
      (decide (env.waitResult = VK_SUCCESS) && decide (env.beginResult = VK_SUCCESS)) := by
  unfold RendererFrame.BeginFrame CheckVkResult
  by_cases hw : env.waitResult = VK_SUCCESS
  · by_cases hb : env.beginResult = VK_SUCCESS
    · cases hs : this.SwapchainImage <;>
        simp [hw, hb, hs, outcomeLog, returns, World.record, Image.ExecuteBarrier]
    · simp [hw, hb, outcomeLog, returns, World.record]
  · simp [hw, outcomeLog, returns, World.record]

/-- C9. `RendererFrame::EndFrame` ends the recording, then submits the command
buffer of the frame with one wait on `PresentSemaphore`, one signal on
`RenderSemaphore` and the fence of the frame, and then presents, waiting on
`RenderSemaphore`, exactly when a final render target is set; without one no
present is issued. A failed call ends the run right after it. -/
theorem C9_end_frame_submit_present (env : DrawEnv) (this : RendererFrame) (w : World) :
    outcomeLog (RendererFrame.EndFrame env this w) =
      w.Log ++ Event.EndCommandBuffer this.CommandBuffer ::
        (if env.endResult = VK_SUCCESS then
          Event.QueueSubmit2 this.Queue [this.PresentSemaphore] [this.CommandBuffer]
              [this.RenderSemaphore] this.Fence ::
            (if env.submitResult = VK_SUCCESS ∧ w.Data.FinalTarget.isSome = true then
              [Event.QueuePresent this.Queue [this.RenderSemaphore] [this.Swapchain]
                [w.Data.FrameIndex]]
            else [])
        else []) ∧
    returns (RendererFrame.EndFrame env this w) =
      (decide (env.endResult = VK_SUCCESS) && decide (env.submitResult = VK_SUCCESS)
        && (!w.Data.FinalTarget.isSome || decide (env.presentResult = VK_SUCCESS))) := by
  unfold RendererFrame.EndFrame CheckVkResult
  by_cases he : env.endResult = VK_SUCCESS
  · by_cases hs : env.submitResult = VK_SUCCESS
    · by_cases hf : w.Data.FinalTarget.isSome = true
      · by_cases hp : env.presentResult = VK_SUCCESS <;>
          simp [he, hs, hf, hp, outcomeLog, returns, World.record]
      · simp [he, hs, hf, outcomeLog, returns, World.record]
    · simp [he, hs, outcomeLog, returns, World.record]
  · simp [he, outcomeLog, returns, World.record]

/-- C10 (what the code does). `BeginFrame` never looks at the result of the
acquisition: its outcome is the same for every acquisition result. At frame
slot 0 of the example, with an acquisition that fails with
`VK_ERROR_OUT_OF_DATE_KHR` and leaves index 1, `BeginFrame` returns, has begun
command-buffer recording after the acquisition, and has stored 1 as the frame
index. -/
theorem C10_begin_frame_ignores_acquire_failure :
    (∀ (ext : Collaborators) (env : DrawEnv) (r : VkResult) (slot : Nat)
        (this : RendererFrame) (w : World),
      RendererFrame.BeginFrame ext { env with acquireResult := r } slot this w =
        RendererFrame.BeginFrame ext env slot this w) ∧
    (Example.acquireFails 1).acquireResult < 0 ∧
    returns (RendererFrame.BeginFrame Example.collaborators (Example.acquireFails 1) 0
      Example.frame0 Example.initialized) = true ∧
    recordedSince Example.initialized.Log.length
      (outcomeLog (RendererFrame.BeginFrame Example.collaborators (Example.acquireFails 1) 0
        Example.frame0 Example.initialized)) =
      [Event.WaitForFences 1 30, Event.ResetFences 1 30, Event.ResetPools 0,
       Event.AcquireNextImage 1 3 40, Event.BeginCommandBuffer 20,
       Event.ImageBarrier 20 100 ImageLayout.Undefined ImageLayout.ColorAttachmentOptimal] ∧
    (returned Example.initialized
      (RendererFrame.BeginFrame Example.collaborators (Example.acquireFails 1) 0
        Example.frame0 Example.initialized)).Data.FrameIndex = 1 :=
  ⟨fun _ _ _ _ _ _ => rfl, by decide, rfl, rfl, rfl⟩

/-! ## `BindResources` -/

theorem bindResource_eq (images : ImageId → Image) (db : List DescriptorWrite) (r : Resource) :
    bindResource images db r = db ++ (descriptorOf images r).toList := by
  unfold bindResource descriptorOf
  cases h : r.Kind <;> simp

theorem foldl_bindResource (images : ImageId → Image) (rs : List Resource) :
    ∀ db, rs.foldl (bindResource images) db = db ++ rs.filterMap (descriptorOf images) := by
  induction rs with
  | nil => intro db; simp
  | cons r rs ih =>
    intro db
    rw [List.foldl_cons, ih, bindResource_eq, List.filterMap_cons]
    cases descriptorOf images r <;> simp

theorem descriptorOf_isSome (images : ImageId → Image) (r : Resource) :
    (descriptorOf images r).isSome = hasDescriptor r.Kind := by
  unfold descriptorOf hasDescriptor
  cases h : r.Kind <;> simp

theorem filterMap_descriptorOf_length (images : ImageId → Image) (rs : List Resource) :
    (rs.filterMap (descriptorOf images)).length
      = (rs.filter (fun r => hasDescriptor r.Kind)).length := by
  induction rs with
  | nil => rfl
  | cons r rs ih =>
    rw [List.filterMap_cons, List.filter_cons]
    have h := descriptorOf_isSome images r
    cases hd : descriptorOf images r with
    | none =>
      rw [hd] at h
      simp only [Option.isSome_none] at h
      simp [← h, ih]
    | some d =>
      rw [hd] at h
      simp only [Option.isSome_some] at h
      simp [← h, ih]

/-- What `BindResources` does for a stage with a shader. -/
theorem BindResources_ok (stage : RendererStage) (commandBuffer : Handle) (slot : Nat)
    (w : World) (shader : Handle) (hs : stage.Info.Shader = some shader) :
    ∃ w1, RendererStage.BindResources stage commandBuffer slot w = .ok w1 ∧
      w1.Log = w.Log ++
        [Event.DescriptorBuild slot (stage.Info.Resources.filterMap (descriptorOf w.Images)),
         Event.CmdBindDescriptorSets commandBuffer stage.Info.StageType shader 0 1] ∧
      w1.Data = w.Data ∧ w1.Images = w.Images := by
  unfold RendererStage.BindResources
  simp only [hs, foldl_bindResource, List.nil_append]
  exact ⟨_, rfl, by simp [World.record], rfl, rfl⟩

/-- C6. For every resource list, `RendererStage::BindResources` (on a stage
with a shader) builds one descriptor set whose bindings are, in resource-list
order, one per resource of kind `Uniform`, `Storage`, `Sampler` or
`SamplerArray` and none for `PushConstant` or specialization-constant
resources; a `SamplerArray` binding carries one image descriptor per bound
image and is declared with `ArrayMaxCount`; the set is bound as one set at set
index 0. For one `Uniform` (on a uniform buffer), one `Sampler` and one
`SamplerArray` of capacity 512 with 3 images this gives exactly 3 bindings: a
uniform-buffer binding, a combined image sampler and an array of combined image
samplers with 3 elements and capacity 512. -/
theorem C6_bind_resources_bindings (stage : RendererStage) (commandBuffer : Handle)
    (slot : Nat) (w : World) (shader : Handle) (hs : stage.Info.Shader = some shader) :
    ∃ (w1 : World) (writes : List DescriptorWrite),
      RendererStage.BindResources stage commandBuffer slot w = .ok w1 ∧
      w1.Log = w.Log ++
        [Event.DescriptorBuild slot writes,
         Event.CmdBindDescriptorSets commandBuffer stage.Info.StageType shader 0 1] ∧
      writes = stage.Info.Resources.filterMap (descriptorOf w.Images) ∧
      writes.length = (stage.Info.Resources.filter (fun r => hasDescriptor r.Kind)).length ∧
      (∀ r ∈ stage.Info.Resources, r.Kind = ResourceType.SamplerArray →
        ∃ infos : List VkDescriptorImageInfo, infos.length = r.Images.length ∧
          DescriptorWrite.BindImageArray r.Binding infos
            VkDescriptorType.COMBINED_IMAGE_SAMPLER r.BindLocation r.Images.length
            r.ArrayMaxCount ∈ writes) ∧
      (∀ u s a : Resource, stage.Info.Resources = [u, s, a] →
        u.Kind = ResourceType.Uniform → u.Buffer.Description = BufferType.UniformBuffer →
        s.Kind = ResourceType.Sampler →
        a.Kind = ResourceType.SamplerArray → a.ArrayMaxCount = 512 → a.Images.length = 3 →
        ∃ infos : List VkDescriptorImageInfo, infos.length = 3 ∧
          writes =
            [DescriptorWrite.BindBuffer u.Binding
               { buffer := u.Buffer.Handle, offset := 0, range := VK_WHOLE_SIZE }
               BufferType.UniformBuffer u.BindLocation,
             DescriptorWrite.BindImage s.Binding (imageInfo w.Images s.Texture)
               VkDescriptorType.COMBINED_IMAGE_SAMPLER s.BindLocation,
             DescriptorWrite.BindImageArray a.Binding infos
               VkDescriptorType.COMBINED_IMAGE_SAMPLER a.BindLocation 3 512]) := by
  obtain ⟨w1, hok, hlog, -, -⟩ := BindResources_ok stage commandBuffer slot w shader hs
  refine ⟨w1, _, hok, hlog, rfl, filterMap_descriptorOf_length _ _, ?_, ?_⟩
  · intro r hr hk
    refine ⟨r.Images.map (imageInfo w.Images), by simp, ?_⟩
    rw [List.mem_filterMap]
    exact ⟨r, hr, by simp [descriptorOf, hk]⟩
  · intro u s a hrs hu hub hsk ha hmax hlen
    refine ⟨a.Images.map (imageInfo w.Images), by simp [hlen], ?_⟩
    simp [hrs, descriptorOf, hu, hub, hsk, ha, hmax, hlen]

/-- C6 at a stage with one `Uniform`, one `Sampler` and one `SamplerArray` of
capacity 512 holding three images. -/
theorem C6_bind_resources_bindings_witness :
    Example.bindingStage.Info.Shader = some 70 ∧
    ∃ (w1 : World) (writes : List DescriptorWrite),
      RendererStage.BindResources Example.bindingStage 20 0 Example.initialized = .ok w1 ∧
      w1.Log = Example.initialized.Log ++
        [Event.DescriptorBuild 0 writes,
         Event.CmdBindDescriptorSets 20 Example.bindingStage.Info.StageType 70 0 1] ∧
      writes = Example.bindingStage.Info.Resources.filterMap
        (descriptorOf Example.initialized.Images) ∧
      writes.length =
        (Example.bindingStage.Info.Resources.filter (fun r => hasDescriptor r.Kind)).length ∧
      (∀ r ∈ Example.bindingStage.Info.Resources, r.Kind = ResourceType.SamplerArray →
        ∃ infos : List VkDescriptorImageInfo, infos.length = r.Images.length ∧
          DescriptorWrite.BindImageArray r.Binding infos
            VkDescriptorType.COMBINED_IMAGE_SAMPLER r.BindLocation r.Images.length
            r.ArrayMaxCount ∈ writes) ∧
      (∀ u s a : Resource, Example.bindingStage.Info.Resources = [u, s, a] →
        u.Kind = ResourceType.Uniform → u.Buffer.Description = BufferType.UniformBuffer →
        s.Kind = ResourceType.Sampler →
        a.Kind = ResourceType.SamplerArray → a.ArrayMaxCount = 512 → a.Images.length = 3 →
        ∃ infos : List VkDescriptorImageInfo, infos.length = 3 ∧
          writes =
            [DescriptorWrite.BindBuffer u.Binding
               { buffer := u.Buffer.Handle, offset := 0, range := VK_WHOLE_SIZE }
               BufferType.UniformBuffer u.BindLocation,
             DescriptorWrite.BindImage s.Binding
               (imageInfo Example.initialized.Images s.Texture)
               VkDescriptorType.COMBINED_IMAGE_SAMPLER s.BindLocation,
             DescriptorWrite.BindImageArray a.Binding infos
               VkDescriptorType.COMBINED_IMAGE_SAMPLER a.BindLocation 3 512]) :=
  ⟨rfl, C6_bind_resources_bindings Example.bindingStage 20 0 Example.initialized 70 rfl⟩

/-! ## The loops of `Execute` -/

theorem preBarrier_spec (ext : Collaborators) (cb : Handle) (w : World) (a : Attachment) :
    ∃ bs, (preBarrier ext cb w a).Log = w.Log ++ bs ∧
      (∀ e ∈ bs, e.isImageBarrier = true) ∧
      (preBarrier ext cb w a).Data = w.Data ∧
      (∀ id, a.Image ≠ some id → (preBarrier ext cb w a).Images id = w.Images id) := by
  unfold preBarrier
  cases hi : a.Image with
  | none => exact ⟨[], by simp, by simp, rfl, fun _ _ => rfl⟩
  | some image =>
    simp only
    split
    · refine ⟨[_], rfl, ?_, rfl, ?_⟩
      · intro e he
        simp only [List.mem_singleton] at he
        subst he
        rfl
      · intro id hid
        have hne : id ≠ image := fun h => hid (by rw [h])
        simp [Image.ExecuteBarrier, Function.update_noteq hne]
    · exact ⟨[], by simp, by simp, rfl, fun _ _ => rfl⟩

theorem preBarrier_fold (ext : Collaborators) (cb : Handle) (atts : List Attachment) :
    ∀ w, ∃ bs, (atts.foldl (preBarrier ext cb) w).Log = w.Log ++ bs ∧
      (∀ e ∈ bs, e.isImageBarrier = true) ∧
      (atts.foldl (preBarrier ext cb) w).Data = w.Data ∧
      (∀ id, (∀ a ∈ atts, a.Image ≠ some id) →
        (atts.foldl (preBarrier ext cb) w).Images id = w.Images id) := by
  induction atts with
  | nil => intro w; exact ⟨[], by simp, by simp, rfl, fun _ _ => rfl⟩
  | cons a atts ih =>
    intro w
    obtain ⟨bs1, h1, hb1, hd1, hi1⟩ := preBarrier_spec ext cb w a
    obtain ⟨bs2, h2, hb2, hd2, hi2⟩ := ih (preBarrier ext cb w a)
    refine ⟨bs1 ++ bs2, ?_, ?_, ?_, ?_⟩
    · rw [List.foldl_cons, h2, h1, List.append_assoc]
    · intro e he
      rcases List.mem_append.mp he with h | h
      · exact hb1 e h
      · exact hb2 e h
    · rw [List.foldl_cons, hd2, hd1]
    · intro id hid
      rw [List.foldl_cons, hi2 id (fun a1 ha1 => hid a1 (List.mem_cons_of_mem _ ha1)),
        hi1 id (hid a (List.mem_cons_self _ _))]

theorem postUpdate_fold_log (atts : List Attachment) :
    ∀ w, (atts.foldl postUpdate w).Log = w.Log ∧ (atts.foldl postUpdate w).Data = w.Data := by
  induction atts with
  | nil => intro w; exact ⟨rfl, rfl⟩
  | cons a atts ih =>
    intro w
    rw [List.foldl_cons]
    obtain ⟨h1, h2⟩ := ih (postUpdate w a)
    rw [h1, h2]
    unfold postUpdate
    cases a.Image <;> exact ⟨rfl, rfl⟩

/-! ## The mesh loop of `ForwardGraphics` -/

theorem pushConstants_fold (cb shader : Handle) (m : Mesh) :
    ∀ (rs : List Resource) (w : World),
      (∀ x ∈ rs, x.isPushConstant = true → x.ConstantSize ≤ m.ModelMatrix.length) →
      ∃ w1, foldExcept (pushConstants cb shader m) w rs = .ok w1 ∧
        w1.Log = w.Log ++ (rs.filter Resource.isPushConstant).map (pushCall cb shader m) ∧
        w1.Data = w.Data ∧ w1.Images = w.Images := by
  intro rs
  induction rs with
  | nil => intro w _; exact ⟨w, rfl, by simp, rfl, rfl⟩
  | cons x rs ih =>
    intro w hsz
    have hrest : ∀ y ∈ rs, y.isPushConstant = true → y.ConstantSize ≤ m.ModelMatrix.length :=
      fun y hy => hsz y (List.mem_cons_of_mem _ hy)
    by_cases hk : x.Kind = ResourceType.PushConstant
    · have hx : x.isPushConstant = true := by simp [Resource.isPushConstant, hk]
      have hle := hsz x (List.mem_cons_self _ _) hx
      obtain ⟨w1, hok, hlog, hd, hi⟩ := ih (w.record [pushCall cb shader m x]) hrest
      refine ⟨w1, ?_, ?_, ?_, ?_⟩
      · simp only [foldExcept, pushConstants, hk, hle, if_true]
        exact hok
      · rw [hlog, List.filter_cons, hx]
        simp [World.record]
      · rw [hd]; rfl
      · rw [hi]; rfl
    · have hx : x.isPushConstant = false := by simp [Resource.isPushConstant, hk]
      obtain ⟨w1, hok, hlog, hd, hi⟩ := ih w hrest
      refine ⟨w1, ?_, ?_, hd, hi⟩
      · have hstep : pushConstants cb shader m w x = .ok w := by
          unfold pushConstants
          cases hkk : x.Kind <;> first | rfl | exact absurd hkk hk
        simp only [foldExcept, hstep]
        exact hok
      · rw [hlog, List.filter_cons, hx]
        simp

theorem drawMesh_fold (cb shader : Handle) (rs : List Resource) :
    ∀ (meshes : List Mesh) (w : World),
      (∀ m ∈ meshes, ∀ x ∈ rs, x.isPushConstant = true →
        x.ConstantSize ≤ m.ModelMatrix.length) →
      ∃ w1, foldExcept (drawMesh cb shader rs) w meshes = .ok w1 ∧
        w1.Log = w.Log ++ meshes.flatMap (fun m =>
          (rs.filter Resource.isPushConstant).map (pushCall cb shader m)
            ++ [Event.MeshDraw cb m.Id]) ∧
        w1.Data = w.Data ∧ w1.Images = w.Images := by
  intro meshes
  induction meshes with
  | nil => intro w _; exact ⟨w, rfl, by simp, rfl, rfl⟩
  | cons m meshes ih =>
    intro w hsz
    obtain ⟨w1, hok1, hlog1, hd1, hi1⟩ :=
      pushConstants_fold cb shader m rs w (hsz m (List.mem_cons_self _ _))
    obtain ⟨w2, hok2, hlog2, hd2, hi2⟩ :=
      ih (w1.record [Event.MeshDraw cb m.Id]) (fun m1 hm1 => hsz m1 (List.mem_cons_of_mem _ hm1))
    refine ⟨w2, ?_, ?_, ?_, ?_⟩
    · simp only [foldExcept, drawMesh, hok1]
      exact hok2
    · rw [hlog2, List.flatMap_cons]
      simp [World.record, hlog1]
    · rw [hd2]; exact hd1
    · rw [hi2]; exact hi1

/-- What `ForwardGraphics` records for a stage with a shader while a current
frame exists and every push-constant resource fits in a matrix. -/
theorem ForwardGraphics_ok (stage : RendererStage) (cb shader : Handle) (w : World)
    (frame : RendererFrame) (hs : stage.Info.Shader = some shader)
    (hf : w.Data.GetCurrentFrame = some frame)
    (hsz : ∀ m ∈ stage.Info.Meshes, ∀ x ∈ stage.Info.Resources, x.isPushConstant = true →
      x.ConstantSize ≤ m.ModelMatrix.length) :
    ∃ w1, RendererStage.ForwardGraphics stage cb w = .ok w1 ∧
      w1.Log = w.Log ++ graphicsPrologue stage cb shader frame w.Data.FrameIndex w.Images
        ++ stage.Info.Meshes.flatMap (fun m =>
          (stage.Info.Resources.filter Resource.isPushConstant).map (pushCall cb shader m)
            ++ [Event.MeshDraw cb m.Id])
        ++ [Event.CmdEndRenderPass cb] ∧
      w1.Data = w.Data ∧ w1.Images = w.Images := by
  obtain ⟨w3, hok3, hlog3, hd3, hi3⟩ := BindResources_ok stage cb w.Data.FrameIndex
    ((w.record
      [Event.CmdBeginRenderPass2 cb stage.RenderPass stage.FrameBuffer
          frame.FrameBuffer.Extent stage.ClearValues,
       Event.CmdSetViewport cb (viewportOf frame.FrameBuffer.Extent),
       Event.CmdSetScissor cb (scissorOf frame.FrameBuffer.Extent),
       Event.CmdSetDepthBias cb]).record [Event.ShaderBind cb shader]) shader hs
  obtain ⟨w4, hok4, hlog4, hd4, hi4⟩ :=
    drawMesh_fold cb shader stage.Info.Resources stage.Info.Meshes w3 hsz
  refine ⟨w4.record [Event.CmdEndRenderPass cb], ?_, ?_, ?_, ?_⟩
  · unfold RendererStage.ForwardGraphics
    simp only [hf, hs]
    simp only [World.record] at hok3 ⊢
    rw [hok3]
    simp only [hok4]
  · simp only [World.record, hlog4, hlog3, graphicsPrologue, List.append_assoc,
      List.cons_append, List.nil_append]
  · simp only [World.record, hd4, hd3]
  · simp only [World.record, hi4, hi3]

theorem pushCall_matrix (cb shader : Handle) (m : Mesh) (r : Resource)
    (hsz : r.ConstantSize = 64) :
    pushCall cb shader m r
      = Event.CmdPushConstants cb shader r.BindLocation 0 64 m.ModelMatrix := by
  unfold pushCall
  rw [hsz, List.take_of_length_le (by rw [m.matrixSize])]
  rfl

theorem filter_isPushConstants_meshCalls (cb shader : Handle) (r : Resource)
    (meshes : List Mesh) :
    (meshes.flatMap (meshCalls cb shader r)).filter Event.isPushConstants
      = meshes.map (fun m =>
          Event.CmdPushConstants cb shader r.BindLocation 0 64 m.ModelMatrix) := by
  induction meshes with
  | nil => rfl
  | cons m meshes ih =>
    rw [List.flatMap_cons, List.filter_append, ih]
    rfl

theorem filter_eq_nil_of_all_false {p : Event → Bool} (es : List Event)
    (h : ∀ e ∈ es, p e = false) : es.filter p = [] := by
  rw [List.filter_eq_nil_iff]
  intro e he
  simp [h e he]

/-- C5. `Execute` on a forward or deferred graphics stage (with a shader, while
a current frame exists) whose resources hold exactly one push constant, of the
size of one 4x4 matrix (64 bytes), records for the meshes `m_1..m_k`, in
mesh-list order, the push-constant update carrying the model matrix of `m_j`
immediately followed by the draw call of `m_j`, and then the end of the pass;
nothing recorded before is a push-constant update or a mesh draw. So exactly
`k` updates are issued (two for two meshes), the `j`-th with the matrix of
`m_j`. -/
theorem C5_push_constant_per_mesh (ext : Collaborators) (stage : RendererStage)
    (cb shader : Handle) (w : World) (frame : RendererFrame) (r : Resource)
    (ht : stage.Info.StageType = RendererStageType.ForwardGraphics
      ∨ stage.Info.StageType = RendererStageType.DeferredGraphics)
    (hs : stage.Info.Shader = some shader)
    (hf : w.Data.GetCurrentFrame = some frame)
    (hp : stage.Info.Resources.filter Resource.isPushConstant = [r])
    (hsz : r.ConstantSize = 64) :
    ∃ (w1 : World) (pre : List Event),
      RendererStage.Execute ext stage cb w = .ok w1 ∧
      w1.Log = w.Log ++ pre ++ stage.Info.Meshes.flatMap (meshCalls cb shader r)
        ++ [Event.CmdEndRenderPass cb] ∧
      (∀ e ∈ pre, e.isPushConstants = false ∧ e.isMeshDraw = false) ∧
      (recordedSince w.Log.length w1.Log).filter Event.isPushConstants
        = stage.Info.Meshes.map (fun m =>
            Event.CmdPushConstants cb shader r.BindLocation 0 64 m.ModelMatrix) ∧
      ((recordedSince w.Log.length w1.Log).filter Event.isPushConstants).length
        = stage.Info.Meshes.length := by
  obtain ⟨bs, hlog0, hbs, hd0, -⟩ := preBarrier_fold ext cb stage.Info.Attachments w
  have hf0 : (stage.Info.Attachments.foldl (preBarrier ext cb) w).Data.GetCurrentFrame
      = some frame := by rw [hd0]; exact hf
  have hfit : ∀ m ∈ stage.Info.Meshes, ∀ x ∈ stage.Info.Resources,
      x.isPushConstant = true → x.ConstantSize ≤ m.ModelMatrix.length := by
    intro m _ x hx hpc
    have hmem : x ∈ stage.Info.Resources.filter Resource.isPushConstant :=
      List.mem_filter.mpr ⟨hx, hpc⟩
    rw [hp, List.mem_singleton] at hmem
    rw [hmem, hsz, m.matrixSize]
  obtain ⟨w1, hok, hlog1, hd1, hi1⟩ := ForwardGraphics_ok stage cb shader _ frame hs hf0 hfit
  have hbody : stage.Info.Meshes.flatMap (fun m =>
      (stage.Info.Resources.filter Resource.isPushConstant).map (pushCall cb shader m)
        ++ [Event.MeshDraw cb m.Id])
      = stage.Info.Meshes.flatMap (meshCalls cb shader r) := by
    congr 1
    funext m
    rw [hp]
    simp only [List.map_cons, List.map_nil, pushCall_matrix cb shader m r hsz]
    rfl
  have hdisp : RendererStage.dispatch stage cb
      (stage.Info.Attachments.foldl (preBarrier ext cb) w) = .ok w1 := by
    unfold RendererStage.dispatch
    rcases ht with ht | ht <;> rw [ht] <;> exact hok
  have hpre : ∀ e ∈ bs ++ graphicsPrologue stage cb shader frame
      (stage.Info.Attachments.foldl (preBarrier ext cb) w).Data.FrameIndex
      (stage.Info.Attachments.foldl (preBarrier ext cb) w).Images,
      e.isPushConstants = false ∧ e.isMeshDraw = false := by
    intro e he
    rcases List.mem_append.mp he with h | h
    · have hb := hbs e h
      cases e <;> first | exact ⟨rfl, rfl⟩ | cases hb
    · simp only [graphicsPrologue, List.mem_cons, List.mem_singleton, List.not_mem_nil,
        or_false] at h
      rcases h with h | h | h | h | h | h | h <;> subst h <;> exact ⟨rfl, rfl⟩
  have hlog : (stage.Info.Attachments.foldl postUpdate w1).Log
      = w.Log ++ (bs ++ graphicsPrologue stage cb shader frame
          (stage.Info.Attachments.foldl (preBarrier ext cb) w).Data.FrameIndex
          (stage.Info.Attachments.foldl (preBarrier ext cb) w).Images)
        ++ stage.Info.Meshes.flatMap (meshCalls cb shader r)
        ++ [Event.CmdEndRenderPass cb] := by
    rw [(postUpdate_fold_log stage.Info.Attachments w1).1, hlog1, hlog0, hbody]
    simp only [List.append_assoc]
  generalize bs ++ graphicsPrologue stage cb shader frame
      (stage.Info.Attachments.foldl (preBarrier ext cb) w).Data.FrameIndex
      (stage.Info.Attachments.foldl (preBarrier ext cb) w).Images = pre at hpre hlog
  have hfilter : (recordedSince w.Log.length
      (stage.Info.Attachments.foldl postUpdate w1).Log).filter Event.isPushConstants
      = stage.Info.Meshes.map (fun m =>
          Event.CmdPushConstants cb shader r.BindLocation 0 64 m.ModelMatrix) := by
    rw [hlog, recordedSince, List.append_assoc, List.append_assoc, List.drop_left,
      List.filter_append, List.filter_append,
      filter_eq_nil_of_all_false pre (fun e he => (hpre e he).1),
      filter_isPushConstants_meshCalls]
    simp [Event.isPushConstants]
  refine ⟨stage.Info.Attachments.foldl postUpdate w1, pre, ?_, hlog, hpre, hfilter, ?_⟩
  · unfold RendererStage.Execute
    simp only [hdisp]
  · rw [hfilter, List.length_map]

/-- C5 at the graphics stage of the example, with its two meshes. -/
theorem C5_push_constant_per_mesh_witness :
    ((Example.graphicsObject.Info.StageType = RendererStageType.ForwardGraphics
        ∨ Example.graphicsObject.Info.StageType = RendererStageType.DeferredGraphics) ∧
      Example.graphicsObject.Info.Shader = some 70 ∧
      Example.initialized.Data.GetCurrentFrame = some Example.frame0 ∧
      Example.graphicsObject.Info.Resources.filter Resource.isPushConstant
        = [Example.pushConstant] ∧
      Example.pushConstant.ConstantSize = 64) ∧
    ∃ (w1 : World) (pre : List Event),
      RendererStage.Execute Example.collaborators Example.graphicsObject 20
        Example.initialized = .ok w1 ∧
      w1.Log = Example.initialized.Log ++ pre
        ++ Example.graphicsObject.Info.Meshes.flatMap (meshCalls 20 70 Example.pushConstant)
        ++ [Event.CmdEndRenderPass 20] ∧
      (∀ e ∈ pre, e.isPushConstants = false ∧ e.isMeshDraw = false) ∧
      (recordedSince Example.initialized.Log.length w1.Log).filter Event.isPushConstants
        = Example.graphicsObject.Info.Meshes.map (fun m =>
            Event.CmdPushConstants 20 70 Example.pushConstant.BindLocation 0 64
              m.ModelMatrix) ∧
      ((recordedSince Example.initialized.Log.length w1.Log).filter
          Event.isPushConstants).length = Example.graphicsObject.Info.Meshes.length :=
  ⟨⟨Or.inl rfl, rfl, rfl, rfl, rfl⟩,
    C5_push_constant_per_mesh Example.collaborators Example.graphicsObject 20 70
      Example.initialized Example.frame0 Example.pushConstant (Or.inl rfl) rfl rfl rfl rfl⟩

/-! ## What the stage bodies change -/

theorem Quiet.refl (w : World) : Quiet w w := ⟨⟨[], by simp⟩, rfl, rfl⟩

theorem Quiet.trans {a b c : World} (h1 : Quiet a b) (h2 : Quiet b c) : Quiet a c := by
  obtain ⟨⟨e1, l1⟩, d1, i1⟩ := h1
  obtain ⟨⟨e2, l2⟩, d2, i2⟩ := h2
  exact ⟨⟨e1 ++ e2, by rw [l2, l1, List.append_assoc]⟩, by rw [d2, d1], by rw [i2, i1]⟩

theorem Quiet.record (w : World) (es : List Event) : Quiet w (w.record es) :=
  ⟨⟨es, rfl⟩, rfl, rfl⟩

theorem foldExcept_rel {ε σ α : Type} (R : σ → σ → Prop) (hrefl : ∀ s, R s s)
    (htrans : ∀ a b c, R a b → R b c → R a c) (f : σ → α → Except ε σ)
    (hf : ∀ s a s1, f s a = .ok s1 → R s s1) :
    ∀ (l : List α) (s s1 : σ), foldExcept f s l = .ok s1 → R s s1 := by
  intro l
  induction l with
  | nil =>
    intro s s1 h
    simp only [foldExcept] at h
    cases h
    exact hrefl s
  | cons a l ih =>
    intro s s1 h
    simp only [foldExcept] at h
    split at h
    · cases h
    · rename_i s2 h2
      exact htrans _ _ _ (hf s a s2 h2) (ih s2 s1 h)

theorem pushConstants_quiet (cb shader : Handle) (m : Mesh) (w : World) (r : Resource)
    (w1 : World) (h : pushConstants cb shader m w r = .ok w1) : Quiet w w1 := by
  unfold pushConstants at h
  split at h
  · split at h
    · cases h
      exact Quiet.record _ _
    · cases h
  · cases h
    exact Quiet.refl _

theorem drawMesh_quiet (cb shader : Handle) (rs : List Resource) (w : World) (m : Mesh)
    (w1 : World) (h : drawMesh cb shader rs w m = .ok w1) : Quiet w w1 := by
  unfold drawMesh at h
  split at h
  · cases h
  · rename_i w2 h2
    cases h
    exact Quiet.trans
      (foldExcept_rel Quiet Quiet.refl (fun _ _ _ => Quiet.trans) _
        (pushConstants_quiet cb shader m) rs w w2 h2)
      (Quiet.record _ _)

theorem BindResources_quiet (stage : RendererStage) (cb : Handle) (slot : Nat) (w w1 : World)
    (h : RendererStage.BindResources stage cb slot w = .ok w1) : Quiet w w1 := by
  unfold RendererStage.BindResources at h
  split at h
  · cases h
  · cases h
    exact Quiet.trans (Quiet.record _ _) (Quiet.record _ _)

theorem ForwardGraphics_quiet (stage : RendererStage) (cb : Handle) (w w1 : World)
    (h : RendererStage.ForwardGraphics stage cb w = .ok w1) : Quiet w w1 := by
  unfold RendererStage.ForwardGraphics at h
  split at h
  · cases h
  · simp only at h
    split at h
    · cases h
    · split at h
      · cases h
      · rename_i w3 h3
        split at h
        · cases h
        · rename_i w4 h4
          cases h
          refine Quiet.trans (Quiet.record _ _) (Quiet.trans (Quiet.record _ _)
            (Quiet.trans (BindResources_quiet _ _ _ _ _ h3) (Quiet.trans ?_ (Quiet.record _ _))))
          exact foldExcept_rel Quiet Quiet.refl (fun _ _ _ => Quiet.trans) _
            (drawMesh_quiet cb _ stage.Info.Resources) _ _ _ h4

theorem ForwardCompute_quiet (stage : RendererStage) (cb : Handle) (w w1 : World)
    (h : RendererStage.ForwardCompute stage cb w = .ok w1) : Quiet w w1 := by
  unfold RendererStage.ForwardCompute at h
  split at h
  · cases h
  · simp only at h
    split at h
    · cases h
    · split at h
      · cases h
      · rename_i w2 h2
        cases h
        exact Quiet.trans (Quiet.record _ _)
          (Quiet.trans (BindResources_quiet _ _ _ _ _ h2) (Quiet.record _ _))

theorem ImGui_quiet (stage : RendererStage) (cb : Handle) (w w1 : World)
    (h : RendererStage.ImGui stage cb w = .ok w1) : Quiet w w1 := by
  unfold RendererStage.ImGui at h
  simp only at h
  split at h
  · cases h
  · cases h
    exact Quiet.trans (Quiet.record _ _) (Quiet.record _ _)

theorem BlitStage_quiet (stage : RendererStage) (cb : Handle) (w w1 : World)
    (h : RendererStage.BlitStage stage cb w = .ok w1) : Quiet w w1 := by
  unfold RendererStage.BlitStage at h
  split at h
  · cases h
  · simp only at h
    split at h
    · cases h
    · split at h
      · cases h
      · rename_i w3 h3
        cases h
        exact Quiet.trans (Quiet.record _ _) (Quiet.trans (Quiet.record _ _)
          (Quiet.trans (BindResources_quiet _ _ _ _ _ h3) (Quiet.record _ _)))

theorem dispatch_quiet (stage : RendererStage) (cb : Handle) (w w1 : World)
    (h : RendererStage.dispatch stage cb w = .ok w1) : Quiet w w1 := by
  unfold RendererStage.dispatch at h
  split at h
  · exact BlitStage_quiet _ _ _ _ h
  · exact ForwardCompute_quiet _ _ _ _ h
  · exact ForwardCompute_quiet _ _ _ _ h
  · exact ImGui_quiet _ _ _ _ h
  · exact ForwardGraphics_quiet _ _ _ _ h
  · exact ForwardGraphics_quiet _ _ _ _ h

/-! ## What the last loop of `Execute` leaves in the tracked layouts -/

theorem postUpdate_fold_other (atts : List Attachment) :
    ∀ (w : World) (id : ImageId), (∀ a ∈ atts, a.Image ≠ some id) →
      (atts.foldl postUpdate w).Images id = w.Images id := by
  induction atts with
  | nil => intro w id _; rfl
  | cons a atts ih =>
    intro w id hid
    rw [List.foldl_cons, ih _ id (fun a1 h1 => hid a1 (List.mem_cons_of_mem _ h1))]
    have ha := hid a (List.mem_cons_self _ _)
    unfold postUpdate
    cases hi : a.Image with
    | none => rfl
    | some image =>
      have hne : id ≠ image := fun h => ha (by rw [hi, h])
      simp [Image.SetImageLayout, Function.update_noteq hne]

theorem postUpdate_fold_tracked (atts : List Attachment) :
    ∀ (w : World) (id : ImageId), (∃ a ∈ atts, a.Image = some id) →
      ∃ a ∈ atts, a.Image = some id ∧
        ((atts.foldl postUpdate w).Images id).ImageLayout = a.Barrier.NewLayout := by
  induction atts with
  | nil =>
    intro w id h
    obtain ⟨a, ha, -⟩ := h
    cases ha
  | cons a atts ih =>
    intro w id h
    rw [List.foldl_cons]
    by_cases hrest : ∃ a1 ∈ atts, a1.Image = some id
    · obtain ⟨a1, h1, hi1, hl1⟩ := ih (postUpdate w a) id hrest
      exact ⟨a1, List.mem_cons_of_mem _ h1, hi1, hl1⟩
    · have hnone : ∀ a1 ∈ atts, a1.Image ≠ some id := fun a1 h1 hi => hrest ⟨a1, h1, hi⟩
      have hhead : a.Image = some id := by
        obtain ⟨a1, h1, hi1⟩ := h
        rcases List.mem_cons.mp h1 with h2 | h2
        · rw [← h2]; exact hi1
        · exact absurd hi1 (hnone a1 h2)
      refine ⟨a, List.mem_cons_self _ _, hhead, ?_⟩
      rw [postUpdate_fold_other atts _ id hnone]
      simp [postUpdate, hhead, Image.SetImageLayout]

/-- What `Execute` changes when it returns: it adds calls to the log, leaves
`s_Data` alone, leaves every image that backs none of its attachments alone,
and leaves every image that backs one of them tracked in the new layout of an
attachment it backs. -/
theorem Execute_effect (ext : Collaborators) (stage : RendererStage) (cb : Handle)
    (w w1 : World) (h : RendererStage.Execute ext stage cb w = .ok w1) :
    (∃ es, w1.Log = w.Log ++ es) ∧ w1.Data = w.Data ∧
    (∀ id, (∀ a ∈ stage.Info.Attachments, a.Image ≠ some id) → w1.Images id = w.Images id) ∧
    (∀ id, (∃ a ∈ stage.Info.Attachments, a.Image = some id) →
      ∃ a ∈ stage.Info.Attachments, a.Image = some id ∧
        (w1.Images id).ImageLayout = a.Barrier.NewLayout) := by
  unfold RendererStage.Execute at h
  simp only at h
  split at h
  · cases h
  · rename_i w2 h2
    cases h
    obtain ⟨bs, hlog0, -, hd0, hi0⟩ := preBarrier_fold ext cb stage.Info.Attachments w
    obtain ⟨⟨es, hlog2⟩, hd2, hi2⟩ := dispatch_quiet _ _ _ _ h2
    obtain ⟨hlog3, hd3⟩ := postUpdate_fold_log stage.Info.Attachments w2
    refine ⟨⟨bs ++ es, ?_⟩, ?_, ?_, ?_⟩
    · rw [hlog3, hlog2, hlog0, List.append_assoc]
    · rw [hd3, hd2, hd0]
    · intro id hid
      rw [postUpdate_fold_other _ _ id hid, hi2, hi0 id hid]
    · intro id hid
      exact postUpdate_fold_tracked _ _ id hid

/-! ## `Draw` step by step -/

theorem BeginFrame_effect (ext : Collaborators) (env : DrawEnv) (slot : Nat)
    (this : RendererFrame) (w w1 : World)
    (h : RendererFrame.BeginFrame ext env slot this w = .ok w1) :
    (∃ es, w1.Log = w.Log ++ es) ∧
    w1.Data = { w.Data with FrameIndex := env.imageIndex % 2 ^ 32 } := by
  unfold RendererFrame.BeginFrame at h
  simp only at h
  split at h
  · cases h
  · split at h
    · cases h
    · split at h <;> cases h
      · exact ⟨⟨_ :: _, by
          simp only [Image.ExecuteBarrier, World.record, List.append_assoc,
            List.singleton_append]; rfl⟩, rfl⟩
      · exact ⟨⟨_ :: _, by
          simp only [World.record, List.append_assoc, List.singleton_append]; rfl⟩, rfl⟩

theorem EndFrame_quiet (env : DrawEnv) (this : RendererFrame) (w w1 : World)
    (h : RendererFrame.EndFrame env this w = .ok w1) : Quiet w w1 := by
  unfold RendererFrame.EndFrame at h
  simp only at h
  split at h
  · cases h
  · split at h
    · cases h
    · split at h
      · split at h
        · cases h
        · cases h
          exact Quiet.trans (Quiet.record _ _) (Quiet.trans (Quiet.record _ _) (Quiet.record _ _))
      · cases h
        exact Quiet.trans (Quiet.record _ _) (Quiet.record _ _)

/-- The steps a returning `Draw` went through. -/
theorem Draw_ok (ext : Collaborators) (env : DrawEnv) (w w4 : World)
    (h : Renderer.Draw ext env w = .ok w4) :
    ∃ (frame : RendererFrame) (w1 w2 w3 : World),
      w.Data.Frames[w.Data.FrameIndex]? = some frame ∧
      RendererFrame.BeginFrame ext env w.Data.FrameIndex frame w = .ok w1 ∧
      executeStages ext frame.CommandBuffer w1 w1.Data.Stages = .ok w2 ∧
      RendererFrame.EndFrame env frame w2 = .ok w3 ∧
      w4 = { w3 with Data := advanceFrameIndex w3.Data } := by
  unfold Renderer.Draw at h
  simp only at h
  split at h
  · cases h
  · rename_i frame hframe
    split at h
    · cases h
    · rename_i w1 h1
      split at h
      · cases h
      · rename_i w2 h2
        split at h
        · cases h
        · rename_i w3 h3
          split at h
          · cases h
          · cases h
            exact ⟨frame, w1, w2, w3, hframe, h1, h2, h3, rfl⟩

theorem executeStages_chain (ext : Collaborators) (cb : Handle) :
    ∀ (stages : List RendererStage) (w wn : World),
      executeStages ext cb w stages = .ok wn →
      ∃ ws, ws.head? = some w ∧ ws.getLast? = some wn ∧ StageChain ext cb stages ws := by
  intro stages
  induction stages with
  | nil =>
    intro w wn h
    simp only [executeStages, foldExcept] at h
    cases h
    refine ⟨[w], rfl, rfl, rfl, ?_⟩
    intro i stage wi wj hs
    simp at hs
  | cons stage rest ih =>
    intro w wn h
    simp only [executeStages, foldExcept] at h
    split at h
    · cases h
    · rename_i w2 h2
      obtain ⟨ws2, hhead, hlast, hlen, hchain⟩ := ih w2 wn h
      cases ws2 with
      | nil => simp at hhead
      | cons v vs =>
        simp only [List.head?_cons, Option.some.injEq] at hhead
        subst hhead
        refine ⟨w :: v :: vs, rfl, ?_, ?_, ?_⟩
        · rw [List.getLast?_cons_cons]; exact hlast
        · simp only [List.length_cons] at hlen ⊢
          omega
        · intro i stage1 wi wj hs hi hj
          cases i with
          | zero =>
            simp only [List.getElem?_cons_zero, Option.some.injEq, Nat.zero_add,
              List.getElem?_cons_succ] at hs hi hj
            subst hs hi hj
            exact ⟨h2, (Execute_effect ext _ cb _ _ h2).1⟩
          | succ i =>
            simp only [List.getElem?_cons_succ] at hs hi
            have hj1 : (v :: vs)[i + 1]? = some wj := by
              rw [← hj, List.getElem?_cons_succ, List.getElem?_cons_succ,
                List.getElem?_cons_succ]
            exact hchain i stage1 wi wj hs hi hj1

/-! ## `Initialize` and the stage list -/

theorem resize_length {α : Type} (l : List α) (n : Nat) (d : α) :
    (resize l n d).length = n := by
  simp only [resize, List.length_append, List.length_take, List.length_replicate]
  omega

theorem initRenderPass_info {ext : Collaborators} {ctx : Context} {stage : RendererStage}
    {w : World} {built : RendererStage × World}
    (h : RendererStage.initRenderPass ext ctx stage w = .ok built) :
    built.1.Info = stage.Info := by
  unfold RendererStage.initRenderPass at h
  split at h
  · split at h
    · cases h
    · simp only at h
      split at h
      · cases h
      · cases h
        rfl
  · cases h
    rfl

theorem Init_info {ext : Collaborators} {ctx : Context} {stage : RendererStage}
    {w : World} {r : RendererStage × World}
    (h : RendererStage.Init ext ctx stage w = .ok r) : r.1.Info = stage.Info := by
  unfold RendererStage.Init at h
  split at h
  · cases h
  · rename_i built h1
    split at h
    · cases h
    · split at h
      · cases h
      · rename_i stage2 h3
        cases h
        rw [(initFrameBuffer_info h3).1, initRenderPass_info h1]

theorem initStages_info (ext : Collaborators) (ctx : Context) :
    ∀ (objects : List RendererStage) (nodes : List Node) (blit : Handle) (w : World)
      (p : List RendererStage × Handle × World),
      objects.length = nodes.length →
      initStages ext ctx objects nodes blit w = .ok p →
      p.1.length = nodes.length ∧
      ∀ (i : Nat) (node : Node), nodes[i]? = some node →
        ∃ stage, p.1[i]? = some stage ∧ stage.Info = node.StageInfo := by
  intro objects
  induction objects with
  | nil =>
    intro nodes blit w p hlen h
    cases nodes with
    | nil =>
      simp only [initStages] at h
      cases h
      exact ⟨rfl, fun i node hn => by simp at hn⟩
    | cons _ _ => simp at hlen
  | cons stage objects ih =>
    intro nodes blit w p hlen h
    cases nodes with
    | nil => simp at hlen
    | cons node nodes =>
      simp only [initStages] at h
      split at h
      · cases h
      · rename_i built hb
        split at h
        · cases h
        · rename_i rest hrest
          cases h
          have hinfo : built.1.Info = node.StageInfo := Init_info hb
          obtain ⟨hl, hget⟩ := ih nodes _ _ rest (by simpa using hlen) hrest
          refine ⟨by simp [hl], ?_⟩
          intro i node1 hn
          cases i with
          | zero =>
            simp only [List.getElem?_cons_zero, Option.some.injEq] at hn
            subst hn
            exact ⟨built.1, by simp, hinfo⟩
          | succ i =>
            simp only [List.getElem?_cons_succ] at hn ⊢
            exact hget i node1 hn

theorem Initialize_stages (ext : Collaborators) (ctx : Context) (g : RenderGraph)
    (w w1 : World) (h : Renderer.Initialize ext ctx g w = .ok w1) :
    w1.Data.Stages.length = g.GetStages.length ∧
    ∀ (i : Nat) (node : Node), g.GetStages[i]? = some node →
      ∃ stage, w1.Data.Stages[i]? = some stage ∧ stage.Info = node.StageInfo := by
  unfold Renderer.Initialize at h
  simp only at h
  split at h
  · cases h
  · rename_i loop hloop
    split at h
    · cases h
    · cases h
      exact initStages_info ext ctx _ _ _ _ loop (resize_length _ _ _) hloop

/-- C3. Stage order is insertion order. `Renderer::Initialize`, when it
returns, has built a stage list as long as `RenderGraph::GetStages()` whose
`i`-th stage carries the `StageInfo` of the `i`-th node. A `Renderer::Draw` that
returns has gone, in this order, through `BeginFrame` on the frame at the index
held on entry, `Execute` on `Stages[0]`, `Stages[1]`, ... in list order, each on
the world the previous step left and each with the command buffer of that same
frame, and `EndFrame` on that same frame; every step only adds to the log, so
the calls of a stage added earlier precede those of a stage added later. -/
theorem C3_stage_order_is_insertion_order (ext : Collaborators) (ctx : Context)
    (g : RenderGraph) (wa wb : World) (env : DrawEnv) (w w4 : World)
    (hI : Renderer.Initialize ext ctx g wa = .ok wb)
    (hD : Renderer.Draw ext env w = .ok w4) :
    (wb.Data.Stages.length = g.GetStages.length ∧
      ∀ (i : Nat) (node : Node), g.GetStages[i]? = some node →
        ∃ stage, wb.Data.Stages[i]? = some stage ∧ stage.Info = node.StageInfo) ∧
    ∃ (frame : RendererFrame) (ws : List World) (w0 wn w3 : World),
      w.Data.Frames[w.Data.FrameIndex]? = some frame ∧
      RendererFrame.BeginFrame ext env w.Data.FrameIndex frame w = .ok w0 ∧
      (∃ es, w0.Log = w.Log ++ es) ∧
      ws.head? = some w0 ∧
      StageChain ext frame.CommandBuffer w.Data.Stages ws ∧
      ws.getLast? = some wn ∧
      RendererFrame.EndFrame env frame wn = .ok w3 ∧
      (∃ es, w3.Log = wn.Log ++ es) ∧
      w4.Log = w3.Log := by
  refine ⟨Initialize_stages ext ctx g wa wb hI, ?_⟩
  obtain ⟨frame, w1, w2, w3, hframe, h1, h2, h3, h4⟩ := Draw_ok ext env w w4 hD
  obtain ⟨hlog1, hd1⟩ := BeginFrame_effect ext env _ frame w w1 h1
  have hstages : w1.Data.Stages = w.Data.Stages := by rw [hd1]
  rw [hstages] at h2
  obtain ⟨ws, hhead, hlast, hchain⟩ := executeStages_chain ext frame.CommandBuffer _ w1 w2 h2
  exact ⟨frame, ws, w1, w2, w3, hframe, h1, hlog1, hhead, hchain, hlast, h3,
    (EndFrame_quiet env frame w2 w3 h3).1, by rw [h4]⟩

/-- C3 at the graph of the example (the graphics stage added before the blit
stage) and the first frame drawn after `Initialize`. -/
theorem C3_stage_order_is_insertion_order_witness :
    (Renderer.Initialize Example.collaborators Example.context Example.graph Example.start
        = .ok Example.initialized ∧
      Renderer.Draw Example.collaborators (Example.success 0) Example.initialized
        = .ok Example.firstFrame) ∧
    (Example.initialized.Data.Stages.length = Example.graph.GetStages.length ∧
      ∀ (i : Nat) (node : Node), Example.graph.GetStages[i]? = some node →
        ∃ stage, Example.initialized.Data.Stages[i]? = some stage ∧
          stage.Info = node.StageInfo) ∧
    ∃ (frame : RendererFrame) (ws : List World) (w0 wn w3 : World),
      Example.initialized.Data.Frames[Example.initialized.Data.FrameIndex]? = some frame ∧
      RendererFrame.BeginFrame Example.collaborators (Example.success 0)
        Example.initialized.Data.FrameIndex frame Example.initialized = .ok w0 ∧
      (∃ es, w0.Log = Example.initialized.Log ++ es) ∧
      ws.head? = some w0 ∧
      StageChain Example.collaborators frame.CommandBuffer Example.initialized.Data.Stages ws ∧
      ws.getLast? = some wn ∧
      RendererFrame.EndFrame (Example.success 0) frame wn = .ok w3 ∧
      (∃ es, w3.Log = wn.Log ++ es) ∧
      Example.firstFrame.Log = w3.Log :=
  ⟨⟨rfl, rfl⟩,
    C3_stage_order_is_insertion_order Example.collaborators Example.context Example.graph
      Example.start Example.initialized (Example.success 0) Example.initialized
      Example.firstFrame rfl rfl⟩

/-! ## Tracked layouts after a frame -/

theorem executeStages_effect (ext : Collaborators) (cb : Handle) :
    ∀ (stages : List RendererStage) (w w1 : World),
      executeStages ext cb w stages = .ok w1 →
      w1.Data = w.Data ∧
      (∀ id, (∀ s ∈ stages, ∀ a ∈ s.Info.Attachments, a.Image ≠ some id) →
        w1.Images id = w.Images id) ∧
      (∀ id, (∃ s ∈ stages, ∃ a ∈ s.Info.Attachments, a.Image = some id) →
        ∃ s ∈ stages, ∃ a ∈ s.Info.Attachments, a.Image = some id ∧
          (w1.Images id).ImageLayout = a.Barrier.NewLayout) := by
  intro stages
  induction stages with
  | nil =>
    intro w w1 h
    simp only [executeStages, foldExcept] at h
    cases h
    refine ⟨rfl, fun _ _ => rfl, ?_⟩
    intro id hid
    obtain ⟨s, hs, -⟩ := hid
    cases hs
  | cons stage rest ih =>
    intro w w1 h
    simp only [executeStages, foldExcept] at h
    split at h
    · cases h
    · rename_i w2 h2
      obtain ⟨-, hd2, hother2, htracked2⟩ := Execute_effect ext stage cb w w2 h2
      obtain ⟨hd, hother, htracked⟩ := ih w2 w1 h
      refine ⟨by rw [hd, hd2], ?_, ?_⟩
      · intro id hid
        rw [hother id (fun s hs => hid s (List.mem_cons_of_mem _ hs)),
          hother2 id (hid stage (List.mem_cons_self _ _))]
      · intro id hid
        by_cases hrest : ∃ s ∈ rest, ∃ a ∈ s.Info.Attachments, a.Image = some id
        · obtain ⟨s, hs, a, ha, hi, hl⟩ := htracked id hrest
          exact ⟨s, List.mem_cons_of_mem _ hs, a, ha, hi, hl⟩
        · have hnone : ∀ s ∈ rest, ∀ a ∈ s.Info.Attachments, a.Image ≠ some id :=
            fun s hs a ha hi => hrest ⟨s, hs, a, ha, hi⟩
          have hhead : ∃ a ∈ stage.Info.Attachments, a.Image = some id := by
            obtain ⟨s, hs, a, ha, hi⟩ := hid
            rcases List.mem_cons.mp hs with h3 | h3
            · rw [h3] at ha; exact ⟨a, ha, hi⟩
            · exact absurd hi (hnone s h3 a ha)
          obtain ⟨a, ha, hi, hl⟩ := htracked2 id hhead
          exact ⟨stage, List.mem_cons_self _ _, a, ha, hi, by rw [hother id hnone]; exact hl⟩

/-- What a returning `Draw` leaves: the stage list is kept, and every image
backing an attachment is tracked in the new layout of an attachment it backs. -/
theorem Draw_effect (ext : Collaborators) (env : DrawEnv) (w w4 : World)
    (h : Renderer.Draw ext env w = .ok w4) :
    w4.Data.Stages = w.Data.Stages ∧
    (∀ id, (∃ s ∈ w.Data.Stages, ∃ a ∈ s.Info.Attachments, a.Image = some id) →
      ∃ s ∈ w.Data.Stages, ∃ a ∈ s.Info.Attachments, a.Image = some id ∧
        (w4.Images id).ImageLayout = a.Barrier.NewLayout) := by
  obtain ⟨frame, w1, w2, w3, -, h1, h2, h3, h4⟩ := Draw_ok ext env w w4 h
  obtain ⟨-, hd1⟩ := BeginFrame_effect ext env _ frame w w1 h1
  have hstages : w1.Data.Stages = w.Data.Stages := by rw [hd1]
  rw [hstages] at h2
  obtain ⟨hd2, -, htracked⟩ := executeStages_effect ext frame.CommandBuffer _ w1 w2 h2
  obtain ⟨-, hd3, hi3⟩ := EndFrame_quiet env frame w2 w3 h3
  subst h4
  refine ⟨?_, ?_⟩
  · simp only [advanceFrameIndex, hd3, hd2, hstages]
  · intro id hid
    simp only [hi3]
    exact htracked id hid

theorem Draw_tracked (ext : Collaborators) (env : DrawEnv) (w w4 : World)
    (hc : ConsistentLayouts w.Data.Stages) (h : Renderer.Draw ext env w = .ok w4) :
    LayoutsTracked w4 := by
  obtain ⟨hstages, htracked⟩ := Draw_effect ext env w w4 h
  intro s hs a ha id hi
  rw [hstages] at hs
  obtain ⟨s1, hs1, a1, ha1, hi1, hl1⟩ := htracked id ⟨s, hs, a, ha, hi⟩
  rw [hl1]
  exact hc s1 hs1 a1 ha1 s hs a ha (by rw [hi1]; rfl) (by rw [hi1, hi])

theorem drawFrames_stages (ext : Collaborators) :
    ∀ (envs : List DrawEnv) (w w1 : World), drawFrames ext envs w = .ok w1 →
      w1.Data.Stages = w.Data.Stages := by
  intro envs
  induction envs with
  | nil =>
    intro w w1 h
    simp only [drawFrames] at h
    cases h
    rfl
  | cons env envs ih =>
    intro w w1 h
    simp only [drawFrames] at h
    split at h
    · cases h
    · rename_i w2 h2
      rw [ih w2 w1 h, (Draw_effect ext env w w2 h2).1]

theorem drawFrames_append (ext : Collaborators) :
    ∀ (l1 l2 : List DrawEnv) (w w1 : World), drawFrames ext (l1 ++ l2) w = .ok w1 →
      ∃ wk, drawFrames ext l1 w = .ok wk ∧ drawFrames ext l2 wk = .ok w1 := by
  intro l1
  induction l1 with
  | nil => intro l2 w w1 h; exact ⟨w, rfl, h⟩
  | cons env l1 ih =>
    intro l2 w w1 h
    simp only [List.cons_append, drawFrames] at h ⊢
    split at h
    · cases h
    · exact ih l2 _ w1 h

theorem drawFrames_tracked (ext : Collaborators) :
    ∀ (envs : List DrawEnv) (w w1 : World), ConsistentLayouts w.Data.Stages → envs ≠ [] →
      drawFrames ext envs w = .ok w1 → LayoutsTracked w1 := by
  intro envs
  induction envs with
  | nil => intro w w1 _ hne _; exact absurd rfl hne
  | cons env envs ih =>
    intro w w1 hc _ h
    simp only [drawFrames] at h
    split at h
    · cases h
    · rename_i w2 h2
      cases envs with
      | nil =>
        simp only [drawFrames] at h
        cases h
        exact Draw_tracked ext env w _ hc h2
      | cons env1 envs =>
        have hc2 : ConsistentLayouts w2.Data.Stages := by
          rw [(Draw_effect ext env w w2 h2).1]; exact hc
        exact ih w2 w1 hc2 (by simp) h

/-- C4 (amended). For a stage list in which attachments backed by the same
image declare the same new layout (in particular when every image backs one
attachment, as in the graph of the example, where the blit stage samples the
colour attachment of the graphics stage), after every frame of a run of
`Renderer::Draw` calls that return (ten, or any other number) the tracked
layout of the backing image of every attachment is the new layout the
attachment declares. -/
theorem C4_tracked_layouts_after_every_frame (ext : Collaborators) (envs : List DrawEnv)
    (w w1 : World) (hc : ConsistentLayouts w.Data.Stages)
    (h : drawFrames ext envs w = .ok w1) :
    ∀ k, 1 ≤ k → k ≤ envs.length →
      ∃ wk, drawFrames ext (envs.take k) w = .ok wk ∧ LayoutsTracked wk := by
  intro k hk1 hk2
  rw [← List.take_append_drop k envs] at h
  obtain ⟨wk, hwk, -⟩ := drawFrames_append ext _ _ w w1 h
  refine ⟨wk, hwk, drawFrames_tracked ext _ w wk hc ?_ hwk⟩
  intro hnil
  have hlen : (envs.take k).length = 0 := by rw [hnil]; rfl
  rw [List.length_take] at hlen
  omega

/-- C4 at the graph of the example, drawn for ten frames. -/
theorem C4_tracked_layouts_after_every_frame_witness :
    (ConsistentLayouts Example.initialized.Data.Stages ∧
      drawFrames Example.collaborators Example.tenFrames Example.initialized
        = .ok Example.afterTenFrames) ∧
    ∀ k, 1 ≤ k → k ≤ Example.tenFrames.length →
      ∃ wk, drawFrames Example.collaborators (Example.tenFrames.take k) Example.initialized
          = .ok wk ∧ LayoutsTracked wk :=
  ⟨⟨by decide, rfl⟩,
    C4_tracked_layouts_after_every_frame Example.collaborators Example.tenFrames
      Example.initialized Example.afterTenFrames (by decide) rfl⟩

/-- C4 as stated fails. In the graph scene -> overlay -> blit, where the blit
stage samples the colour image that the scene stage produces (declaring the new
layout `ColorAttachmentOptimal`) and the overlay stage draws over (declaring
`ShaderReadOnlyOptimal`), ten frames are drawn; after every one of them the
colour image is tracked in `ShaderReadOnlyOptimal`, which is not the new layout
the attachment of the scene stage declares. -/
theorem C4_counterexample_shared_image :
    Renderer.Initialize Example.collaborators Example.context Example.overlayGraph
      Example.start = .ok Example.overlayInitialized ∧
    drawFrames Example.collaborators Example.tenFrames Example.overlayInitialized
      = .ok Example.overlayAfterTenFrames ∧
    (Example.overlayInitialized.Data.Stages.map (fun s => s.Info)
      = [Example.sceneStage, Example.overlayStage, Example.blitStage]) ∧
    Example.sceneColor ∈ Example.sceneStage.Attachments ∧
    Example.sceneColor.Image = some Example.colorAttachment ∧
    Example.sceneColor.Barrier.NewLayout = ImageLayout.ColorAttachmentOptimal ∧
    (List.range 10).all (fun k =>
      decide (((returned Example.overlayInitialized
        (drawFrames Example.collaborators (Example.tenFrames.take (k + 1))
          Example.overlayInitialized)).Images Example.colorAttachment).ImageLayout
        = ImageLayout.ShaderReadOnlyOptimal)) = true ∧
    ¬ LayoutsTracked Example.overlayAfterTenFrames := by
  refine ⟨rfl, rfl, rfl, by decide, rfl, rfl, by decide, ?_⟩
  intro h
  have hs : ({ Info := Example.sceneStage, RenderPass := 51,
               FrameBuffer := { Created := true, Attachments := [some 1], RenderPass := 51,
                                Extent := ⟨0, 0⟩ },
               ClearValues := [VkClearValue.color 0 0 0 1] } : RendererStage)
      ∈ Example.overlayAfterTenFrames.Data.Stages := by decide
  have h1 := h _ hs Example.sceneColor (by decide) Example.colorAttachment rfl
  revert h1
  decide

/-! ## Descriptor allocation and the acquired image index -/

/-- C8 (what the code does). At the example after `Initialize`, with frame
index 0 on entry and an acquisition that returns image index 1, `Draw` returns;
its `BeginFrame` waits on the fence of slot 0 and resets the descriptor pools of
slot 0, but the descriptor sets of both stages are allocated from the
descriptor allocator of slot 1, whose pools this `Draw` has not reset. -/
theorem C8_descriptor_sets_from_another_slot :
    Example.initialized.Data.FrameIndex = 0 ∧
    Example.initialized.Data.Frames.length = 2 ∧
    Example.initialized.Data.Frames.map (fun f => f.Fence) = [30, 31] ∧
    returns (Renderer.Draw Example.collaborators (Example.success 1) Example.initialized)
      = true ∧
    (recordedSince Example.initialized.Log.length
      (outcomeLog (Renderer.Draw Example.collaborators (Example.success 1)
        Example.initialized))).take 3
      = [Event.WaitForFences 1 30, Event.ResetFences 1 30, Event.ResetPools 0] ∧
    (recordedSince Example.initialized.Log.length
      (outcomeLog (Renderer.Draw Example.collaborators (Example.success 1)
        Example.initialized))).filterMap Event.resetSlot = [0] ∧
    (recordedSince Example.initialized.Log.length
      (outcomeLog (Renderer.Draw Example.collaborators (Example.success 1)
        Example.initialized))).filterMap Event.allocationSlot = [1, 1] :=
  ⟨rfl, rfl, rfl, rfl, rfl, rfl, rfl⟩

/-! ## The render pass `Init` derives -/

theorem initAttachment_fields {ext : Collaborators} {ctx : Context} {images : ImageId → Image}
    {b b1 : PassBuild} {i : Nat} {a : Attachment}
    (h : initAttachment ext ctx images b i a = .ok b1) :
    b1.dependencies = b.dependencies ++ [dependencyOf ext a] ∧
    b1.attachmentRefs =
      (if a.Kind = AttachmentType.Swapchain
        then b.attachmentRefs.push AttachmentType.Color
          { attachment := i % 2 ^ 32, layout := referenceLayout a.Kind }
        else b.attachmentRefs.push a.Kind
          { attachment := i % 2 ^ 32, layout := referenceLayout a.Kind }) ∧
    b1.ClearValues = cacheClearValue b.ClearValues i a := by
  unfold initAttachment at h
  split at h
  · cases h
  · cases h
    exact ⟨rfl, rfl, rfl⟩

theorem initLoop_dependencies (ext : Collaborators) (ctx : Context) (images : ImageId → Image) :
    ∀ (rest : List Attachment) (i : Nat) (b b1 : PassBuild),
      initLoop ext ctx images i rest b = .ok b1 →
      b1.dependencies = b.dependencies ++ rest.map (dependencyOf ext) := by
  intro rest
  induction rest with
  | nil =>
    intro i b b1 h
    simp only [initLoop] at h
    cases h
    simp
  | cons a rest ih =>
    intro i b b1 h
    simp only [initLoop] at h
    split at h
    · cases h
    · rename_i b2 hb2
      rw [ih (i + 1) b2 b1 h, (initAttachment_fields hb2).1]
      simp

theorem push_refs (m : AttachmentRefs) (i : Nat) (a : Attachment) :
    ((if a.Kind = AttachmentType.Swapchain
        then m.push AttachmentType.Color
          { attachment := i, layout := referenceLayout a.Kind }
        else m.push a.Kind
          { attachment := i, layout := referenceLayout a.Kind }).Color
      = m.Color ++ (if a.isColor then [colorReference i] else [])) ∧
    ((if a.Kind = AttachmentType.Swapchain
        then m.push AttachmentType.Color
          { attachment := i, layout := referenceLayout a.Kind }
        else m.push a.Kind
          { attachment := i, layout := referenceLayout a.Kind }).Depth
      = m.Depth ++ (if a.isDepth then [depthReference i] else [])) := by
  cases hk : a.Kind <;>
    simp [AttachmentRefs.push, Attachment.isColor, Attachment.isDepth, hk, referenceLayout,
      colorReference, depthReference]

theorem initLoop_refs (ext : Collaborators) (ctx : Context) (images : ImageId → Image) :
    ∀ (rest : List Attachment) (i : Nat) (b b1 : PassBuild),
      i + rest.length ≤ 2 ^ 32 →
      initLoop ext ctx images i rest b = .ok b1 →
      b1.attachmentRefs.Color = b.attachmentRefs.Color ++ colorReferencesFrom i rest ∧
      b1.attachmentRefs.Depth = b.attachmentRefs.Depth ++ depthReferencesFrom i rest := by
  intro rest
  induction rest with
  | nil =>
    intro i b b1 _ h
    simp only [initLoop] at h
    cases h
    simp [colorReferencesFrom, depthReferencesFrom]
  | cons a rest ih =>
    intro i b b1 hlen h
    simp only [initLoop] at h
    split at h
    · cases h
    · rename_i b2 hb2
      simp only [List.length_cons] at hlen
      obtain ⟨hc, hd⟩ := ih (i + 1) b2 b1 (by omega) h
      have hmod : i % 2 ^ 32 = i := Nat.mod_eq_of_lt (by omega)
      have hrefs := (initAttachment_fields hb2).2.1
      rw [hmod] at hrefs
      obtain ⟨pc, pd⟩ := push_refs b.attachmentRefs i a
      rw [← hrefs] at pc pd
      refine ⟨?_, ?_⟩
      · rw [hc, pc, colorReferencesFrom, colorReferencesFrom, List.enumFrom_cons,
          List.filter_cons]
        by_cases hcol : a.isColor = true
        · simp [hcol]
        · simp [hcol]
      · rw [hd, pd, depthReferencesFrom, depthReferencesFrom, List.enumFrom_cons,
          List.filter_cons]
        by_cases hdep : a.isDepth = true
        · simp [hdep]
        · simp [hdep]

theorem cacheClearValue_getElem? (values : List VkClearValue) (i j : Nat) (a : Attachment) :
    (cacheClearValue values i a)[j]?
      = if j = i then values[i]?.map (fun old => cachedClearValue old a) else values[j]? := by
  unfold cacheClearValue cachedClearValue Attachment.isColor
  by_cases hji : j = i
  · subst hji
    by_cases hc : a.Clear = true
    · cases hv : values[j]? with
      | none =>
        have hle : values.length ≤ j := List.getElem?_eq_none_iff.mp hv
        cases hk : a.Kind <;> simp [hc, hk, List.getElem?_set, hle]
      | some v =>
        have hlt : j < values.length := by
          rcases List.getElem?_eq_some_iff.mp hv with ⟨hlt, -⟩
          exact hlt
        cases hk : a.Kind <;>
          simp [hc, hk, List.getElem?_set, hlt, List.getD_eq_getElem?_getD, hv]
    · cases hv : values[j]? <;> simp [hc, hv]
  · by_cases hc : a.Clear = true
    · cases hk : a.Kind <;> simp [hc, hk, hji, List.getElem?_set, Ne.symm hji]
    · simp [hc, hji]

theorem cacheClearValue_length (values : List VkClearValue) (i : Nat) (a : Attachment) :
    (cacheClearValue values i a).length = values.length := by
  unfold cacheClearValue
  by_cases hc : a.Clear = true
  · cases hk : a.Kind <;> simp [hc, hk]
  · simp [hc]

theorem initLoop_clearValues (ext : Collaborators) (ctx : Context) (images : ImageId → Image) :
    ∀ (rest : List Attachment) (i : Nat) (b b1 : PassBuild),
      initLoop ext ctx images i rest b = .ok b1 →
      b1.ClearValues.length = b.ClearValues.length ∧
      (∀ j, j < i → b1.ClearValues[j]? = b.ClearValues[j]?) ∧
      (∀ j a, rest[j]? = some a →
        b1.ClearValues[i + j]?
          = b.ClearValues[i + j]?.map (fun old => cachedClearValue old a)) := by
  intro rest
  induction rest with
  | nil =>
    intro i b b1 h
    simp only [initLoop] at h
    cases h
    exact ⟨rfl, fun _ _ => rfl, fun j a hj => by simp at hj⟩
  | cons a rest ih =>
    intro i b b1 h
    simp only [initLoop] at h
    split at h
    · cases h
    · rename_i b2 hb2
      have hcv := (initAttachment_fields hb2).2.2
      obtain ⟨hlen, hlow, hvis⟩ := ih (i + 1) b2 b1 h
      refine ⟨by rw [hlen, hcv, cacheClearValue_length], ?_, ?_⟩
      · intro j hj
        rw [hlow j (by omega), hcv, cacheClearValue_getElem?, if_neg (by omega)]
      · intro j a1 hj
        cases j with
        | zero =>
          simp only [List.getElem?_cons_zero, Option.some.injEq] at hj
          subst hj
          rw [Nat.add_zero, hlow i (by omega), hcv, cacheClearValue_getElem?, if_pos rfl]
        | succ j =>
          simp only [List.getElem?_cons_succ] at hj
          have h1 := hvis j a1 hj
          have hidx : i + 1 + j = i + (j + 1) := by omega
          rw [hidx] at h1
          rw [h1, hcv, cacheClearValue_getElem?, if_neg (by omega)]

/-- What a returning `Init` of a rasterizing stage derived: the locals `b` the
attachment loop ended with, the create-info built from them as the first call
recorded, and the clear values kept in the stage. -/
theorem Init_renderPass {ext : Collaborators} {ctx : Context} {stage : RendererStage}
    {w : World} {r : RendererStage × World}
    (hr : rasterizes stage.Info.StageType = true)
    (h : RendererStage.Init ext ctx stage w = .ok r) :
    ∃ b rest,
      initLoop ext ctx w.Images 0 stage.Info.Attachments
        (passBuildStart stage.Info stage.ClearValues) = .ok b ∧
      r.2.Log = w.Log ++ Event.CreateRenderPass2 (renderPassInfo b) :: rest ∧
      r.1.ClearValues = b.ClearValues := by
  unfold RendererStage.Init at h
  split at h
  · cases h
  · rename_i built h1
    obtain ⟨stage1, w1⟩ := built
    simp only at h
    split at h
    · cases h
    · rename_i w2 h2
      split at h
      · cases h
      · rename_i stage2 h3
        cases h
        obtain ⟨b, hb, hlog, -, hcv⟩ := initRenderPass_ok hr h1
        obtain ⟨rest, hlog2, -, -⟩ := initShader_log h2
        refine ⟨b, rest, hb, ?_, ?_⟩
        · simp only [hlog2, hlog, List.append_assoc, List.singleton_append]
        · rw [(initFrameBuffer_info h3).2.2, hcv]

/-- The attachment descriptions a returning `Init` of a rasterizing stage
hands to `vkCreateRenderPass2`: one per declared attachment, the one at index
`i` derived from `Attachments[i]`. -/
theorem Init_descriptions {ext : Collaborators} {ctx : Context} {stage : RendererStage}
    {w : World} {r : RendererStage × World}
    (hr : rasterizes stage.Info.StageType = true)
    (h : RendererStage.Init ext ctx stage w = .ok r) :
    ∃ info rest,
      r.2.Log = w.Log ++ Event.CreateRenderPass2 info :: rest ∧
      info.attachments.length = stage.Info.Attachments.length ∧
      ∀ (i : Nat) (a : Attachment), stage.Info.Attachments[i]? = some a →
        ∃ f s, info.attachments[i]? = some (describeAttachment a f s) := by
  obtain ⟨b, rest, hb, hlog, -⟩ := Init_renderPass hr h
  obtain ⟨hlen, -, hvis⟩ :=
    initLoop_attachments ext ctx w.Images stage.Info.Attachments 0 _ b hb
  have hstart : (passBuildStart stage.Info stage.ClearValues).attachments.length
      = stage.Info.Attachments.length := by
    simp [passBuildStart]
  refine ⟨renderPassInfo b, rest, hlog, ?_, ?_⟩
  · simp only [renderPassInfo, hlen, hstart]
  · intro i a hi
    have hlt : i < stage.Info.Attachments.length := by
      rcases List.getElem?_eq_some_iff.mp hi with ⟨hlt, -⟩
      exact hlt
    obtain ⟨f, s, -, hd⟩ := hvis i a hi (by rw [hstart]; omega)
    rw [Nat.zero_add] at hd
    exact ⟨f, s, hd⟩

/-! ## Load and store operations, layouts -/

theorem describeAttachment_loadOp_defined (a : Attachment) (format samples : Nat)
    (h : a.Barrier.OldLayout ≠ ImageLayout.Undefined) :
    (describeAttachment a format samples).loadOp
      = (if a.Clear then VkAttachmentLoadOp.CLEAR else VkAttachmentLoadOp.LOAD) := by
  unfold describeAttachment
  simp only [h, if_false]
  split <;> rfl

theorem describeAttachment_storeOp (a : Attachment) (format samples : Nat) :
    (describeAttachment a format samples).storeOp = VkAttachmentStoreOp.STORE := by
  unfold describeAttachment
  simp only
  split <;> split <;> rfl

theorem describeAttachment_stencilLoadOp (a : Attachment) (format samples : Nat) :
    (describeAttachment a format samples).stencilLoadOp
      = (if a.Kind = AttachmentType.DepthStencil
          then (if a.Clear then VkAttachmentLoadOp.CLEAR else VkAttachmentLoadOp.LOAD)
          else VkAttachmentLoadOp.LOAD) := by
  unfold describeAttachment
  simp only
  split <;> split <;> rfl

theorem describeAttachment_layouts (a : Attachment) (format samples : Nat) :
    (describeAttachment a format samples).initialLayout = a.Barrier.OldLayout.code ∧
    (describeAttachment a format samples).finalLayout = a.Barrier.NewLayout.code := by
  unfold describeAttachment
  exact ⟨rfl, rfl⟩

/-- C13. In the render pass that `RendererStage::Init` derives for a rasterizing
stage, every attachment declared with `Barrier.OldLayout` other than
`Undefined` gets the load-op `CLEAR` when its `Clear` flag is set and `LOAD`
otherwise, and the store-op `STORE`. -/
theorem C13_load_op_follows_clear_flag (ext : Collaborators) (ctx : Context)
    (stage : RendererStage) (w : World) (r : RendererStage × World)
    (ht : stage.Info.StageType = RendererStageType.ForwardGraphics
      ∨ stage.Info.StageType = RendererStageType.DeferredGraphics
      ∨ stage.Info.StageType = RendererStageType.ImGui
      ∨ stage.Info.StageType = RendererStageType.Blit)
    (h : RendererStage.Init ext ctx stage w = .ok r) :
    ∃ info rest,
      r.2.Log = w.Log ++ Event.CreateRenderPass2 info :: rest ∧
      ∀ (i : Nat) (a : Attachment), stage.Info.Attachments[i]? = some a →
        a.Barrier.OldLayout ≠ ImageLayout.Undefined →
        ∃ d : VkAttachmentDescription2, info.attachments[i]? = some d ∧
          (a.Clear = true → d.loadOp = VkAttachmentLoadOp.CLEAR) ∧
          (a.Clear = false → d.loadOp = VkAttachmentLoadOp.LOAD) ∧
          d.storeOp = VkAttachmentStoreOp.STORE := by
  obtain ⟨info, rest, hlog, -, hd⟩ := Init_descriptions ((rasterizes_iff _).mpr ht) h
  refine ⟨info, rest, hlog, ?_⟩
  intro i a hi hu
  obtain ⟨f, s, hget⟩ := hd i a hi
  refine ⟨_, hget, ?_, ?_, describeAttachment_storeOp a f s⟩
  · intro hc
    rw [describeAttachment_loadOp_defined a f s hu, if_pos hc]
  · intro hc
    rw [describeAttachment_loadOp_defined a f s hu, hc]
    rfl

/-- C13 at the graphics stage of the example, whose two attachments are cleared
and declare old layouts other than `Undefined`. -/
theorem C13_load_op_follows_clear_flag_witness :
    ((Example.graphicsObject.Info.StageType = RendererStageType.ForwardGraphics
        ∨ Example.graphicsObject.Info.StageType = RendererStageType.DeferredGraphics
        ∨ Example.graphicsObject.Info.StageType = RendererStageType.ImGui
        ∨ Example.graphicsObject.Info.StageType = RendererStageType.Blit) ∧
      RendererStage.Init Example.collaborators Example.context Example.graphicsObject
        Example.start = .ok Example.graphicsInit) ∧
    ∃ info rest,
      Example.graphicsInit.2.Log = Example.start.Log ++ Event.CreateRenderPass2 info :: rest ∧
      ∀ (i : Nat) (a : Attachment), Example.graphicsObject.Info.Attachments[i]? = some a →
        a.Barrier.OldLayout ≠ ImageLayout.Undefined →
        ∃ d : VkAttachmentDescription2, info.attachments[i]? = some d ∧
          (a.Clear = true → d.loadOp = VkAttachmentLoadOp.CLEAR) ∧
          (a.Clear = false → d.loadOp = VkAttachmentLoadOp.LOAD) ∧
          d.storeOp = VkAttachmentStoreOp.STORE :=
  ⟨⟨Or.inl rfl, rfl⟩,
    C13_load_op_follows_clear_flag Example.collaborators Example.context
      Example.graphicsObject Example.start Example.graphicsInit (Or.inl rfl) rfl⟩

/-- C14 (amended). In the render pass that `RendererStage::Init` derives for a
rasterizing stage, an attachment of kind `DepthStencil` declared with an old
layout other than `Undefined` gets the stencil load-op `CLEAR` when its `Clear`
flag is set and `LOAD` when it is not, which is its derived load-op; for an
attachment of kind `Depth` no stencil load-op is set, it keeps the zero value
`LOAD`. -/
theorem C14_stencil_load_op (ext : Collaborators) (ctx : Context)
    (stage : RendererStage) (w : World) (r : RendererStage × World)
    (ht : stage.Info.StageType = RendererStageType.ForwardGraphics
      ∨ stage.Info.StageType = RendererStageType.DeferredGraphics
      ∨ stage.Info.StageType = RendererStageType.ImGui
      ∨ stage.Info.StageType = RendererStageType.Blit)
    (h : RendererStage.Init ext ctx stage w = .ok r) :
    ∃ info rest,
      r.2.Log = w.Log ++ Event.CreateRenderPass2 info :: rest ∧
      ∀ (i : Nat) (a : Attachment), stage.Info.Attachments[i]? = some a →
        ∃ d : VkAttachmentDescription2, info.attachments[i]? = some d ∧
          (a.Kind = AttachmentType.DepthStencil →
            a.Barrier.OldLayout ≠ ImageLayout.Undefined →
            d.stencilLoadOp
                = (if a.Clear then VkAttachmentLoadOp.CLEAR else VkAttachmentLoadOp.LOAD) ∧
              d.stencilLoadOp = d.loadOp) ∧
          (a.Kind = AttachmentType.Depth → d.stencilLoadOp = VkAttachmentLoadOp.LOAD) := by
  obtain ⟨info, rest, hlog, -, hd⟩ := Init_descriptions ((rasterizes_iff _).mpr ht) h
  refine ⟨info, rest, hlog, ?_⟩
  intro i a hi
  obtain ⟨f, s, hget⟩ := hd i a hi
  refine ⟨_, hget, ?_, ?_⟩
  · intro hk hu
    rw [describeAttachment_stencilLoadOp, describeAttachment_loadOp_defined a f s hu, if_pos hk]
    exact ⟨rfl, rfl⟩
  · intro hk
    rw [describeAttachment_stencilLoadOp, hk]
    rfl

/-- C14 (amended) at the stage of the example with two depth/stencil
attachments. -/
theorem C14_stencil_load_op_witness :
    ((Example.depthStencilObject.Info.StageType = RendererStageType.ForwardGraphics
        ∨ Example.depthStencilObject.Info.StageType = RendererStageType.DeferredGraphics
        ∨ Example.depthStencilObject.Info.StageType = RendererStageType.ImGui
        ∨ Example.depthStencilObject.Info.StageType = RendererStageType.Blit) ∧
      RendererStage.Init Example.collaborators Example.context Example.depthStencilObject
        Example.start = .ok Example.depthStencilInit) ∧
    ∃ info rest,
      Example.depthStencilInit.2.Log
        = Example.start.Log ++ Event.CreateRenderPass2 info :: rest ∧
      ∀ (i : Nat) (a : Attachment),
        Example.depthStencilObject.Info.Attachments[i]? = some a →
        ∃ d : VkAttachmentDescription2, info.attachments[i]? = some d ∧
          (a.Kind = AttachmentType.DepthStencil →
            a.Barrier.OldLayout ≠ ImageLayout.Undefined →
            d.stencilLoadOp
                = (if a.Clear then VkAttachmentLoadOp.CLEAR else VkAttachmentLoadOp.LOAD) ∧
              d.stencilLoadOp = d.loadOp) ∧
          (a.Kind = AttachmentType.Depth → d.stencilLoadOp = VkAttachmentLoadOp.LOAD) :=
  ⟨⟨Or.inl rfl, rfl⟩,
    C14_stencil_load_op Example.collaborators Example.context
      Example.depthStencilObject Example.start Example.depthStencilInit (Or.inl rfl) rfl⟩

/-- C14 as stated fails. In the graphics stage of the example the attachment
at index 1 is of kind `Depth`, is cleared and declares the old layout
`DepthStencilAttachmentOptimal`: `Init` derives the load-op `CLEAR` for it and
leaves the stencil load-op at `LOAD`. In the stage with the depth/stencil
attachments the attachment at index 0 is of kind `DepthStencil`, is cleared and
declares the old layout `Undefined`: its load-op is `DONT_CARE` and its stencil
load-op is `CLEAR`. -/
theorem C14_counterexample_stencil_load_op :
    RendererStage.Init Example.collaborators Example.context Example.graphicsObject
      Example.start = .ok Example.graphicsInit ∧
    Example.graphicsObject.Info.Attachments[1]? = some Example.depthOfGraphics ∧
    Example.depthOfGraphics.Kind = AttachmentType.Depth ∧
    (createdDescription Example.graphicsInit.2.Log 1).map (fun d => (d.loadOp, d.stencilLoadOp))
      = some (VkAttachmentLoadOp.CLEAR, VkAttachmentLoadOp.LOAD) ∧
    RendererStage.Init Example.collaborators Example.context Example.depthStencilObject
      Example.start = .ok Example.depthStencilInit ∧
    Example.depthStencilObject.Info.Attachments[0]? = some Example.freshDepthStencil ∧
    Example.freshDepthStencil.Kind = AttachmentType.DepthStencil ∧
    Example.freshDepthStencil.Barrier.OldLayout = ImageLayout.Undefined ∧
    (createdDescription Example.depthStencilInit.2.Log 0).map
        (fun d => (d.loadOp, d.stencilLoadOp))
      = some (VkAttachmentLoadOp.DONT_CARE, VkAttachmentLoadOp.CLEAR) :=
  ⟨rfl, rfl, rfl, rfl, rfl, rfl, rfl, rfl, rfl⟩

/-- C15. The attachment descriptions that `RendererStage::Init` derives for a
rasterizing stage are one per declared attachment, in declaration order: the
description at index `i` has `initialLayout` equal to
`Attachments[i].Barrier.OldLayout` and `finalLayout` equal to
`Attachments[i].Barrier.NewLayout`. -/
theorem C15_initial_and_final_layout (ext : Collaborators) (ctx : Context)
    (stage : RendererStage) (w : World) (r : RendererStage × World)
    (ht : stage.Info.StageType = RendererStageType.ForwardGraphics
      ∨ stage.Info.StageType = RendererStageType.DeferredGraphics
      ∨ stage.Info.StageType = RendererStageType.ImGui
      ∨ stage.Info.StageType = RendererStageType.Blit)
    (h : RendererStage.Init ext ctx stage w = .ok r) :
    ∃ info rest,
      r.2.Log = w.Log ++ Event.CreateRenderPass2 info :: rest ∧
      info.attachments.length = stage.Info.Attachments.length ∧
      ∀ (i : Nat) (a : Attachment), stage.Info.Attachments[i]? = some a →
        ∃ d : VkAttachmentDescription2, info.attachments[i]? = some d ∧
          d.initialLayout = a.Barrier.OldLayout.code ∧
          d.finalLayout = a.Barrier.NewLayout.code := by
  obtain ⟨info, rest, hlog, hlen, hd⟩ := Init_descriptions ((rasterizes_iff _).mpr ht) h
  refine ⟨info, rest, hlog, hlen, ?_⟩
  intro i a hi
  obtain ⟨f, s, hget⟩ := hd i a hi
  exact ⟨_, hget, describeAttachment_layouts a f s⟩

/-- C15 at the graphics stage of the example. -/
theorem C15_initial_and_final_layout_witness :
    ((Example.graphicsObject.Info.StageType = RendererStageType.ForwardGraphics
        ∨ Example.graphicsObject.Info.StageType = RendererStageType.DeferredGraphics
        ∨ Example.graphicsObject.Info.StageType = RendererStageType.ImGui
        ∨ Example.graphicsObject.Info.StageType = RendererStageType.Blit) ∧
      RendererStage.Init Example.collaborators Example.context Example.graphicsObject
        Example.start = .ok Example.graphicsInit) ∧
    ∃ info rest,
      Example.graphicsInit.2.Log = Example.start.Log ++ Event.CreateRenderPass2 info :: rest ∧
      info.attachments.length = Example.graphicsObject.Info.Attachments.length ∧
      ∀ (i : Nat) (a : Attachment), Example.graphicsObject.Info.Attachments[i]? = some a →
        ∃ d : VkAttachmentDescription2, info.attachments[i]? = some d ∧
          d.initialLayout = a.Barrier.OldLayout.code ∧
          d.finalLayout = a.Barrier.NewLayout.code :=
  ⟨⟨Or.inl rfl, rfl⟩,
    C15_initial_and_final_layout Example.collaborators Example.context
      Example.graphicsObject Example.start Example.graphicsInit (Or.inl rfl) rfl⟩

/-! ## Subpass, dependencies and clear values -/

theorem buildSubpass_references (refs : AttachmentRefs) :
    (buildSubpass refs).colorAttachments = refs.Color ∧
    (buildSubpass refs).depthStencilAttachment = refs.Depth.head? := by
  unfold buildSubpass AttachmentRefs.contains AttachmentRefs.get
  cases hc : refs.Color <;> cases hd : refs.Depth <;> simp

theorem colorReferencesFrom_indices (i : Nat) (atts : List Attachment) :
    (colorReferencesFrom i atts).map (fun ref => ref.attachment)
      = ((atts.enumFrom i).filter (fun p => p.2.isColor)).map Prod.fst := by
  simp [colorReferencesFrom, colorReference, Function.comp_def]

theorem colorReferencesFrom_increasing (i : Nat) (atts : List Attachment) :
    ((colorReferencesFrom i atts).map (fun ref => ref.attachment)).Pairwise (· < ·) := by
  rw [colorReferencesFrom_indices]
  have hsub : List.Sublist (((atts.enumFrom i).filter (fun p => p.2.isColor)).map Prod.fst)
      ((atts.enumFrom i).map Prod.fst) := List.Sublist.map _ (List.filter_sublist _)
  rw [List.enumFrom_map_fst] at hsub
  exact List.Pairwise.sublist hsub (List.pairwise_lt_range' i atts.length)

theorem colorReferencesFrom_mem (atts : List Attachment) (i : Nat) :
    (∃ ref ∈ colorReferencesFrom 0 atts, ref.attachment = i) ↔
      ∃ a, atts[i]? = some a ∧ a.isColor = true := by
  constructor
  · rintro ⟨ref, href, hidx⟩
    simp only [colorReferencesFrom, List.mem_map, List.mem_filter] at href
    obtain ⟨⟨j, a⟩, ⟨hmem, hcol⟩, hrefeq⟩ := href
    have hj := List.mk_mem_enumFrom_iff_le_and_getElem?_sub.mp hmem
    subst hrefeq
    simp only [colorReference] at hidx
    subst hidx
    exact ⟨a, by simpa using hj.2, hcol⟩
  · rintro ⟨a, ha, hcol⟩
    refine ⟨colorReference i, ?_, rfl⟩
    simp only [colorReferencesFrom, List.mem_map, List.mem_filter]
    exact ⟨(i, a), ⟨List.mk_mem_enumFrom_iff_le_and_getElem?_sub.mpr ⟨Nat.zero_le _, by simpa using ha⟩,
      hcol⟩, rfl⟩

theorem colorReferencesFrom_layout (i : Nat) (atts : List Attachment) :
    ∀ ref ∈ colorReferencesFrom i atts,
      ref.layout = ImageLayout.ColorAttachmentOptimal.code := by
  intro ref href
  simp only [colorReferencesFrom, List.mem_map] at href
  obtain ⟨p, -, hp⟩ := href
  rw [← hp]
  rfl

/-- C16. The render pass that `RendererStage::Init` derives for a rasterizing
stage (with at most `2 ^ 32` attachments, the range of the attachment index)
has exactly one subpass. Its colour references are the references to the
attachments of kind `Color` or `Swapchain`: index `i` is referenced exactly
when `Attachments[i]` is of such a kind, the indices are strictly increasing,
and every reference has layout `ColorAttachmentOptimal`. It has at most one
depth/stencil reference, the first of the references to attachments of kind
`Depth`, however many are declared. -/
theorem C16_single_subpass_references (ext : Collaborators) (ctx : Context)
    (stage : RendererStage) (w : World) (r : RendererStage × World)
    (ht : stage.Info.StageType = RendererStageType.ForwardGraphics
      ∨ stage.Info.StageType = RendererStageType.DeferredGraphics
      ∨ stage.Info.StageType = RendererStageType.ImGui
      ∨ stage.Info.StageType = RendererStageType.Blit)
    (hn : stage.Info.Attachments.length ≤ 2 ^ 32)
    (h : RendererStage.Init ext ctx stage w = .ok r) :
    ∃ info rest subpass,
      r.2.Log = w.Log ++ Event.CreateRenderPass2 info :: rest ∧
      info.subpasses = [subpass] ∧
      subpass.colorAttachments = colorReferencesFrom 0 stage.Info.Attachments ∧
      (∀ i : Nat, (∃ ref ∈ subpass.colorAttachments, ref.attachment = i) ↔
        ∃ a, stage.Info.Attachments[i]? = some a ∧
          (a.Kind = AttachmentType.Color ∨ a.Kind = AttachmentType.Swapchain)) ∧
      (subpass.colorAttachments.map (fun ref => ref.attachment)).Pairwise (· < ·) ∧
      (∀ ref ∈ subpass.colorAttachments,
        ref.layout = ImageLayout.ColorAttachmentOptimal.code) ∧
      subpass.depthStencilAttachment = (depthReferencesFrom 0 stage.Info.Attachments).head? ∧
      subpass.depthStencilAttachment.toList.length ≤ 1 := by
  obtain ⟨b, rest, hb, hlog, -⟩ := Init_renderPass ((rasterizes_iff _).mpr ht) h
  obtain ⟨hc, hd⟩ := initLoop_refs ext ctx w.Images stage.Info.Attachments 0 _ b
    (by omega) hb
  obtain ⟨hsc, hsd⟩ := buildSubpass_references b.attachmentRefs
  have hcol : (buildSubpass b.attachmentRefs).colorAttachments
      = colorReferencesFrom 0 stage.Info.Attachments := by
    rw [hsc, hc]
    simp [passBuildStart]
  have hdep : (buildSubpass b.attachmentRefs).depthStencilAttachment
      = (depthReferencesFrom 0 stage.Info.Attachments).head? := by
    rw [hsd, hd]
    simp [passBuildStart]
  refine ⟨renderPassInfo b, rest, buildSubpass b.attachmentRefs, hlog, rfl, hcol, ?_, ?_, ?_,
    hdep, ?_⟩
  · intro i
    rw [hcol, colorReferencesFrom_mem]
    simp [Attachment.isColor]
  · rw [hcol]
    exact colorReferencesFrom_increasing 0 _
  · rw [hcol]
    exact colorReferencesFrom_layout 0 _
  · cases (buildSubpass b.attachmentRefs).depthStencilAttachment <;> simp

/-- C16 at the graphics stage of the example (one colour and one depth
attachment). -/
theorem C16_single_subpass_references_witness :
    ((Example.graphicsObject.Info.StageType = RendererStageType.ForwardGraphics
        ∨ Example.graphicsObject.Info.StageType = RendererStageType.DeferredGraphics
        ∨ Example.graphicsObject.Info.StageType = RendererStageType.ImGui
        ∨ Example.graphicsObject.Info.StageType = RendererStageType.Blit) ∧
      Example.graphicsObject.Info.Attachments.length ≤ 2 ^ 32 ∧
      RendererStage.Init Example.collaborators Example.context Example.graphicsObject
        Example.start = .ok Example.graphicsInit) ∧
    ∃ info rest subpass,
      Example.graphicsInit.2.Log = Example.start.Log ++ Event.CreateRenderPass2 info :: rest ∧
      info.subpasses = [subpass] ∧
      subpass.colorAttachments = colorReferencesFrom 0 Example.graphicsObject.Info.Attachments ∧
      (∀ i : Nat, (∃ ref ∈ subpass.colorAttachments, ref.attachment = i) ↔
        ∃ a, Example.graphicsObject.Info.Attachments[i]? = some a ∧
          (a.Kind = AttachmentType.Color ∨ a.Kind = AttachmentType.Swapchain)) ∧
      (subpass.colorAttachments.map (fun ref => ref.attachment)).Pairwise (· < ·) ∧
      (∀ ref ∈ subpass.colorAttachments,
        ref.layout = ImageLayout.ColorAttachmentOptimal.code) ∧
      subpass.depthStencilAttachment
        = (depthReferencesFrom 0 Example.graphicsObject.Info.Attachments).head? ∧
      subpass.depthStencilAttachment.toList.length ≤ 1 :=
  ⟨⟨Or.inl rfl, by decide, rfl⟩,
    C16_single_subpass_references Example.collaborators Example.context
      Example.graphicsObject Example.start Example.graphicsInit (Or.inl rfl) (by decide) rfl⟩

/-- C17. The render pass that `RendererStage::Init` derives for a rasterizing
stage has exactly one subpass dependency per declared attachment, in
declaration order: the dependency at index `i` has the external scope as source
subpass, subpass 0 as destination, and as stage and access masks the
conversions of the `SrcStage`, `DstStage`, `SrcAccessMask` and `DstAccessMask`
of `Attachments[i].Barrier`. -/
theorem C17_one_dependency_per_attachment (ext : Collaborators) (ctx : Context)
    (stage : RendererStage) (w : World) (r : RendererStage × World)
    (ht : stage.Info.StageType = RendererStageType.ForwardGraphics
      ∨ stage.Info.StageType = RendererStageType.DeferredGraphics
      ∨ stage.Info.StageType = RendererStageType.ImGui
      ∨ stage.Info.StageType = RendererStageType.Blit)
    (h : RendererStage.Init ext ctx stage w = .ok r) :
    ∃ info rest,
      r.2.Log = w.Log ++ Event.CreateRenderPass2 info :: rest ∧
      info.dependencies = stage.Info.Attachments.map (dependencyOf ext) ∧
      info.dependencies.length = stage.Info.Attachments.length ∧
      ∀ (i : Nat) (a : Attachment), stage.Info.Attachments[i]? = some a →
        ∃ d : VkSubpassDependency2, info.dependencies[i]? = some d ∧
          d.srcSubpass = VK_SUBPASS_EXTERNAL ∧ d.dstSubpass = 0 ∧
          d.srcStageMask = ext.ToStageFlags1 a.Barrier.SrcStage ∧
          d.dstStageMask = ext.ToStageFlags1 a.Barrier.DstStage ∧
          d.srcAccessMask = ext.ToAccessFlags1 a.Barrier.SrcAccessMask ∧
          d.dstAccessMask = ext.ToAccessFlags1 a.Barrier.DstAccessMask := by
  obtain ⟨b, rest, hb, hlog, -⟩ := Init_renderPass ((rasterizes_iff _).mpr ht) h
  have hdeps := initLoop_dependencies ext ctx w.Images stage.Info.Attachments 0 _ b hb
  have hd : (renderPassInfo b).dependencies = stage.Info.Attachments.map (dependencyOf ext) := by
    rw [renderPassInfo, hdeps]
    simp [passBuildStart]
  refine ⟨renderPassInfo b, rest, hlog, hd, by rw [hd, List.length_map], ?_⟩
  intro i a hi
  refine ⟨dependencyOf ext a, ?_, rfl, rfl, rfl, rfl, rfl, rfl⟩
  rw [hd, List.getElem?_map, hi]
  rfl

/-- C17 at the graphics stage of the example. -/
theorem C17_one_dependency_per_attachment_witness :
    ((Example.graphicsObject.Info.StageType = RendererStageType.ForwardGraphics
        ∨ Example.graphicsObject.Info.StageType = RendererStageType.DeferredGraphics
        ∨ Example.graphicsObject.Info.StageType = RendererStageType.ImGui
        ∨ Example.graphicsObject.Info.StageType = RendererStageType.Blit) ∧
      RendererStage.Init Example.collaborators Example.context Example.graphicsObject
        Example.start = .ok Example.graphicsInit) ∧
    ∃ info rest,
      Example.graphicsInit.2.Log = Example.start.Log ++ Event.CreateRenderPass2 info :: rest ∧
      info.dependencies
        = Example.graphicsObject.Info.Attachments.map (dependencyOf Example.collaborators) ∧
      info.dependencies.length = Example.graphicsObject.Info.Attachments.length ∧
      ∀ (i : Nat) (a : Attachment), Example.graphicsObject.Info.Attachments[i]? = some a →
        ∃ d : VkSubpassDependency2, info.dependencies[i]? = some d ∧
          d.srcSubpass = VK_SUBPASS_EXTERNAL ∧ d.dstSubpass = 0 ∧
          d.srcStageMask = Example.collaborators.ToStageFlags1 a.Barrier.SrcStage ∧
          d.dstStageMask = Example.collaborators.ToStageFlags1 a.Barrier.DstStage ∧
          d.srcAccessMask = Example.collaborators.ToAccessFlags1 a.Barrier.SrcAccessMask ∧
          d.dstAccessMask = Example.collaborators.ToAccessFlags1 a.Barrier.DstAccessMask :=
  ⟨⟨Or.inl rfl, rfl⟩,
    C17_one_dependency_per_attachment Example.collaborators Example.context
      Example.graphicsObject Example.start Example.graphicsInit (Or.inl rfl) rfl⟩

theorem resize_getElem? {α : Type} (l : List α) (n : Nat) (d : α) (i : Nat) (hi : i < n) :
    (resize l n d)[i]? = some (l[i]?.getD d) := by
  unfold resize
  by_cases hl : i < l.length
  · rw [List.getElem?_append_left (by rw [List.length_take]; omega), List.getElem?_take,
      if_pos hi]
    rw [List.getElem?_eq_getElem hl]
    rfl
  · rw [List.getElem?_append_right (by rw [List.length_take]; omega), List.getElem?_replicate,
      List.getElem?_eq_none (by omega)]
    rw [if_pos (by rw [List.length_take]; omega)]
    rfl

/-- C18 (amended). After `RendererStage::Init` of a rasterizing stage the cached
clear-value list has exactly one entry per attachment index. For an attachment
whose `Clear` flag is set the entry is the colour (0, 0, 0, 1) when it is of
kind `Color` or `Swapchain` and a depth/stencil value with depth 1.0 when it is
of kind `Depth` or `DepthStencil`; for an attachment whose `Clear` flag is not
set the entry is left as it was, which is the value-initialised entry for a
stage that had no clear values before. -/
theorem C18_cached_clear_values (ext : Collaborators) (ctx : Context)
    (stage : RendererStage) (w : World) (r : RendererStage × World)
    (ht : stage.Info.StageType = RendererStageType.ForwardGraphics
      ∨ stage.Info.StageType = RendererStageType.DeferredGraphics
      ∨ stage.Info.StageType = RendererStageType.ImGui
      ∨ stage.Info.StageType = RendererStageType.Blit)
    (h : RendererStage.Init ext ctx stage w = .ok r) :
    r.1.ClearValues.length = stage.Info.Attachments.length ∧
    ∀ (i : Nat) (a : Attachment), stage.Info.Attachments[i]? = some a →
      ∃ v : VkClearValue, r.1.ClearValues[i]? = some v ∧
        (a.Clear = true →
          (a.Kind = AttachmentType.Color ∨ a.Kind = AttachmentType.Swapchain) →
          v = VkClearValue.color 0 0 0 1) ∧
        (a.Clear = true →
          (a.Kind = AttachmentType.Depth ∨ a.Kind = AttachmentType.DepthStencil) →
          ∃ s, v = VkClearValue.depthStencil 1 s) ∧
        (a.Clear = false → v = stage.ClearValues[i]?.getD VkClearValue.zero) ∧
        (a.Clear = false → stage.ClearValues = [] → v = VkClearValue.zero) := by
  obtain ⟨b, rest, hb, -, hcv⟩ := Init_renderPass ((rasterizes_iff _).mpr ht) h
  obtain ⟨hlen, -, hvis⟩ :=
    initLoop_clearValues ext ctx w.Images stage.Info.Attachments 0 _ b hb
  have hstart : (passBuildStart stage.Info stage.ClearValues).ClearValues
      = resize stage.ClearValues stage.Info.Attachments.length VkClearValue.zero := rfl
  refine ⟨by rw [hcv, hlen, hstart, resize_length], ?_⟩
  intro i a hi
  have hlt : i < stage.Info.Attachments.length := by
    rcases List.getElem?_eq_some_iff.mp hi with ⟨hlt, -⟩
    exact hlt
  have hv := hvis i a hi
  rw [Nat.zero_add, hstart, resize_getElem? _ _ _ _ hlt, Option.map_some', ← hcv] at hv
  refine ⟨_, hv, ?_, ?_, ?_, ?_⟩
  · intro hc hk
    have hcol : a.isColor = true := by
      rcases hk with hk | hk <;> simp [Attachment.isColor, hk]
    simp [cachedClearValue, hc, hcol]
  · intro hc hk
    have hcol : a.isColor = false := by
      rcases hk with hk | hk <;> simp [Attachment.isColor, hk]
    simp only [cachedClearValue, hc, hcol, if_true]
    cases (stage.ClearValues[i]?.getD VkClearValue.zero) <;> exact ⟨_, rfl⟩
  · intro hc
    simp [cachedClearValue, hc]
  · intro hc hnil
    simp [cachedClearValue, hc, hnil]

/-- C18 (amended) at the graphics stage of the example. -/
theorem C18_cached_clear_values_witness :
    ((Example.graphicsObject.Info.StageType = RendererStageType.ForwardGraphics
        ∨ Example.graphicsObject.Info.StageType = RendererStageType.DeferredGraphics
        ∨ Example.graphicsObject.Info.StageType = RendererStageType.ImGui
        ∨ Example.graphicsObject.Info.StageType = RendererStageType.Blit) ∧
      RendererStage.Init Example.collaborators Example.context Example.graphicsObject
        Example.start = .ok Example.graphicsInit) ∧
    Example.graphicsInit.1.ClearValues.length
      = Example.graphicsObject.Info.Attachments.length ∧
    ∀ (i : Nat) (a : Attachment), Example.graphicsObject.Info.Attachments[i]? = some a →
      ∃ v : VkClearValue, Example.graphicsInit.1.ClearValues[i]? = some v ∧
        (a.Clear = true →
          (a.Kind = AttachmentType.Color ∨ a.Kind = AttachmentType.Swapchain) →
          v = VkClearValue.color 0 0 0 1) ∧
        (a.Clear = true →
          (a.Kind = AttachmentType.Depth ∨ a.Kind = AttachmentType.DepthStencil) →
          ∃ s, v = VkClearValue.depthStencil 1 s) ∧
        (a.Clear = false →
          v = Example.graphicsObject.ClearValues[i]?.getD VkClearValue.zero) ∧
        (a.Clear = false → Example.graphicsObject.ClearValues = [] →
          v = VkClearValue.zero) :=
  ⟨⟨Or.inl rfl, rfl⟩,
    C18_cached_clear_values Example.collaborators Example.context
      Example.graphicsObject Example.start Example.graphicsInit (Or.inl rfl) rfl⟩

/-- C18 as stated fails. The overlay stage attaches the colour image without
the `Clear` flag; after `Init` of that stage (a rasterizing stage, newly built)
the clear value cached for the attachment is the value-initialised one, not the
colour (0, 0, 0, 1). -/
theorem C18_counterexample_not_cleared :
    rasterizes Example.overlayObject.Info.StageType = true ∧
    RendererStage.Init Example.collaborators Example.context Example.overlayObject
      Example.start = .ok Example.overlayInit ∧
    Example.overlayObject.Info.Attachments.map (fun a => (a.Kind, a.Clear))
      = [(AttachmentType.Color, false)] ∧
    Example.overlayInit.1.ClearValues = [VkClearValue.zero] ∧
    Example.overlayInit.1.ClearValues[0]? ≠ some (VkClearValue.color 0 0 0 1) :=
  ⟨rfl, rfl, rfl, rfl, by decide⟩

/-! ## The first loop of `Execute` -/

theorem preBarrier_log (ext : Collaborators) (cb : Handle) (w : World) (a : Attachment) :
    (preBarrier ext cb w a).Log = w.Log ++ requiredBarrier cb w.Images a := by
  unfold preBarrier requiredBarrier
  cases a.Image with
  | none => simp
  | some image =>
    simp only
    split
    · rfl
    · simp

theorem requiredBarrier_congr (cb : Handle) (images images1 : ImageId → Image) (a : Attachment)
    (h : ∀ id, a.Image = some id → images id = images1 id) :
    requiredBarrier cb images a = requiredBarrier cb images1 a := by
  unfold requiredBarrier
  cases hi : a.Image with
  | none => rfl
  | some image => simp only [h image hi]

theorem preBarrier_fold_distinct (ext : Collaborators) (cb : Handle) :
    ∀ (atts : List Attachment) (w : World) (images : ImageId → Image),
      (atts.filterMap (fun a => a.Image)).Nodup →
      (∀ a ∈ atts, ∀ id, a.Image = some id → w.Images id = images id) →
      (atts.foldl (preBarrier ext cb) w).Log = w.Log ++ atts.flatMap (requiredBarrier cb images) := by
  intro atts
  induction atts with
  | nil => intro w images _ _; simp
  | cons a atts ih =>
    intro w images hnd hsame
    rw [List.foldl_cons, List.flatMap_cons]
    have hnd2 : (atts.filterMap (fun a => a.Image)).Nodup := by
      rw [List.filterMap_cons] at hnd
      cases hi : a.Image with
      | none => rw [hi] at hnd; exact hnd
      | some image => rw [hi] at hnd; exact (List.nodup_cons.mp hnd).2
    have hrest : ∀ a1 ∈ atts, ∀ id, a1.Image = some id →
        (preBarrier ext cb w a).Images id = images id := by
      intro a1 ha1 id hid
      obtain ⟨-, -, -, -, hother⟩ := preBarrier_spec ext cb w a
      rw [hother id ?_, hsame a1 (List.mem_cons_of_mem _ ha1) id hid]
      intro hai
      rw [List.filterMap_cons, hai] at hnd
      have hnot := (List.nodup_cons.mp hnd).1
      exact hnot (List.mem_filterMap.mpr ⟨a1, ha1, hid⟩)
    rw [ih (preBarrier ext cb w a) images hnd2 hrest, preBarrier_log,
      requiredBarrier_congr cb w.Images images a
        (fun id hid => hsame a (List.mem_cons_self _ _) id hid),
      List.append_assoc]

theorem walked_succ (ext : Collaborators) (cb : Handle) (atts : List Attachment) (w : World)
    (i : Nat) (a : Attachment) (h : atts[i]? = some a) :
    walked ext cb atts w (i + 1) = preBarrier ext cb (walked ext cb atts w i) a := by
  unfold walked
  rw [List.take_succ, h, List.foldl_append]
  rfl

/-! ## Runs that record no barrier -/

theorem AddsNoBarrier.ok (w : World) : AddsNoBarrier w (.ok w) :=
  ⟨[], by simp [outcomeLog], fun _ h => by cases h⟩

theorem AddsNoBarrier.error (w : World) (r : Abort) : AddsNoBarrier w (.error ⟨r, w.Log⟩) :=
  ⟨[], by simp [outcomeLog], fun _ h => by cases h⟩

theorem AddsNoBarrier.recorded {w : World} {es : List Event} {o : Except Aborted World}
    (h : AddsNoBarrier (w.record es) o)
    (hes : es.all (fun e => !e.isImageBarrier) = true) : AddsNoBarrier w o := by
  obtain ⟨es2, hlog, hnb⟩ := h
  refine ⟨es ++ es2, by rw [hlog]; simp [World.record], ?_⟩
  intro e he
  rcases List.mem_append.mp he with h1 | h1
  · have := List.all_eq_true.mp hes e h1
    simpa using this
  · exact hnb e h1

theorem AddsNoBarrier.after {w w1 : World} {o : Except Aborted World}
    (h1 : AddsNoBarrier w (.ok w1)) (h2 : AddsNoBarrier w1 o) : AddsNoBarrier w o := by
  obtain ⟨es1, hlog1, hnb1⟩ := h1
  obtain ⟨es2, hlog2, hnb2⟩ := h2
  simp only [outcomeLog] at hlog1
  refine ⟨es1 ++ es2, by rw [hlog2, hlog1, List.append_assoc], ?_⟩
  intro e he
  rcases List.mem_append.mp he with h | h
  · exact hnb1 e h
  · exact hnb2 e h

theorem AddsNoBarrier.of_eq {w : World} {o1 o : Except Aborted World}
    (he : o1 = o) (h1 : AddsNoBarrier w o1) : AddsNoBarrier w o := he ▸ h1

theorem AddsNoBarrier.after_eq {w w1 : World} {o1 o : Except Aborted World}
    (he : o1 = .ok w1) (h1 : AddsNoBarrier w o1) (h2 : AddsNoBarrier w1 o) :
    AddsNoBarrier w o := AddsNoBarrier.after (he ▸ h1) h2

theorem foldExcept_addsNoBarrier {α : Type} (f : World → α → Except Aborted World)
    (hf : ∀ s a, AddsNoBarrier s (f s a)) :
    ∀ (l : List α) (s : World), AddsNoBarrier s (foldExcept f s l) := by
  intro l
  induction l with
  | nil => intro s; exact AddsNoBarrier.ok s
  | cons a l ih =>
    intro s
    simp only [foldExcept]
    have h1 := hf s a
    split
    · rename_i e he
      rw [he] at h1
      exact h1
    · rename_i s1 hs1
      rw [hs1] at h1
      exact AddsNoBarrier.after h1 (ih s1)

theorem pushConstants_addsNoBarrier (cb shader : Handle) (m : Mesh) (w : World)
    (r : Resource) : AddsNoBarrier w (pushConstants cb shader m w r) := by
  unfold pushConstants
  split
  · split
    · apply AddsNoBarrier.recorded
      · exact AddsNoBarrier.ok _
      · rfl
    · exact AddsNoBarrier.error _ _
  · exact AddsNoBarrier.ok _

theorem drawMesh_addsNoBarrier (cb shader : Handle) (rs : List Resource) (w : World)
    (m : Mesh) : AddsNoBarrier w (drawMesh cb shader rs w m) := by
  unfold drawMesh
  split
  · rename_i e he
    exact AddsNoBarrier.of_eq he
      (foldExcept_addsNoBarrier _ (pushConstants_addsNoBarrier cb shader m) rs w)
  · rename_i w1 hw1
    refine AddsNoBarrier.after_eq hw1
      (foldExcept_addsNoBarrier _ (pushConstants_addsNoBarrier cb shader m) rs w) ?_
    apply AddsNoBarrier.recorded
    · exact AddsNoBarrier.ok _
    · rfl

theorem BindResources_addsNoBarrier (stage : RendererStage) (cb : Handle) (slot : Nat)
    (w : World) : AddsNoBarrier w (RendererStage.BindResources stage cb slot w) := by
  unfold RendererStage.BindResources
  simp only
  split
  · apply AddsNoBarrier.recorded
    · exact AddsNoBarrier.error _ _
    · rfl
  · apply AddsNoBarrier.recorded
    · apply AddsNoBarrier.recorded
      · exact AddsNoBarrier.ok _
      · rfl
    · rfl

theorem AddsNoBarrier.record2 {w : World} {es es2 : List Event} {o : Except Aborted World}
    (h : AddsNoBarrier ((w.record es).record es2) o)
    (hes : es.all (fun e => !e.isImageBarrier) = true)
    (hes2 : es2.all (fun e => !e.isImageBarrier) = true) : AddsNoBarrier w o :=
  AddsNoBarrier.recorded (AddsNoBarrier.recorded h hes2) hes

theorem ForwardGraphics_addsNoBarrier (stage : RendererStage) (cb : Handle) (w : World) :
    AddsNoBarrier w (RendererStage.ForwardGraphics stage cb w) := by
  unfold RendererStage.ForwardGraphics
  split
  · exact AddsNoBarrier.error _ _
  · simp only
    split
    · apply AddsNoBarrier.recorded
      · exact AddsNoBarrier.error _ _
      · rfl
    · rename_i shader hs
      have hfold := fun w3 => foldExcept_addsNoBarrier _
        (drawMesh_addsNoBarrier cb shader stage.Info.Resources) stage.Info.Meshes w3
      split
      · rename_i e he
        apply AddsNoBarrier.record2
        · exact AddsNoBarrier.of_eq he (BindResources_addsNoBarrier _ _ _ _)
        · rfl
        · rfl
      · rename_i w3 hw3
        apply AddsNoBarrier.record2
        · refine AddsNoBarrier.after_eq hw3 (BindResources_addsNoBarrier _ _ _ _) ?_
          split
          · rename_i e he
            exact AddsNoBarrier.of_eq he (hfold w3)
          · rename_i w4 hw4
            refine AddsNoBarrier.after_eq hw4 (hfold w3) ?_
            apply AddsNoBarrier.recorded
            · exact AddsNoBarrier.ok _
            · rfl
        · rfl
        · rfl

theorem ForwardCompute_addsNoBarrier (stage : RendererStage) (cb : Handle) (w : World) :
    AddsNoBarrier w (RendererStage.ForwardCompute stage cb w) := by
  unfold RendererStage.ForwardCompute
  split
  · exact AddsNoBarrier.error _ _
  · rename_i shader hs
    simp only
    split
    · apply AddsNoBarrier.recorded
      · exact AddsNoBarrier.error _ _
      · rfl
    · split
      · rename_i e he
        apply AddsNoBarrier.recorded
        · exact AddsNoBarrier.of_eq he (BindResources_addsNoBarrier _ _ _ _)
        · rfl
      · rename_i w2 hw2
        apply AddsNoBarrier.recorded
        · refine AddsNoBarrier.after_eq hw2 (BindResources_addsNoBarrier _ _ _ _) ?_
          apply AddsNoBarrier.recorded
          · exact AddsNoBarrier.ok _
          · rfl
        · rfl

theorem ImGui_addsNoBarrier (stage : RendererStage) (cb : Handle) (w : World) :
    AddsNoBarrier w (RendererStage.ImGui stage cb w) := by
  unfold RendererStage.ImGui
  simp only
  split
  · apply AddsNoBarrier.recorded
    · exact AddsNoBarrier.error _ _
    · rfl
  · apply AddsNoBarrier.record2
    · exact AddsNoBarrier.ok _
    · rfl
    · rfl

theorem BlitStage_addsNoBarrier (stage : RendererStage) (cb : Handle) (w : World) :
    AddsNoBarrier w (RendererStage.BlitStage stage cb w) := by
  unfold RendererStage.BlitStage
  split
  · exact AddsNoBarrier.error _ _
  · simp only
    split
    · apply AddsNoBarrier.recorded
      · exact AddsNoBarrier.error _ _
      · rfl
    · rename_i shader hs
      split
      · rename_i e he
        apply AddsNoBarrier.record2
        · exact AddsNoBarrier.of_eq he (BindResources_addsNoBarrier _ _ _ _)
        · rfl
        · rfl
      · rename_i w3 hw3
        apply AddsNoBarrier.record2
        · refine AddsNoBarrier.after_eq hw3 (BindResources_addsNoBarrier _ _ _ _) ?_
          apply AddsNoBarrier.recorded
          · exact AddsNoBarrier.ok _
          · rfl
        · rfl
        · rfl

theorem dispatch_addsNoBarrier (stage : RendererStage) (cb : Handle) (w : World) :
    AddsNoBarrier w (RendererStage.dispatch stage cb w) := by
  unfold RendererStage.dispatch
  split
  · exact BlitStage_addsNoBarrier _ _ _
  · exact ForwardCompute_addsNoBarrier _ _ _
  · exact ForwardCompute_addsNoBarrier _ _ _
  · exact ImGui_addsNoBarrier _ _ _
  · exact ForwardGraphics_addsNoBarrier _ _ _
  · exact ForwardGraphics_addsNoBarrier _ _ _

theorem Execute_addsNoBarrier (ext : Collaborators) (stage : RendererStage) (cb : Handle)
    (w : World) :
    AddsNoBarrier (stage.Info.Attachments.foldl (preBarrier ext cb) w)
      (RendererStage.Execute ext stage cb w) := by
  unfold RendererStage.Execute
  simp only
  split
  · rename_i e he
    exact AddsNoBarrier.of_eq he (dispatch_addsNoBarrier _ _ _)
  · rename_i w2 hw2
    refine AddsNoBarrier.after_eq hw2 (dispatch_addsNoBarrier _ _ _) ?_
    refine ⟨[], ?_, fun _ h => by cases h⟩
    simp only [outcomeLog, List.append_nil]
    exact (postUpdate_fold_log _ _).1

/-! ## The two loops of `Execute` around the dispatch -/

theorem postUpdate_fold_last (pre post : List Attachment) (a : Attachment) (id : ImageId)
    (w : World) (hi : a.Image = some id)
    (hpost : ∀ a2 ∈ post, a2.Image = some id → a2.Barrier.NewLayout = a.Barrier.NewLayout) :
    (((pre ++ a :: post).foldl postUpdate w).Images id).ImageLayout = a.Barrier.NewLayout := by
  rw [List.foldl_append]
  obtain ⟨a1, ha1, hi1, hl⟩ := postUpdate_fold_tracked (a :: post) (pre.foldl postUpdate w) id
    ⟨a, List.mem_cons_self _ _, hi⟩
  rw [hl]
  rcases List.mem_cons.mp ha1 with rfl | hp
  · rfl
  · exact hpost a1 hp hi1

theorem nodup_images_later (pre post : List Attachment) (a : Attachment) (id : ImageId)
    (hnd : ((pre ++ a :: post).filterMap (fun a => a.Image)).Nodup) (hi : a.Image = some id) :
    ∀ a2 ∈ post, a2.Image ≠ some id := by
  intro a2 h2 hi2
  rw [List.filterMap_append, List.filterMap_cons, hi] at hnd
  have h3 := (List.nodup_append.mp hnd).2.1
  exact (List.nodup_cons.mp h3).1 (List.mem_filterMap.mpr ⟨a2, h2, hi2⟩)

/-- C11: before dispatching, `Execute` walks the attachments in declared order.
When the walk reaches the attachment at index `i`, it records exactly the
barrier the specification asks for (one transition from the layout then
tracked for the attachment's image to the old layout, when the two differ and
the old layout is not `Undefined`; nothing otherwise). Whatever `Execute`
records after the walk is no barrier. When the attachments are backed by
pairwise distinct images, the tracked layouts are those on entry: the walk
adds to the log the required barriers of the attachments in declared order. -/
theorem C11_barriers_before_dispatch (ext : Collaborators) (stage : RendererStage)
    (cb : Handle) (w : World) :
    walked ext cb stage.Info.Attachments w 0 = w ∧
    (∀ (i : Nat) (a : Attachment), stage.Info.Attachments[i]? = some a →
      (walked ext cb stage.Info.Attachments w (i + 1)).Log =
        (walked ext cb stage.Info.Attachments w i).Log ++
          requiredBarrier cb (walked ext cb stage.Info.Attachments w i).Images a) ∧
    (∃ es, outcomeLog (RendererStage.Execute ext stage cb w) =
        (walked ext cb stage.Info.Attachments w stage.Info.Attachments.length).Log ++ es ∧
      ∀ e ∈ es, e.isImageBarrier = false) ∧
    ((stage.Info.Attachments.filterMap (fun a => a.Image)).Nodup →
      (walked ext cb stage.Info.Attachments w stage.Info.Attachments.length).Log =
        w.Log ++ stage.Info.Attachments.flatMap (requiredBarrier cb w.Images)) := by
  have hall : walked ext cb stage.Info.Attachments w stage.Info.Attachments.length =
      stage.Info.Attachments.foldl (preBarrier ext cb) w := by
    unfold walked
    rw [List.take_length]
  refine ⟨rfl, ?_, ?_, ?_⟩
  · intro i a ha
    rw [walked_succ ext cb _ w i a ha, preBarrier_log]
  · rw [hall]
    exact Execute_addsNoBarrier ext stage cb w
  · intro hnd
    rw [hall]
    exact preBarrier_fold_distinct ext cb _ w w.Images hnd (fun _ _ _ _ => rfl)

/-- Witness of C11: in the state after the first frame of the example the
graphics stage, whose two attachments have distinct images, records one
barrier, for the colour image left in `ShaderReadOnlyOptimal`, and none for the
depth image, which is tracked in its old layout. -/
theorem C11_barriers_before_dispatch_witness :
    (Example.graphicsObject.Info.Attachments.filterMap (fun a => a.Image)).Nodup ∧
    (walked Example.collaborators 20 Example.graphicsObject.Info.Attachments
        Example.firstFrame Example.graphicsObject.Info.Attachments.length).Log =
      Example.firstFrame.Log ++
        Example.graphicsObject.Info.Attachments.flatMap
          (requiredBarrier 20 Example.firstFrame.Images) ∧
    Example.graphicsObject.Info.Attachments.flatMap
        (requiredBarrier 20 Example.firstFrame.Images) =
      [Event.ImageBarrier 20 Example.colorAttachment ImageLayout.ShaderReadOnlyOptimal
        ImageLayout.ColorAttachmentOptimal] :=
  ⟨by decide,
   (C11_barriers_before_dispatch Example.collaborators Example.graphicsObject 20
      Example.firstFrame).2.2.2 (by decide),
   by decide⟩

/-- C12 (amended): after `Execute` returns, for every stage type, every
attachment with a backing image that is not followed in the stage's list by an
attachment backed by the same image with another new layout has its image
tracked in its own new layout; in particular every attachment with an image,
when the images of the stage's attachments are pairwise distinct. The
post-update records no call: the log and the renderer state are those the
dispatch left. -/
theorem C12_tracked_layout_after_execute (ext : Collaborators) (stage : RendererStage)
    (cb : Handle) (w w1 : World) (h : RendererStage.Execute ext stage cb w = .ok w1) :
    (∀ (pre post : List Attachment) (a : Attachment) (id : ImageId),
      stage.Info.Attachments = pre ++ a :: post → a.Image = some id →
      (∀ a2 ∈ post, a2.Image = some id → a2.Barrier.NewLayout = a.Barrier.NewLayout) →
      (w1.Images id).ImageLayout = a.Barrier.NewLayout) ∧
    ((stage.Info.Attachments.filterMap (fun a => a.Image)).Nodup →
      ∀ a ∈ stage.Info.Attachments, ∀ (id : ImageId), a.Image = some id →
        (w1.Images id).ImageLayout = a.Barrier.NewLayout) ∧
    (∃ w2, RendererStage.dispatch stage cb
        (stage.Info.Attachments.foldl (preBarrier ext cb) w) = .ok w2 ∧
      w1 = stage.Info.Attachments.foldl postUpdate w2 ∧
      w1.Log = w2.Log ∧ w1.Data = w2.Data) := by
  unfold RendererStage.Execute at h
  simp only at h
  split at h
  · cases h
  · rename_i w2 h2
    cases h
    have hlast : ∀ (pre post : List Attachment) (a : Attachment) (id : ImageId),
        stage.Info.Attachments = pre ++ a :: post → a.Image = some id →
        (∀ a2 ∈ post, a2.Image = some id → a2.Barrier.NewLayout = a.Barrier.NewLayout) →
        ((stage.Info.Attachments.foldl postUpdate w2).Images id).ImageLayout =
          a.Barrier.NewLayout := by
      intro pre post a id hs hi hp
      rw [hs]
      exact postUpdate_fold_last pre post a id w2 hi hp
    refine ⟨hlast, ?_, w2, h2, rfl, (postUpdate_fold_log _ _).1, (postUpdate_fold_log _ _).2⟩
    intro hnd a ha id hi
    obtain ⟨pre, post, hs⟩ := List.append_of_mem ha
    refine hlast pre post a id hs hi ?_
    intro a2 h2 hi2
    rw [hs] at hnd
    exact absurd hi2 (nodup_images_later pre post a id hnd hi a2 h2)

/-- Witness of C12: the graphics stage of the example, executed in the state
after `Initialize`, leaves the colour image tracked in the new layout of the
colour attachment. -/
theorem C12_tracked_layout_after_execute_witness :
    RendererStage.Execute Example.collaborators Example.graphicsInit.1 20 Example.initialized =
      .ok Example.graphicsExecuted ∧
    (Example.graphicsExecuted.Images Example.colorAttachment).ImageLayout =
      ImageLayout.ShaderReadOnlyOptimal :=
  ⟨rfl,
   (C12_tracked_layout_after_execute Example.collaborators Example.graphicsInit.1 20
      Example.initialized Example.graphicsExecuted rfl).1
      [] [Example.depthOfGraphics] (Example.graphicsStage.Attachments.get ⟨0, by decide⟩)
      Example.colorAttachment rfl rfl (by decide)⟩

/-- Counterexample to C12 as stated: a compute stage declares the colour image
twice, with new layouts `ColorAttachmentOptimal` and `ShaderReadOnlyOptimal`.
`Execute` returns, and the image is tracked in the new layout of the second
attachment, not in that of the first. -/
theorem C12_counterexample_same_image_twice :
    ∃ w1, RendererStage.Execute Example.collaborators Example.twiceDeclared 20
        Example.initialized = .ok w1 ∧
      Example.writtenColor ∈ Example.twiceDeclared.Info.Attachments ∧
      Example.writtenColor.Image = some Example.colorAttachment ∧
      (w1.Images Example.colorAttachment).ImageLayout ≠
        Example.writtenColor.Barrier.NewLayout :=
  ⟨returned Example.initialized
      (RendererStage.Execute Example.collaborators Example.twiceDeclared 20 Example.initialized),
   rfl, by decide, rfl, by decide⟩

/-! ## The specialization-constant loop of `Init` -/

theorem totalSize_cons (r : Resource) (rs : List Resource) :
    totalSize (r :: rs) = r.ConstantSize + totalSize rs := by
  simp [totalSize]

theorem resize_grow {α : Type} (l : List α) (n : Nat) (d : α) :
    resize l (l.length + n) d = l ++ List.replicate n d := by
  unfold resize
  rw [List.take_of_length_le (Nat.le_add_right _ _), Nat.add_sub_cancel_left]

theorem writeBytes_tail (l bytes : List Nat) (n : Nat) (hn : bytes.length = n) :
    writeBytes (l ++ List.replicate n 0) l.length bytes = l ++ bytes := by
  unfold writeBytes
  rw [List.take_left, List.drop_eq_nil_of_le (by simp [hn]), List.append_nil]

theorem packConstant_constant (p : ConstantPack) (r : Resource)
    (hk : r.Kind = ResourceType.Constant) (hoff : p.offset = p.size)
    (hbuf : p.buffer.length = p.size) (hlt : p.size + r.ConstantSize < 2 ^ 32)
    (hdata : r.ConstantSize ≤ r.ConstantData.length) :
    packConstant p r = .ok
      { entries := p.entries ++
          [{ constantID := r.ConstantID, offset := p.offset, size := r.ConstantSize }],
        offset := p.size + r.ConstantSize,
        size := p.size + r.ConstantSize,
        buffer := p.buffer ++ r.ConstantData.take r.ConstantSize } := by
  have h64 : (p.size + r.ConstantSize) % 2 ^ 64 = p.size + r.ConstantSize :=
    Nat.mod_eq_of_lt (by omega)
  have h32 : (p.offset + r.ConstantSize % 2 ^ 32) % 2 ^ 32 = p.size + r.ConstantSize := by
    rw [hoff, Nat.mod_eq_of_lt (show r.ConstantSize < 2 ^ 32 by omega), Nat.mod_eq_of_lt hlt]
  have hres : resize p.buffer (p.size + r.ConstantSize) 0 =
      p.buffer ++ List.replicate r.ConstantSize 0 := by
    rw [← hbuf]
    exact resize_grow _ _ _
  have htake : (r.ConstantData.take r.ConstantSize).length = r.ConstantSize := by
    rw [List.length_take]
    omega
  unfold packConstant
  rw [if_pos hk]
  simp only [h64, h32, hres]
  rw [if_neg]
  · rw [hoff, ← hbuf, writeBytes_tail _ _ _ htake]
  · simp only [List.length_append, List.length_replicate]
    omega

theorem packConstant_fold :
    ∀ (rs : List Resource) (p : ConstantPack),
      p.offset = p.size → p.buffer.length = p.size →
      p.size + totalSize (rs.filter Resource.isConstant) < 2 ^ 32 →
      (∀ c ∈ rs.filter Resource.isConstant, c.ConstantSize ≤ c.ConstantData.length) →
      foldExcept packConstant p rs = .ok
        { entries := p.entries ++ constantEntries p.offset (rs.filter Resource.isConstant),
          offset := p.size + totalSize (rs.filter Resource.isConstant),
          size := p.size + totalSize (rs.filter Resource.isConstant),
          buffer := p.buffer ++ constantBytes (rs.filter Resource.isConstant) } := by
  intro rs
  induction rs with
  | nil =>
    intro p hoff _ _ _
    cases p
    simp only at hoff
    subst hoff
    simp [foldExcept, constantEntries, constantBytes, totalSize]
  | cons r rs ih =>
    intro p hoff hbuf hlt hdata
    by_cases hk : r.Kind = ResourceType.Constant
    · have hf : (r :: rs).filter Resource.isConstant = r :: rs.filter Resource.isConstant := by
        rw [List.filter_cons_of_pos]
        simp [Resource.isConstant, hk]
      rw [hf] at hlt hdata
      rw [hf]
      rw [totalSize_cons] at hlt
      have hstep := packConstant_constant p r hk hoff hbuf (by omega)
        (hdata r (List.mem_cons_self _ _))
      simp only [foldExcept, hstep]
      rw [ih _ rfl (by simp only [List.length_append, List.length_take]
                       have := hdata r (List.mem_cons_self _ _)
                       omega)
        (by simp only; omega)
        (fun c hc => hdata c (List.mem_cons_of_mem _ hc))]
      simp only [constantEntries, constantBytes, totalSize_cons, List.flatMap_cons,
        List.append_assoc, List.singleton_append, hoff, Nat.add_assoc]
    · have hf : (r :: rs).filter Resource.isConstant = rs.filter Resource.isConstant := by
        rw [List.filter_cons_of_neg]
        simp [Resource.isConstant, hk]
      rw [hf] at hlt hdata
      rw [hf]
      have hstep : packConstant p r = .ok p := by
        unfold packConstant
        rw [if_neg hk]
      simp only [foldExcept, hstep]
      exact ih p hoff hbuf hlt hdata

theorem specializationInfo_eq (rs : List Resource)
    (hlt : totalSize (rs.filter Resource.isConstant) < 2 ^ 32)
    (hdata : ∀ c ∈ rs.filter Resource.isConstant, c.ConstantSize ≤ c.ConstantData.length) :
    specializationInfo rs = .ok
      { mapEntries := constantEntries 0 (rs.filter Resource.isConstant),
        dataSize := totalSize (rs.filter Resource.isConstant),
        data := constantBytes (rs.filter Resource.isConstant) } := by
  unfold specializationInfo
  split
  · rw [packConstant_fold rs {} rfl rfl (by simpa using hlt) hdata]
    simp
  · rename_i hnone
    have hf : rs.filter Resource.isConstant = [] := by
      rw [List.filter_eq_nil_iff]
      intro c hc hcc
      apply hnone
      rw [List.any_eq_true]
      exact ⟨c, hc, by simpa [Resource.isConstant] using hcc⟩
    rw [hf]
    rfl

theorem constantEntries_getElem? :
    ∀ (cs : List Resource) (offset k : Nat) (c : Resource), cs[k]? = some c →
      (constantEntries offset cs)[k]? =
        some { constantID := c.ConstantID, offset := offset + totalSize (cs.take k),
               size := c.ConstantSize } := by
  intro cs
  induction cs with
  | nil => intro _ k c h; simp at h
  | cons c0 cs ih =>
    intro offset k c h
    cases k with
    | zero =>
      simp only [List.getElem?_cons_zero, Option.some.injEq] at h
      subst h
      simp [constantEntries, totalSize]
    | succ k =>
      simp only [List.getElem?_cons_succ] at h
      simp only [constantEntries, List.getElem?_cons_succ, List.take_succ_cons, totalSize_cons]
      rw [ih _ k c h, Nat.add_assoc]

theorem constantEntries_length :
    ∀ (cs : List Resource) (offset : Nat), (constantEntries offset cs).length = cs.length := by
  intro cs
  induction cs with
  | nil => intro _; rfl
  | cons c0 cs ih => intro offset; simp [constantEntries, ih]

theorem constantBytes_length :
    ∀ (cs : List Resource), (∀ c ∈ cs, c.ConstantSize ≤ c.ConstantData.length) →
      (constantBytes cs).length = totalSize cs := by
  intro cs
  induction cs with
  | nil => intro _; rfl
  | cons c0 cs ih =>
    intro h
    have h0 := h c0 (List.mem_cons_self _ _)
    have hrest := ih (fun c hc => h c (List.mem_cons_of_mem _ hc))
    unfold constantBytes at hrest ⊢
    rw [List.flatMap_cons, List.length_append, hrest, totalSize_cons, List.length_take]
    omega

theorem constantBytes_slice :
    ∀ (cs : List Resource) (k : Nat) (c : Resource),
      (∀ c ∈ cs, c.ConstantSize ≤ c.ConstantData.length) → cs[k]? = some c →
      ((constantBytes cs).drop (totalSize (cs.take k))).take c.ConstantSize =
        c.ConstantData.take c.ConstantSize := by
  intro cs
  induction cs with
  | nil => intro k c _ h; simp at h
  | cons c0 cs ih =>
    intro k c hdata h
    have h0 := hdata c0 (List.mem_cons_self _ _)
    have hlen : (c0.ConstantData.take c0.ConstantSize).length = c0.ConstantSize := by
      rw [List.length_take]
      omega
    cases k with
    | zero =>
      simp only [List.getElem?_cons_zero, Option.some.injEq] at h
      subst h
      simp only [List.take_zero, totalSize, List.map_nil, List.sum_nil, List.drop_zero,
        constantBytes, List.flatMap_cons]
      rw [List.take_append_of_le_length (by rw [hlen]), List.take_take, Nat.min_self]
    | succ k =>
      simp only [List.getElem?_cons_succ] at h
      simp only [List.take_succ_cons, totalSize_cons]
      have hb : constantBytes (c0 :: cs) =
          c0.ConstantData.take c0.ConstantSize ++ constantBytes cs := by
        simp [constantBytes]
      rw [hb, List.drop_append_eq_append_drop, hlen,
        List.drop_eq_nil_of_le (by rw [hlen]; omega), List.nil_append,
        Nat.add_sub_cancel_left]
      exact ih k c (fun c hc => hdata c (List.mem_cons_of_mem _ hc)) h

theorem initShader_generate (stage : RendererStage) (w : World) {shader : Handle}
    {info : VkSpecializationInfo} (hs : stage.Info.Shader = some shader)
    (hinfo : specializationInfo stage.Info.Resources = .ok info) :
    ∃ renderPass, RendererStage.initShader stage w =
      .ok { w with Log := w.Log ++ [Event.ShaderGenerate shader renderPass info] } := by
  unfold RendererStage.initShader
  rw [hs]
  simp only [hinfo]
  split
  · exact ⟨_, rfl⟩
  · exact ⟨_, rfl⟩

theorem Init_generate {ext : Collaborators} {ctx : Context} {stage : RendererStage}
    {w : World} {r : RendererStage × World} {shader : Handle} {info : VkSpecializationInfo}
    (hs : stage.Info.Shader = some shader)
    (hinfo : specializationInfo stage.Info.Resources = .ok info)
    (h : RendererStage.Init ext ctx stage w = .ok r) :
    ∃ before renderPass,
      r.2.Log = before ++ [Event.ShaderGenerate shader renderPass info] := by
  unfold RendererStage.Init at h
  split at h
  · cases h
  · rename_i built h1
    have hi := initRenderPass_info h1
    obtain ⟨rp, hgen⟩ := initShader_generate built.1 built.2
      (hi ▸ hs) (hi ▸ hinfo)
    rw [hgen] at h
    simp only at h
    split at h
    · cases h
    · cases h
      exact ⟨_, rp, rfl⟩

/-- C19: for a stage with a shader whose `Constant` resources have sizes summing
to less than 2^32 and raw data of at least their size, the specialization info
is built, with one map entry per `Constant` resource in resource order: the
entry at position `k` carries the constant id and the size of the `k`-th
`Constant` resource and as offset the sum of the sizes of the earlier ones;
the bytes of the data buffer from that offset on, as many as that size, are
the raw data of that resource; the total size is the sum of the sizes, and the
buffer has that many bytes, so that resources of other kinds contribute
nothing. The shader step of `Init` hands this info to `Shader::Generate`, and
it is the last call recorded by an `Init` that returns. -/
theorem C19_specialization_constants (ext : Collaborators) (ctx : Context)
    (stage : RendererStage) (w : World) (shader : Handle)
    (hs : stage.Info.Shader = some shader)
    (hsum : totalSize (stage.Info.Resources.filter Resource.isConstant) < 2 ^ 32)
    (hdata : ∀ c ∈ stage.Info.Resources.filter Resource.isConstant,
      c.ConstantSize ≤ c.ConstantData.length) :
    ∃ info : VkSpecializationInfo,
      specializationInfo stage.Info.Resources = .ok info ∧
      info.mapEntries.length = (stage.Info.Resources.filter Resource.isConstant).length ∧
      (∀ (k : Nat) (c : Resource),
        (stage.Info.Resources.filter Resource.isConstant)[k]? = some c →
        info.mapEntries[k]? =
          some { constantID := c.ConstantID,
                 offset := totalSize ((stage.Info.Resources.filter Resource.isConstant).take k),
                 size := c.ConstantSize } ∧
        (info.data.drop
            (totalSize ((stage.Info.Resources.filter Resource.isConstant).take k))).take
            c.ConstantSize = c.ConstantData.take c.ConstantSize) ∧
      info.dataSize = totalSize (stage.Info.Resources.filter Resource.isConstant) ∧
      info.data.length = totalSize (stage.Info.Resources.filter Resource.isConstant) ∧
      (∀ (built : RendererStage) (w0 : World), built.Info = stage.Info →
        ∃ renderPass, RendererStage.initShader built w0 =
          .ok { w0 with Log := w0.Log ++ [Event.ShaderGenerate shader renderPass info] }) ∧
      (∀ r : RendererStage × World, RendererStage.Init ext ctx stage w = .ok r →
        ∃ before renderPass,
          r.2.Log = before ++ [Event.ShaderGenerate shader renderPass info]) := by
  have hinfo := specializationInfo_eq stage.Info.Resources hsum hdata
  refine ⟨_, hinfo, constantEntries_length _ _, ?_, rfl, constantBytes_length _ hdata, ?_, ?_⟩
  · intro k c hk
    refine ⟨?_, constantBytes_slice _ k c hdata hk⟩
    rw [constantEntries_getElem? _ 0 k c hk, Nat.zero_add]
  · intro built w0 hb
    exact initShader_generate built w0 (hb ▸ hs) (hb ▸ hinfo)
  · intro r h
    exact Init_generate hs hinfo h

/-- Witness of C19: a compute stage with constants of 4 and 2 bytes around a
uniform buffer gets the entries (0, 0, 4) and (3, 4, 2) and six bytes of data,
of which the last two are the first two bytes of the second constant. -/
theorem C19_specialization_constants_witness :
    totalSize (Example.constantObject.Info.Resources.filter Resource.isConstant) < 2 ^ 32 ∧
    (∀ c ∈ Example.constantObject.Info.Resources.filter Resource.isConstant,
      c.ConstantSize ≤ c.ConstantData.length) ∧
    ∃ before renderPass,
      Example.constantInit.2.Log = before ++
        [Event.ShaderGenerate 73 renderPass
          { mapEntries := [⟨0, 0, 4⟩, ⟨3, 4, 2⟩], dataSize := 6,
            data := [16, 0, 0, 0, 7, 1] }] := by
  refine ⟨by decide, by decide, ?_⟩
  obtain ⟨info, hinfo, -, -, -, -, -, hinit⟩ :=
    C19_specialization_constants Example.collaborators Example.context
      Example.constantObject Example.start 73 rfl (by decide) (by decide)
  have hvalue : specializationInfo Example.constantObject.Info.Resources =
      .ok { mapEntries := [⟨0, 0, 4⟩, ⟨3, 4, 2⟩], dataSize := 6,
            data := [16, 0, 0, 0, 7, 1] } := rfl
  rw [hvalue] at hinfo
  cases hinfo
  exact hinit Example.constantInit rfl

/-! ## The framebuffer of a stage -/

theorem initRenderPass_cases {ext : Collaborators} {ctx : Context} {stage : RendererStage}
    {w : World} {built : RendererStage × World}
    (h : RendererStage.initRenderPass ext ctx stage w = .ok built) :
    built.1.FrameBuffer = stage.FrameBuffer ∧ built.2.Images = w.Images ∧
    (rasterizes stage.Info.StageType = true →
      ∃ info, (ctx.CreateRenderPass2 info).1 = VK_SUCCESS ∧
        built.1.RenderPass = (ctx.CreateRenderPass2 info).2 ∧
        built.2.Log = w.Log ++ [Event.CreateRenderPass2 info]) ∧
    (rasterizes stage.Info.StageType = false → built = (stage, w)) := by
  unfold RendererStage.initRenderPass at h
  split at h
  · rename_i hr
    split at h
    · cases h
    · simp only at h
      split at h
      · cases h
      · rename_i _ b hb _ u hc
        cases h
        refine ⟨rfl, rfl, fun _ => ⟨renderPassInfo b, ?_, rfl, rfl⟩, fun hf => ?_⟩
        · unfold CheckVkResult at hc
          split at hc
          · assumption
          · cases hc
        · rw [hr] at hf
          cases hf
  · rename_i hr
    cases h
    exact ⟨rfl, rfl, fun ht => absurd ht hr, fun _ => rfl⟩

theorem initShader_noCreate {stage : RendererStage} {w w2 : World}
    (h : RendererStage.initShader stage w = .ok w2) :
    ∃ rest, w2.Log = w.Log ++ rest ∧ ∀ info, Event.CreateRenderPass2 info ∉ rest := by
  unfold RendererStage.initShader at h
  split at h
  · cases h
    exact ⟨[], by simp, by simp⟩
  · split at h
    · cases h
    · split at h <;> cases h <;> exact ⟨[_], rfl, by simp⟩

theorem initFrameBuffer_cases {stage stage2 : RendererStage} {w : World}
    (h : RendererStage.initFrameBuffer stage w = .ok stage2) :
    (stage.Info.StageType ≠ RendererStageType.Blit ∧ stage.RenderPass ≠ VK_NULL_HANDLE →
      ∃ first, stage.Info.Attachments.head?.bind (fun a => a.Image) = some first ∧
        stage2.FrameBuffer =
          { Created := true, Attachments := stage.Info.Attachments.map (fun a => a.Image),
            RenderPass := stage.RenderPass, Extent := (w.Images first).Extent }) ∧
    (¬ (stage.Info.StageType ≠ RendererStageType.Blit ∧ stage.RenderPass ≠ VK_NULL_HANDLE) →
      stage2 = stage) := by
  unfold RendererStage.initFrameBuffer at h
  split at h
  · rename_i hc
    simp only at h
    split at h
    · rename_i first hf
      cases h
      refine ⟨fun _ => ⟨first, ?_, rfl⟩, fun hn => absurd hc hn⟩
      cases hl : stage.Info.Attachments with
      | nil => rw [hl] at hf; simp at hf
      | cons a rest =>
        rw [hl] at hf
        simp only [List.map_cons, List.head?_cons, Option.some.injEq] at hf
        simp [hf]
    · cases h
  · rename_i hc
    cases h
    exact ⟨fun hp => absurd hp hc, fun _ => rfl⟩

/-- C20: let `Init` return for a newly constructed stage (no render pass and
no framebuffer yet) with a driver whose successful `vkCreateRenderPass2`
yields a non-null handle. A stage framebuffer is built exactly when the stage
type is `ForwardGraphics`, `DeferredGraphics` or `ImGui`, the types that are
not `Blit` and for which a render pass was created. Its attachments are the
images of the stage's attachments in declared order, its render pass is the
stage's, and its size is the extent of the image of the first attachment.
`Blit` and compute stages keep the framebuffer they had, that is none, and a
compute stage gets no render pass: its handle stays null and `Init` records no
`vkCreateRenderPass2`. -/
theorem C20_stage_framebuffer (ext : Collaborators) (ctx : Context)
    (stage : RendererStage) (w : World) (r : RendererStage × World)
    (hfresh : stage.RenderPass = VK_NULL_HANDLE)
    (hnone : stage.FrameBuffer.Created = false)
    (hdriver : ∀ info, (ctx.CreateRenderPass2 info).1 = VK_SUCCESS →
      (ctx.CreateRenderPass2 info).2 ≠ VK_NULL_HANDLE)
    (h : RendererStage.Init ext ctx stage w = .ok r) :
    (r.1.FrameBuffer.Created = true ↔
      (stage.Info.StageType = RendererStageType.ForwardGraphics
        ∨ stage.Info.StageType = RendererStageType.DeferredGraphics
        ∨ stage.Info.StageType = RendererStageType.ImGui)) ∧
    ((stage.Info.StageType = RendererStageType.ForwardGraphics
        ∨ stage.Info.StageType = RendererStageType.DeferredGraphics
        ∨ stage.Info.StageType = RendererStageType.ImGui) →
      r.1.RenderPass ≠ VK_NULL_HANDLE ∧
      ∃ first, stage.Info.Attachments.head?.bind (fun a => a.Image) = some first ∧
        r.1.FrameBuffer =
          { Created := true, Attachments := stage.Info.Attachments.map (fun a => a.Image),
            RenderPass := r.1.RenderPass, Extent := (w.Images first).Extent }) ∧
    ((stage.Info.StageType = RendererStageType.Blit
        ∨ stage.Info.StageType = RendererStageType.ForwardCompute
        ∨ stage.Info.StageType = RendererStageType.DeferredCompute) →
      r.1.FrameBuffer = stage.FrameBuffer) ∧
    ((stage.Info.StageType = RendererStageType.ForwardCompute
        ∨ stage.Info.StageType = RendererStageType.DeferredCompute) →
      r.1.RenderPass = VK_NULL_HANDLE ∧
      ∃ rest, r.2.Log = w.Log ++ rest ∧ ∀ info, Event.CreateRenderPass2 info ∉ rest) := by
  unfold RendererStage.Init at h
  split at h
  · cases h
  · rename_i built h1
    split at h
    · cases h
    · rename_i w2 h2
      split at h
      · cases h
      · rename_i stage2 h3
        cases h
        simp only
        have hinfo := initRenderPass_info h1
        obtain ⟨hfb1, himg1, hras, hnot⟩ := initRenderPass_cases h1
        obtain ⟨hyes, hno⟩ := initFrameBuffer_cases h3
        obtain ⟨-, hrp2, -⟩ := initFrameBuffer_info h3
        obtain ⟨-, -, -, hi2⟩ := initShader_log h2
        obtain ⟨rest, hlog2, hrest⟩ := initShader_noCreate h2
        rw [hinfo] at hyes hno
        have key1 : (stage.Info.StageType = RendererStageType.ForwardGraphics
            ∨ stage.Info.StageType = RendererStageType.DeferredGraphics
            ∨ stage.Info.StageType = RendererStageType.ImGui) →
            stage2.RenderPass ≠ VK_NULL_HANDLE ∧
            ∃ first, stage.Info.Attachments.head?.bind (fun a => a.Image) = some first ∧
              stage2.FrameBuffer =
                { Created := true,
                  Attachments := stage.Info.Attachments.map (fun a => a.Image),
                  RenderPass := stage2.RenderPass, Extent := (w.Images first).Extent } := by
          intro ht
          have hr : rasterizes stage.Info.StageType = true :=
            (rasterizes_iff _).mpr (by tauto)
          have hnb : stage.Info.StageType ≠ RendererStageType.Blit := by
            rcases ht with ht | ht | ht <;> rw [ht] <;> decide
          obtain ⟨info, hsucc, hrp, -⟩ := hras hr
          have hnn : built.1.RenderPass ≠ VK_NULL_HANDLE := by
            rw [hrp]
            exact hdriver info hsucc
          obtain ⟨first, hfirst, hfb⟩ := hyes ⟨hnb, hnn⟩
          rw [hrp2]
          refine ⟨hnn, first, hfirst, ?_⟩
          rw [hfb, hi2, himg1]
        have key2 : (stage.Info.StageType = RendererStageType.Blit
            ∨ stage.Info.StageType = RendererStageType.ForwardCompute
            ∨ stage.Info.StageType = RendererStageType.DeferredCompute) →
            stage2 = built.1 := by
          intro ht
          apply hno
          rintro ⟨hnb, hnn⟩
          rcases ht with ht | ht | ht
          · exact hnb ht
          · have hb := hnot (by rw [ht]; rfl)
            rw [hb] at hnn
            exact hnn hfresh
          · have hb := hnot (by rw [ht]; rfl)
            rw [hb] at hnn
            exact hnn hfresh
        have key3 : (stage.Info.StageType = RendererStageType.ForwardCompute
            ∨ stage.Info.StageType = RendererStageType.DeferredCompute) →
            built = (stage, w) := by
          intro ht
          apply hnot
          rcases ht with ht | ht <;> rw [ht] <;> rfl
        refine ⟨⟨fun hc => ?_, fun ht => ?_⟩, key1, fun ht => ?_, fun ht => ?_⟩
        · by_contra hne
          have ht : stage.Info.StageType = RendererStageType.Blit
              ∨ stage.Info.StageType = RendererStageType.ForwardCompute
              ∨ stage.Info.StageType = RendererStageType.DeferredCompute := by
            cases hst : stage.Info.StageType <;> simp [hst] at hne ⊢
          rw [key2 ht, hfb1, hnone] at hc
          cases hc
        · obtain ⟨-, first, -, hfb⟩ := key1 ht
          rw [hfb]
        · rw [key2 ht, hfb1]
        · have hb := key3 ht
          refine ⟨?_, rest, ?_, hrest⟩
          · rw [key2 (Or.inr ht), hb]
            exact hfresh
          · rw [hlog2, hb]

/-- Witness of C20: `Init` of the graphics stage of the example builds a
framebuffer over the colour and the depth image, of the extent of the colour
image. -/
theorem C20_stage_framebuffer_witness :
    RendererStage.Init Example.collaborators Example.context Example.graphicsObject
      Example.start = .ok Example.graphicsInit ∧
    Example.graphicsInit.1.FrameBuffer.Created = true ∧
    Example.graphicsInit.1.FrameBuffer.Attachments =
      [some Example.colorAttachment, some Example.depthAttachment] :=
  ⟨rfl,
   (C20_stage_framebuffer Example.collaborators Example.context Example.graphicsObject
      Example.start Example.graphicsInit rfl rfl
      (fun info _ => Nat.ne_of_gt (Nat.lt_of_lt_of_le (Nat.succ_pos 49)
        (Nat.le_add_right 50 info.attachments.length))) rfl).1.mpr (Or.inl rfl),
   by decide⟩

/-! ## What a returning stage body has recorded -/

theorem addsInside_refl (w : World) : AddsInside w w :=
  ⟨[], by simp, fun _ h => by cases h⟩

theorem addsInside_trans {a b c : World} (h1 : AddsInside a b) (h2 : AddsInside b c) :
    AddsInside a c := by
  obtain ⟨es1, hlog1, hn1⟩ := h1
  obtain ⟨es2, hlog2, hn2⟩ := h2
  refine ⟨es1 ++ es2, by rw [hlog2, hlog1, List.append_assoc], ?_⟩
  intro e he
  rcases List.mem_append.mp he with h | h
  · exact hn1 e h
  · exact hn2 e h

theorem pushConstants_addsInside (cb shader : Handle) (m : Mesh) (w : World) (r : Resource)
    (w1 : World) (h : pushConstants cb shader m w r = .ok w1) : AddsInside w w1 := by
  unfold pushConstants at h
  split at h
  · split at h
    · cases h
      refine ⟨[_], rfl, ?_⟩
      intro e he
      rw [List.mem_singleton] at he
      subst he
      exact ⟨rfl, rfl⟩
    · cases h
  · cases h
    exact addsInside_refl _

theorem drawMesh_addsInside (cb shader : Handle) (rs : List Resource) (w : World) (m : Mesh)
    (w1 : World) (h : drawMesh cb shader rs w m = .ok w1) : AddsInside w w1 := by
  unfold drawMesh at h
  split at h
  · cases h
  · rename_i w2 h2
    cases h
    refine addsInside_trans
      (foldExcept_rel AddsInside addsInside_refl (fun _ _ _ => addsInside_trans) _
        (pushConstants_addsInside cb shader m) rs w w2 h2) ⟨[_], rfl, ?_⟩
    intro e he
    rw [List.mem_singleton] at he
    subst he
    exact ⟨rfl, rfl⟩

theorem ForwardGraphics_returns (stage : RendererStage) (cb : Handle) (w w1 : World)
    (h : RendererStage.ForwardGraphics stage cb w = .ok w1) :
    ∃ frame shader inner,
      w.Data.GetCurrentFrame = some frame ∧ stage.Info.Shader = some shader ∧
      w1.Log = w.Log ++ graphicsPrologue stage cb shader frame w.Data.FrameIndex w.Images
        ++ inner ++ [Event.CmdEndRenderPass cb] ∧
      ∀ e ∈ inner, e.isPassBegin = false ∧ e.isPassEnd = false := by
  unfold RendererStage.ForwardGraphics at h
  split at h
  · cases h
  · rename_i frame hf
    simp only at h
    split at h
    · cases h
    · rename_i shader hs
      obtain ⟨w3, hok3, hlog3, -, -⟩ := BindResources_ok stage cb w.Data.FrameIndex
        ((w.record
          [Event.CmdBeginRenderPass2 cb stage.RenderPass stage.FrameBuffer
              frame.FrameBuffer.Extent stage.ClearValues,
           Event.CmdSetViewport cb (viewportOf frame.FrameBuffer.Extent),
           Event.CmdSetScissor cb (scissorOf frame.FrameBuffer.Extent),
           Event.CmdSetDepthBias cb]).record [Event.ShaderBind cb shader]) shader hs
      simp only [World.record] at hok3 h
      rw [hok3] at h
      simp only at h
      split at h
      · cases h
      · rename_i w4 h4
        cases h
        obtain ⟨inner, hlog4, hin⟩ :=
          foldExcept_rel AddsInside addsInside_refl (fun _ _ _ => addsInside_trans) _
            (drawMesh_addsInside cb shader stage.Info.Resources) _ _ _ h4
        refine ⟨frame, shader, inner, hf, hs, ?_, hin⟩
        simp only [World.record, hlog4, hlog3, graphicsPrologue, List.append_assoc,
          List.cons_append, List.nil_append]

theorem BlitStage_returns (stage : RendererStage) (cb : Handle) (w w1 : World)
    (h : RendererStage.BlitStage stage cb w = .ok w1) :
    ∃ frame shader,
      w.Data.GetCurrentFrame = some frame ∧ stage.Info.Shader = some shader ∧
      w1.Log = w.Log ++
        [Event.CmdBeginRenderPass2 cb stage.RenderPass frame.FrameBuffer
            frame.FrameBuffer.Extent stage.ClearValues,
         Event.CmdSetViewport cb (viewportOf frame.FrameBuffer.Extent),
         Event.CmdSetScissor cb (scissorOf frame.FrameBuffer.Extent),
         Event.CmdSetDepthBias cb,
         Event.ShaderBind cb shader,
         Event.DescriptorBuild w.Data.FrameIndex
           (stage.Info.Resources.filterMap (descriptorOf w.Images)),
         Event.CmdBindDescriptorSets cb stage.Info.StageType shader 0 1,
         Event.CmdDraw cb 3 1 0 0,
         Event.CmdEndRenderPass cb] := by
  unfold RendererStage.BlitStage at h
  split at h
  · cases h
  · rename_i frame hf
    simp only at h
    split at h
    · cases h
    · rename_i shader hs
      obtain ⟨w3, hok3, hlog3, -, -⟩ := BindResources_ok stage cb w.Data.FrameIndex
        ((w.record
          [Event.CmdBeginRenderPass2 cb stage.RenderPass frame.FrameBuffer
              frame.FrameBuffer.Extent stage.ClearValues,
           Event.CmdSetViewport cb (viewportOf frame.FrameBuffer.Extent),
           Event.CmdSetScissor cb (scissorOf frame.FrameBuffer.Extent),
           Event.CmdSetDepthBias cb]).record [Event.ShaderBind cb shader]) shader hs
      simp only [World.record] at hok3 h
      rw [hok3] at h
      simp only at h
      cases h
      refine ⟨frame, shader, hf, hs, ?_⟩
      simp only [World.record, hlog3, List.append_assoc, List.cons_append, List.nil_append]

theorem ForwardCompute_returns (stage : RendererStage) (cb : Handle) (w w1 : World)
    (h : RendererStage.ForwardCompute stage cb w = .ok w1) :
    ∃ shader, stage.Info.Shader = some shader ∧
      w1.Log = w.Log ++
        [Event.ShaderBind cb shader,
         Event.DescriptorBuild w.Data.FrameIndex
           (stage.Info.Resources.filterMap (descriptorOf w.Images)),
         Event.CmdBindDescriptorSets cb stage.Info.StageType shader 0 1,
         Event.CmdDispatch cb stage.Info.GroupCounts.1 stage.Info.GroupCounts.2.1
           stage.Info.GroupCounts.2.2] := by
  unfold RendererStage.ForwardCompute at h
  split at h
  · cases h
  · rename_i shader hs
    simp only at h
    split at h
    · cases h
    · obtain ⟨w2, hok2, hlog2, -, -⟩ := BindResources_ok stage cb w.Data.FrameIndex
        (w.record [Event.ShaderBind cb shader]) shader hs
      simp only [World.record] at hok2 h
      rw [hok2] at h
      simp only at h
      cases h
      refine ⟨shader, hs, ?_⟩
      simp only [World.record, hlog2, List.append_assoc, List.cons_append, List.nil_append]

theorem ImGui_returns (stage : RendererStage) (cb : Handle) (w w1 : World)
    (h : RendererStage.ImGui stage cb w = .ok w1) :
    ∃ layer, w.Data.ImGuiLayer = some layer ∧
      w1.Log = w.Log ++
        [Event.CmdBeginRenderPass2 cb stage.RenderPass stage.FrameBuffer
            stage.FrameBuffer.Extent stage.ClearValues,
         Event.ImGuiLayerDraw cb layer,
         Event.CmdEndRenderPass cb] := by
  unfold RendererStage.ImGui at h
  simp only at h
  split at h
  · cases h
  · rename_i layer hl
    cases h
    refine ⟨layer, hl, ?_⟩
    simp only [World.record, List.append_assoc, List.cons_append, List.nil_append]

theorem Execute_returns (ext : Collaborators) (stage : RendererStage) (cb : Handle)
    (w w1 : World) (h : RendererStage.Execute ext stage cb w = .ok w1) :
    ∃ w2, RendererStage.dispatch stage cb
        (stage.Info.Attachments.foldl (preBarrier ext cb) w) = .ok w2 ∧
      w1.Log = w2.Log ∧
      (stage.Info.Attachments.foldl (preBarrier ext cb) w).Data = w.Data := by
  unfold RendererStage.Execute at h
  simp only at h
  split at h
  · cases h
  · rename_i w2 h2
    cases h
    obtain ⟨-, -, -, hd, -⟩ := preBarrier_fold ext cb stage.Info.Attachments w
    exact ⟨w2, h2, (postUpdate_fold_log _ _).1, hd⟩

theorem graphicsPrologue_tail_inside (stage : RendererStage) (cb shader : Handle)
    (frame : RendererFrame) (slot : Nat) (images : ImageId → Image) :
    ∀ e ∈ (graphicsPrologue stage cb shader frame slot images).tail,
      e.isPassBegin = false ∧ e.isPassEnd = false := by
  simp [graphicsPrologue, Event.isPassBegin, Event.isPassEnd]

/-- C21: let `Execute` return. For a `ForwardCompute` or `DeferredCompute`
stage the calls recorded after the barriers of the first loop are exactly: the
pipeline bind, the descriptor set built and bound by `BindResources`, and one
dispatch with the declared group counts; no render pass is begun or ended. For
a `Blit`, `ForwardGraphics`, `DeferredGraphics` or `ImGui` stage they are one
render-pass begin on the stage's render pass with the cached clear values,
then calls that neither begin nor end a pass, then one render-pass end on the
same command buffer. -/
theorem C21_dispatch_by_stage_type (ext : Collaborators) (stage : RendererStage)
    (cb : Handle) (w w1 : World) (h : RendererStage.Execute ext stage cb w = .ok w1) :
    ((stage.Info.StageType = RendererStageType.ForwardCompute
        ∨ stage.Info.StageType = RendererStageType.DeferredCompute) →
      ∃ shader, stage.Info.Shader = some shader ∧
        w1.Log = (stage.Info.Attachments.foldl (preBarrier ext cb) w).Log ++
          [Event.ShaderBind cb shader,
           Event.DescriptorBuild w.Data.FrameIndex
             (stage.Info.Resources.filterMap
               (descriptorOf (stage.Info.Attachments.foldl (preBarrier ext cb) w).Images)),
           Event.CmdBindDescriptorSets cb stage.Info.StageType shader 0 1,
           Event.CmdDispatch cb stage.Info.GroupCounts.1 stage.Info.GroupCounts.2.1
             stage.Info.GroupCounts.2.2]) ∧
    ((stage.Info.StageType = RendererStageType.Blit
        ∨ stage.Info.StageType = RendererStageType.ForwardGraphics
        ∨ stage.Info.StageType = RendererStageType.DeferredGraphics
        ∨ stage.Info.StageType = RendererStageType.ImGui) →
      ∃ framebuffer renderArea inner,
        w1.Log = (stage.Info.Attachments.foldl (preBarrier ext cb) w).Log ++
          Event.CmdBeginRenderPass2 cb stage.RenderPass framebuffer renderArea
            stage.ClearValues :: inner ++ [Event.CmdEndRenderPass cb] ∧
        ∀ e ∈ inner, e.isPassBegin = false ∧ e.isPassEnd = false) := by
  obtain ⟨w2, h2, hlog, hdata⟩ := Execute_returns ext stage cb w w1 h
  rw [hlog]
  unfold RendererStage.dispatch at h2
  refine ⟨fun ht => ?_, fun ht => ?_⟩
  · have hc : RendererStage.ForwardCompute stage cb
        (stage.Info.Attachments.foldl (preBarrier ext cb) w) = .ok w2 := by
      rcases ht with ht | ht <;> rw [ht] at h2 <;> exact h2
    obtain ⟨shader, hs, hl⟩ := ForwardCompute_returns _ _ _ _ hc
    rw [hdata] at hl
    exact ⟨shader, hs, hl⟩
  · rcases ht with ht | ht | ht | ht
    · rw [ht] at h2
      obtain ⟨frame, shader, -, -, hl⟩ := BlitStage_returns _ _ _ _ h2
      refine ⟨frame.FrameBuffer, frame.FrameBuffer.Extent,
        [Event.CmdSetViewport cb (viewportOf frame.FrameBuffer.Extent),
         Event.CmdSetScissor cb (scissorOf frame.FrameBuffer.Extent),
         Event.CmdSetDepthBias cb,
         Event.ShaderBind cb shader,
         Event.DescriptorBuild
           (stage.Info.Attachments.foldl (preBarrier ext cb) w).Data.FrameIndex
           (stage.Info.Resources.filterMap
             (descriptorOf (stage.Info.Attachments.foldl (preBarrier ext cb) w).Images)),
         Event.CmdBindDescriptorSets cb stage.Info.StageType shader 0 1,
         Event.CmdDraw cb 3 1 0 0], by rw [hl]; simp, ?_⟩
      simp [Event.isPassBegin, Event.isPassEnd]
    · rw [ht] at h2
      obtain ⟨frame, shader, inner, -, -, hl, hin⟩ := ForwardGraphics_returns _ _ _ _ h2
      refine ⟨stage.FrameBuffer, frame.FrameBuffer.Extent,
        (graphicsPrologue stage cb shader frame
          (stage.Info.Attachments.foldl (preBarrier ext cb) w).Data.FrameIndex
          (stage.Info.Attachments.foldl (preBarrier ext cb) w).Images).tail ++ inner, by
        rw [hl]
        simp only [graphicsPrologue, List.tail_cons, List.append_assoc, List.cons_append,
          List.nil_append], ?_⟩
      intro e he
      rcases List.mem_append.mp he with h1 | h1
      · exact graphicsPrologue_tail_inside _ _ _ _ _ _ e h1
      · exact hin e h1
    · rw [ht] at h2
      obtain ⟨frame, shader, inner, -, -, hl, hin⟩ := ForwardGraphics_returns _ _ _ _ h2
      refine ⟨stage.FrameBuffer, frame.FrameBuffer.Extent,
        (graphicsPrologue stage cb shader frame
          (stage.Info.Attachments.foldl (preBarrier ext cb) w).Data.FrameIndex
          (stage.Info.Attachments.foldl (preBarrier ext cb) w).Images).tail ++ inner, by
        rw [hl]
        simp only [graphicsPrologue, List.tail_cons, List.append_assoc, List.cons_append,
          List.nil_append], ?_⟩
      intro e he
      rcases List.mem_append.mp he with h1 | h1
      · exact graphicsPrologue_tail_inside _ _ _ _ _ _ e h1
      · exact hin e h1
    · rw [ht] at h2
      obtain ⟨layer, -, hl⟩ := ImGui_returns _ _ _ _ h2
      refine ⟨stage.FrameBuffer, stage.FrameBuffer.Extent, [Event.ImGuiLayerDraw cb layer],
        by rw [hl]; simp, ?_⟩
      simp [Event.isPassBegin, Event.isPassEnd]

/-- Witness of C21: the compute stage with the two constants, executed in the
state after `Initialize`, records the pipeline bind, the descriptor set with
its one uniform buffer, and one dispatch of 8 x 8 x 1 groups. -/
theorem C21_dispatch_by_stage_type_witness :
    RendererStage.Execute Example.collaborators Example.constantInit.1 20
      Example.initialized = .ok Example.constantExecuted ∧
    Example.constantExecuted.Log = Example.initialized.Log ++
      [Event.ShaderBind 20 73,
       Event.DescriptorBuild 0
         [DescriptorWrite.BindBuffer 0 { buffer := 9, offset := 0, range := VK_WHOLE_SIZE }
           BufferType.UniformBuffer 32],
       Event.CmdBindDescriptorSets 20 RendererStageType.ForwardCompute 73 0 1,
       Event.CmdDispatch 20 8 8 1] := by
  refine ⟨rfl, ?_⟩
  obtain ⟨shader, hs, hl⟩ :=
    (C21_dispatch_by_stage_type Example.collaborators Example.constantInit.1 20
      Example.initialized Example.constantExecuted rfl).1 (Or.inl rfl)
  have h73 : Example.constantInit.1.Info.Shader = some 73 := rfl
  rw [h73] at hs
  cases hs
  exact hl

/-- C22: let `Execute` return for a `Blit` stage. After the barriers of the
first loop it has recorded exactly: the begin of the stage's render pass on
the framebuffer of the current frame, over that framebuffer's extent and with
the cached clear values; viewport, scissor and depth bias; the pipeline bind;
the descriptor set built and bound by `BindResources`; one draw of 3 vertices
and 1 instance from vertex 0; and the end of the pass. No mesh is drawn,
whatever the stage's mesh list. -/
theorem C22_blit_stage_commands (ext : Collaborators) (stage : RendererStage)
    (cb : Handle) (w w1 : World)
    (ht : stage.Info.StageType = RendererStageType.Blit)
    (h : RendererStage.Execute ext stage cb w = .ok w1) :
    ∃ frame shader,
      w.Data.GetCurrentFrame = some frame ∧ stage.Info.Shader = some shader ∧
      w1.Log = (stage.Info.Attachments.foldl (preBarrier ext cb) w).Log ++
        [Event.CmdBeginRenderPass2 cb stage.RenderPass frame.FrameBuffer
            frame.FrameBuffer.Extent stage.ClearValues,
         Event.CmdSetViewport cb (viewportOf frame.FrameBuffer.Extent),
         Event.CmdSetScissor cb (scissorOf frame.FrameBuffer.Extent),
         Event.CmdSetDepthBias cb,
         Event.ShaderBind cb shader,
         Event.DescriptorBuild w.Data.FrameIndex
           (stage.Info.Resources.filterMap
             (descriptorOf (stage.Info.Attachments.foldl (preBarrier ext cb) w).Images)),
         Event.CmdBindDescriptorSets cb RendererStageType.Blit shader 0 1,
         Event.CmdDraw cb 3 1 0 0,
         Event.CmdEndRenderPass cb] := by
  obtain ⟨w2, h2, hlog, hdata⟩ := Execute_returns ext stage cb w w1 h
  unfold RendererStage.dispatch at h2
  rw [ht] at h2
  obtain ⟨frame, shader, hf, hs, hl⟩ := BlitStage_returns _ _ _ _ h2
  rw [hdata] at hf hl
  rw [ht] at hl
  exact ⟨frame, shader, hf, hs, by rw [hlog, hl]⟩

/-- Witness of C22: the blit stage of the example, executed in the state after
`Initialize` with frame slot 0 current, begins its pass on the framebuffer of
frame 0, which wraps swapchain image 100, and records one draw of 3 vertices. -/
theorem C22_blit_stage_commands_witness :
    Example.blitInit.1.Info.StageType = RendererStageType.Blit ∧
    RendererStage.Execute Example.collaborators Example.blitInit.1 20 Example.initialized =
      .ok Example.blitExecuted ∧
    Example.initialized.Data.GetCurrentFrame = some Example.frame0 ∧
    Example.frame0.FrameBuffer.Attachments = [some 100] ∧
    ∃ frame shader,
      Example.initialized.Data.GetCurrentFrame = some frame ∧
      Example.blitInit.1.Info.Shader = some shader ∧
      Example.blitExecuted.Log =
        (Example.blitInit.1.Info.Attachments.foldl (preBarrier Example.collaborators 20)
          Example.initialized).Log ++
        [Event.CmdBeginRenderPass2 20 Example.blitInit.1.RenderPass frame.FrameBuffer
            frame.FrameBuffer.Extent Example.blitInit.1.ClearValues,
         Event.CmdSetViewport 20 (viewportOf frame.FrameBuffer.Extent),
         Event.CmdSetScissor 20 (scissorOf frame.FrameBuffer.Extent),
         Event.CmdSetDepthBias 20,
         Event.ShaderBind 20 shader,
         Event.DescriptorBuild Example.initialized.Data.FrameIndex
           (Example.blitInit.1.Info.Resources.filterMap
             (descriptorOf
               (Example.blitInit.1.Info.Attachments.foldl
                 (preBarrier Example.collaborators 20) Example.initialized).Images)),
         Event.CmdBindDescriptorSets 20 RendererStageType.Blit shader 0 1,
         Event.CmdDraw 20 3 1 0 0,
         Event.CmdEndRenderPass 20] :=
  ⟨rfl, rfl, rfl, rfl,
   C22_blit_stage_commands Example.collaborators Example.blitInit.1 20 Example.initialized
     Example.blitExecuted rfl rfl⟩

/-! ## The extent a graphics stage renders over -/

/-- What a returning `Execute` of a graphics stage records first after the
barriers: the pass is begun on the stage's own framebuffer, while the render
area, the viewport and the scissor have the extent of the framebuffer of the
current frame. -/
theorem Execute_graphics_extent (ext : Collaborators) (stage : RendererStage)
    (cb : Handle) (w w1 : World)
    (ht : stage.Info.StageType = RendererStageType.ForwardGraphics
      ∨ stage.Info.StageType = RendererStageType.DeferredGraphics)
    (h : RendererStage.Execute ext stage cb w = .ok w1) :
    ∃ frame rest,
      w.Data.GetCurrentFrame = some frame ∧
      w1.Log = (stage.Info.Attachments.foldl (preBarrier ext cb) w).Log ++
        [Event.CmdBeginRenderPass2 cb stage.RenderPass stage.FrameBuffer
            frame.FrameBuffer.Extent stage.ClearValues,
         Event.CmdSetViewport cb (viewportOf frame.FrameBuffer.Extent),
         Event.CmdSetScissor cb (scissorOf frame.FrameBuffer.Extent)] ++ rest := by
  obtain ⟨w2, h2, hlog, hdata⟩ := Execute_returns ext stage cb w w1 h
  unfold RendererStage.dispatch at h2
  have hg : RendererStage.ForwardGraphics stage cb
      (stage.Info.Attachments.foldl (preBarrier ext cb) w) = .ok w2 := by
    rcases ht with ht | ht <;> rw [ht] at h2 <;> exact h2
  obtain ⟨frame, shader, inner, hf, -, hl, -⟩ := ForwardGraphics_returns _ _ _ _ hg
  rw [hdata] at hf
  refine ⟨frame,
    (graphicsPrologue stage cb shader frame
      (stage.Info.Attachments.foldl (preBarrier ext cb) w).Data.FrameIndex
      (stage.Info.Attachments.foldl (preBarrier ext cb) w).Images).drop 3
      ++ inner ++ [Event.CmdEndRenderPass cb], hf, ?_⟩
  rw [hlog, hl]
  simp [graphicsPrologue]

/-- C23 (what the code does). With the colour and the depth image at 640 x 360
and swapchain framebuffers of 1280 x 720, `Initialize` builds the framebuffer
of the graphics stage of the example with extent 640 x 360, the extent of its
first attachment. `Execute` of that stage returns and begins the pass on that
framebuffer, but the render area it gives, the viewport and the scissor are
1280 x 720, the extent of the framebuffer of the current frame. -/
theorem C23_graphics_extent_of_current_frame :
    Example.halfGraphics.Info.StageType = RendererStageType.ForwardGraphics ∧
    Example.halfGraphics.FrameBuffer.Extent = ⟨640, 360⟩ ∧
    Example.halfInitialized.Data.GetCurrentFrame.map (fun f => f.FrameBuffer.Extent)
      = some ⟨1280, 720⟩ ∧
    returns (RendererStage.Execute Example.collaborators Example.halfGraphics 20
      Example.halfInitialized) = true ∧
    (recordedSince Example.halfInitialized.Log.length
      (outcomeLog (RendererStage.Execute Example.collaborators Example.halfGraphics 20
        Example.halfInitialized))).filterMap Event.beginInfo
      = [(Example.halfGraphics.FrameBuffer, ⟨1280, 720⟩)] ∧
    (recordedSince Example.halfInitialized.Log.length
      (outcomeLog (RendererStage.Execute Example.collaborators Example.halfGraphics 20
        Example.halfInitialized))).filterMap Event.viewport
      = [{ x := 0, y := 0, width := 1280, height := 720, minDepth := 0, maxDepth := 1 }] ∧
    (recordedSince Example.halfInitialized.Log.length
      (outcomeLog (RendererStage.Execute Example.collaborators Example.halfGraphics 20
        Example.halfInitialized))).filterMap Event.scissor
      = [{ offsetX := 0, offsetY := 0, extent := ⟨1280, 720⟩ }] :=
  ⟨rfl, rfl, rfl, rfl, rfl, rfl, rfl⟩

/-- C24 (what the code does). The graph of the example contains a `Blit` stage
with a `Swapchain` attachment. When no final render target was requested
before `Initialize`, as in `DeferredExample::OnAttach`, `Initialize` returns
with two frames that hold no swapchain image and whose framebuffers were never
created; the first `Draw` returns, and its blit stage begins its pass on such
a framebuffer. -/
theorem C24_frames_without_framebuffer :
    (∃ node ∈ Example.graph.Nodes,
      node.StageInfo.StageType = RendererStageType.Blit ∧
      ∃ a ∈ node.StageInfo.Attachments, a.Kind = AttachmentType.Swapchain) ∧
    Example.noTarget.Data.FinalTarget = none ∧
    returns (Renderer.Initialize Example.collaborators Example.context Example.graph
      Example.noTarget) = true ∧
    Example.noTargetInitialized.Data.Frames.map
        (fun f => (f.SwapchainImage, f.FrameBuffer.Created)) = [(none, false), (none, false)] ∧
    returns (Renderer.Draw Example.collaborators (Example.success 0)
      Example.noTargetInitialized) = true ∧
    ((recordedSince Example.noTargetInitialized.Log.length
      (outcomeLog (Renderer.Draw Example.collaborators (Example.success 0)
        Example.noTargetInitialized))).filterMap Event.beginInfo).map
        (fun p => p.1.Created) = [true, false] :=
  ⟨by decide, rfl, rfl, rfl, rfl, rfl⟩

/-- C25: when `Renderer::Draw` returns, the configured frame count `F` is at
least 1 and is unchanged, and the frame index is less than `F`, whatever image
index the acquisition of `BeginFrame` wrote into the frame index: it is that
index plus one, modulo `F`. -/
theorem C25_frame_index_below_frame_count (ext : Collaborators) (env : DrawEnv)
    (w w1 : World) (h : Renderer.Draw ext env w = .ok w1) :
    1 ≤ w.Data.MaxFrameCount ∧
    w1.Data.MaxFrameCount = w.Data.MaxFrameCount ∧
    w1.Data.FrameIndex =
      ((env.imageIndex % 2 ^ 32 + 1) % 2 ^ 32) % w.Data.MaxFrameCount ∧
    w1.Data.FrameIndex < w.Data.MaxFrameCount := by
  have h0 := h
  unfold Renderer.Draw at h0
  simp only at h0
  split at h0
  · cases h0
  · rename_i frame hframe
    split at h0
    · cases h0
    · rename_i wa ha
      split at h0
      · cases h0
      · rename_i wb hb
        split at h0
        · cases h0
        · rename_i wc hc
          split at h0
          · cases h0
          · rename_i hne
            cases h0
            obtain ⟨-, hda⟩ := BeginFrame_effect ext env _ frame w wa ha
            obtain ⟨hdb, -, -⟩ := executeStages_effect ext frame.CommandBuffer _ wa wb hb
            obtain ⟨-, hdc, -⟩ := EndFrame_quiet env frame wb wc hc
            have hd : wc.Data = { w.Data with FrameIndex := env.imageIndex % 2 ^ 32 } := by
              rw [hdc, hdb, hda]
            have hF : wc.Data.MaxFrameCount = w.Data.MaxFrameCount := by rw [hd]
            rw [hF] at hne
            have hpos : 0 < w.Data.MaxFrameCount := Nat.pos_of_ne_zero hne
            refine ⟨hpos, ?_, ?_, ?_⟩
            · simp only [advanceFrameIndex, hF]
            · simp only [advanceFrameIndex, hd]
            · simp only [advanceFrameIndex, hd]
              exact Nat.mod_lt _ hpos

/-- Witness of C25: the first `Draw` of the example, acquiring image 1 with two
frames configured, returns with frame index 0. -/
theorem C25_frame_index_below_frame_count_witness :
    Renderer.Draw Example.collaborators (Example.success 1) Example.initialized =
      .ok (returned Example.initialized
        (Renderer.Draw Example.collaborators (Example.success 1) Example.initialized)) ∧
    (returned Example.initialized
      (Renderer.Draw Example.collaborators (Example.success 1)
        Example.initialized)).Data.FrameIndex < Example.initialized.Data.MaxFrameCount :=
  ⟨rfl,
   (C25_frame_index_below_frame_count Example.collaborators (Example.success 1)
      Example.initialized _ rfl).2.2.2⟩

/-- C26 (what the code does). A first cycle configured with three frames runs
`Initialize`, two `Draw` calls acquiring images 0 and 1, and `Cleanup`; it ends
with frame index 2, which `Cleanup` does not reset. The second cycle is
configured with two frames: immediately after its `Initialize` two frames are
built and the frame index is still 2, so the first `Draw` indexes the frames
out of range and does not return. -/
theorem C26_frame_index_survives_cleanup :
    Example.context3.frameCount = 3 ∧ Example.context.frameCount = 2 ∧
    Example.start.Data.FrameIndex = 0 ∧
    returns (Renderer.Initialize Example.collaborators Example.context3 Example.graph
      Example.start) = true ∧
    returns (drawFrames Example.collaborators [Example.success 0, Example.success 1]
      (returned Example.start (Renderer.Initialize Example.collaborators Example.context3
        Example.graph Example.start))) = true ∧
    Example.firstCycle.Data.FrameIndex = 2 ∧
    Example.firstCycle.Data.Frames = [] ∧
    returns (Renderer.Initialize Example.collaborators Example.context Example.graph
      (Renderer.SetFinalRenderTarget Example.colorAttachment Example.firstCycle)) = true ∧
    Example.secondCycle.Data.Frames.length = 2 ∧
    Example.secondCycle.Data.FrameIndex = 2 ∧
    Example.secondCycle.Data.Frames[Example.secondCycle.Data.FrameIndex]? = none ∧
    (match Renderer.Draw Example.collaborators (Example.success 0) Example.secondCycle with
      | .ok _ => none
      | .error a => some a.reason) = some Abort.Undefined :=
  ⟨rfl, rfl, rfl, rfl, rfl, rfl, rfl, rfl, rfl, rfl, rfl, rfl⟩

/-- C27 (what the code does). The stage declares a colour attachment at index
0 and exactly one depth attachment, of kind `DepthStencil`, at index 1.
`Init` returns and creates a render pass with two attachment descriptions
whose single subpass references attachment 0 as colour attachment and has no
depth/stencil reference: attachment 1 is referenced nowhere. -/
theorem C27_depth_stencil_kind_not_referenced :
    rasterizes Example.stencilObject.Info.StageType = true ∧
    Example.stencilObject.Info.Attachments.map (fun a => a.Kind)
      = [AttachmentType.Color, AttachmentType.DepthStencil] ∧
    RendererStage.Init Example.collaborators Example.context Example.stencilObject
      Example.start = .ok Example.stencilInit ∧
    (createdDescription Example.stencilInit.2.Log 1).isSome = true ∧
    createdSubpass Example.stencilInit.2.Log
      = some { pipelineBindPoint := 0,
               colorAttachments :=
                 [{ attachment := 0, layout := ImageLayout.ColorAttachmentOptimal.code }],
               depthStencilAttachment := none } :=
  ⟨rfl, rfl, rfl, rfl, rfl⟩

/-! ## Data types and native formats -/

/-- C28 (what the code does). `DataTypeToVkFormat` maps `BGRA8` to
`VK_FORMAT_B8G8R8A8_UNORM`, but `VkFormatToDataType` has no case for that
format (it maps `VK_FORMAT_B8G8R8A8_SRGB` to `BGRA8`), so converting `BGRA8`
to a native format and back runs into the failing assertion and does not give
`BGRA8`. For the thirteen other data types apart from `None`, `Mat3` and
`Mat4` the round trip is the identity. -/
theorem C28_bgra8_round_trip_fails :
    DataTypeToVkFormat DataType.BGRA8 = .ok VK_FORMAT_B8G8R8A8_UNORM ∧
    VkFormatToDataType VK_FORMAT_B8G8R8A8_UNORM = .error Abort.Fatal ∧
    VkFormatToDataType VK_FORMAT_B8G8R8A8_SRGB = .ok DataType.BGRA8 ∧
    roundTrip DataType.BGRA8 = .error Abort.Fatal ∧
    [DataType.Float, DataType.Float2, DataType.Float3, DataType.Float4, DataType.Int,
      DataType.Int2, DataType.Int3, DataType.Int4, DataType.Bool, DataType.Depth32,
      DataType.Depth32Stencil8, DataType.Depth24Stencil8, DataType.RGBA8].map roundTrip
      = [.ok DataType.Float, .ok DataType.Float2, .ok DataType.Float3, .ok DataType.Float4,
         .ok DataType.Int, .ok DataType.Int2, .ok DataType.Int3, .ok DataType.Int4,
         .ok DataType.Bool, .ok DataType.Depth32, .ok DataType.Depth32Stencil8,
         .ok DataType.Depth24Stencil8, .ok DataType.RGBA8] :=
  ⟨rfl, rfl, rfl, rfl, rfl⟩

/-! ## `ChooseSurfaceFormat` -/

theorem favoredFormat_eq :
    ∀ (formats : List VkSurfaceFormatKHR) (i : Nat), i + formats.length < 2 ^ 31 →
      favoredFormat i formats =
        .ok (if preferredSurfaceFormat ∈ formats then some preferredSurfaceFormat else none) := by
  intro formats
  induction formats with
  | nil => intro i _; rfl
  | cons fmt rest ih =>
    intro i hi
    simp only [List.length_cons] at hi
    unfold favoredFormat
    by_cases hf : fmt.format = VK_FORMAT_B8G8R8A8_UNORM
        ∧ fmt.colorSpace = VK_COLOR_SPACE_SRGB_NONLINEAR_KHR
    · have hp : fmt = preferredSurfaceFormat := by
        cases fmt
        simp only at hf
        simp [preferredSurfaceFormat, hf.1, hf.2]
      rw [if_pos hf, hp]
      simp
    · have hp : ¬ preferredSurfaceFormat = fmt := by
        intro hp
        apply hf
        rw [← hp]
        exact ⟨rfl, rfl⟩
      rw [if_neg hf, if_neg (by omega), ih (i + 1) (by omega)]
      simp [List.mem_cons, hp]

/-- C29: for every non-empty list of surface formats (of fewer than 2^31
entries, the range of the `int` index), `ChooseSurfaceFormat` returns; the
result is the pair (`B8G8R8A8_UNORM`, `SRGB_NONLINEAR`) when the list is a
single entry with format `UNDEFINED` or when the list contains that pair, and
the first element of the list otherwise; so it is always that pair or a member
of the list. -/
theorem C29_choose_surface_format (formats : List VkSurfaceFormatKHR)
    (first : VkSurfaceFormatKHR) (hfirst : formats.head? = some first)
    (hlen : formats.length < 2 ^ 31) :
    ∃ result, ChooseSurfaceFormat formats = .ok result ∧
      (formats.length = 1 ∧ first.format = VK_FORMAT_UNDEFINED → result = preferredSurfaceFormat) ∧
      (preferredSurfaceFormat ∈ formats → result = preferredSurfaceFormat) ∧
      (¬ (formats.length = 1 ∧ first.format = VK_FORMAT_UNDEFINED) →
        preferredSurfaceFormat ∉ formats → result = first) ∧
      (result = preferredSurfaceFormat ∨ result ∈ formats) := by
  have hmem : first ∈ formats := by
    cases formats with
    | nil => simp at hfirst
    | cons a rest =>
      simp only [List.head?_cons, Option.some.injEq] at hfirst
      rw [hfirst]
      exact List.mem_cons_self _ _
  unfold ChooseSurfaceFormat
  rw [favoredFormat_eq formats 0 (by omega), hfirst]
  simp only [Option.map_some']
  by_cases hu : formats.length = 1 ∧ first.format = VK_FORMAT_UNDEFINED
  · have hu2 : formats.length = 1 ∧ some first.format = some VK_FORMAT_UNDEFINED :=
      ⟨hu.1, by rw [hu.2]⟩
    rw [if_pos hu2]
    exact ⟨_, rfl, fun _ => rfl, fun _ => rfl, fun hn => absurd hu hn, Or.inl rfl⟩
  · have hu2 : ¬ (formats.length = 1 ∧ some first.format = some VK_FORMAT_UNDEFINED) := by
      rintro ⟨h1, h2⟩
      exact hu ⟨h1, Option.some.inj h2⟩
    rw [if_neg hu2]
    by_cases hp : preferredSurfaceFormat ∈ formats
    · rw [if_pos hp]
      exact ⟨_, rfl, fun h => absurd h hu, fun _ => rfl, fun _ hn => absurd hp hn, Or.inl rfl⟩
    · rw [if_neg hp]
      exact ⟨_, rfl, fun h => absurd h hu, fun h => absurd h hp, fun _ _ => rfl, Or.inr hmem⟩

/-- Witness of C29: of two formats, neither the favoured pair, the first is
chosen. -/
theorem C29_choose_surface_format_witness :
    ([⟨VK_FORMAT_R8G8B8A8_SRGB, 0⟩, ⟨VK_FORMAT_B8G8R8A8_SRGB, 0⟩] :
      List VkSurfaceFormatKHR).length < 2 ^ 31 ∧
    ChooseSurfaceFormat [⟨VK_FORMAT_R8G8B8A8_SRGB, 0⟩, ⟨VK_FORMAT_B8G8R8A8_SRGB, 0⟩]
      = .ok ⟨VK_FORMAT_R8G8B8A8_SRGB, 0⟩ := by
  refine ⟨by decide, ?_⟩
  obtain ⟨result, hr, -, -, hfirst, -⟩ :=
    C29_choose_surface_format [⟨VK_FORMAT_R8G8B8A8_SRGB, 0⟩, ⟨VK_FORMAT_B8G8R8A8_SRGB, 0⟩]
      ⟨VK_FORMAT_R8G8B8A8_SRGB, 0⟩ rfl (by decide)
  rw [hr, hfirst (by decide) (by decide)]

/-! ## `SelectPhysicalDevice` -/

theorem extensionFound_iff (props : List String) (extension : String) :
    extensionFound props extension = true ↔ extension ∈ props := by
  induction props with
  | nil => simp [extensionFound]
  | cons p rest ih =>
    unfold extensionFound
    by_cases hp : p = extension
    · simp [hp]
    · rw [if_neg hp, ih]
      simp [List.mem_cons, Ne.symm hp]

theorem CheckPhysicalDeviceExtensionSupport_iff (gpu : GPUInfo) (extensions : List String) :
    CheckPhysicalDeviceExtensionSupport gpu extensions = true ↔
      ∀ e ∈ extensions, e ∈ gpu.ExtensionProperties := by
  induction extensions with
  | nil => simp [CheckPhysicalDeviceExtensionSupport]
  | cons e rest ih =>
    unfold CheckPhysicalDeviceExtensionSupport
    by_cases hf : extensionFound gpu.ExtensionProperties e = true
    · rw [if_pos hf, ih]
      have he := (extensionFound_iff _ _).mp hf
      simp [he]
    · rw [if_neg hf]
      have he : e ∉ gpu.ExtensionProperties := fun h => hf ((extensionFound_iff _ _).mpr h)
      simp [he]

theorem firstFamily_spec (test : Nat → VkQueueFamilyProperties → Bool) :
    ∀ (families : List VkQueueFamilyProperties) (j : Nat), j + families.length < 2 ^ 31 →
      (∃ k, firstFamily test j families = .ok (some (j + k)) ∧
        (∃ props, families[k]? = some props ∧ 0 < props.queueCount ∧
          test (j + k) props = true) ∧
        ∀ (m : Nat) (props : VkQueueFamilyProperties), m < k → families[m]? = some props →
          ¬ (0 < props.queueCount ∧ test (j + m) props = true)) ∨
      (firstFamily test j families = .ok none ∧
        ∀ (m : Nat) (props : VkQueueFamilyProperties), families[m]? = some props →
          ¬ (0 < props.queueCount ∧ test (j + m) props = true)) := by
  intro families
  induction families with
  | nil =>
    intro j _
    right
    exact ⟨rfl, fun m props h => by simp at h⟩
  | cons p rest ih =>
    intro j hj
    simp only [List.length_cons] at hj
    unfold firstFamily
    by_cases hp : p.queueCount ≠ 0 ∧ test j p = true
    · left
      refine ⟨0, by rw [if_pos hp]; rfl, ⟨p, by simp, Nat.pos_of_ne_zero hp.1, hp.2⟩, ?_⟩
      intro m props hm
      omega
    · rw [if_neg hp, if_neg (by omega)]
      have hp0 : ¬ (0 < p.queueCount ∧ test (j + 0) p = true) := by
        rintro ⟨h1, h2⟩
        exact hp ⟨Nat.pos_iff_ne_zero.mp h1, h2⟩
      rcases ih (j + 1) (by omega) with ⟨k, hk, ⟨props, hprops, hq, ht⟩, hlow⟩ | ⟨hnone, hall⟩
      · left
        refine ⟨k + 1, ?_, ⟨props, ?_, hq, ?_⟩, ?_⟩
        · rw [hk]
          congr 2
          omega
        · simpa using hprops
        · rw [← ht]
          congr 1
          omega
        · intro m q hm hmq
          cases m with
          | zero =>
            simp only [List.getElem?_cons_zero, Option.some.injEq] at hmq
            subst hmq
            exact hp0
          | succ m =>
            simp only [List.getElem?_cons_succ] at hmq
            have := hlow m q (by omega) hmq
            rw [show j + (m + 1) = j + 1 + m by omega]
            exact this
      · right
        refine ⟨hnone, ?_⟩
        intro m q hmq
        cases m with
        | zero =>
          simp only [List.getElem?_cons_zero, Option.some.injEq] at hmq
          subst hmq
          exact hp0
        | succ m =>
          simp only [List.getElem?_cons_succ] at hmq
          have := hall m q hmq
          rw [show j + (m + 1) = j + 1 + m by omega]
          exact this

theorem firstFamily_lowest (test : Nat → VkQueueFamilyProperties → Bool)
    (families : List VkQueueFamilyProperties) (hlen : families.length < 2 ^ 31) :
    (∃ k, firstFamily test 0 families = .ok (some k) ∧ LowestFamily test families k) ∨
    (firstFamily test 0 families = .ok none ∧
      ∀ (m : Nat) (props : VkQueueFamilyProperties), families[m]? = some props →
        ¬ (0 < props.queueCount ∧ test m props = true)) := by
  rcases firstFamily_spec test families 0 (by omega) with ⟨k, hk, hex, hlow⟩ | ⟨hnone, hall⟩
  · left
    simp only [Nat.zero_add] at hk hex hlow
    exact ⟨k, hk, hex, hlow⟩
  · right
    simp only [Nat.zero_add] at hall
    exact ⟨hnone, hall⟩

theorem examineGPU_spec (extensions : List String) (supportsPresent : Handle → Nat → Bool)
    (gpu : GPUInfo) (hlen : gpu.QueueFamilyProperties.length < 2 ^ 31) :
    (Qualifies extensions supportsPresent gpu →
      ∃ g p, examineGPU extensions supportsPresent gpu = .ok (some (g, p)) ∧
        LowestFamily isGraphicsFamily gpu.QueueFamilyProperties g ∧
        LowestFamily (fun j _ => supportsPresent gpu.Device j) gpu.QueueFamilyProperties p) ∧
    (¬ Qualifies extensions supportsPresent gpu →
      examineGPU extensions supportsPresent gpu = .ok none) := by
  unfold examineGPU
  by_cases hc : CheckPhysicalDeviceExtensionSupport gpu extensions = false
  · rw [if_pos hc]
    refine ⟨fun hq => ?_, fun _ => rfl⟩
    have := (CheckPhysicalDeviceExtensionSupport_iff gpu extensions).mpr hq.1
    rw [this] at hc
    cases hc
  · rw [if_neg hc]
    have hext : ∀ e ∈ extensions, e ∈ gpu.ExtensionProperties :=
      (CheckPhysicalDeviceExtensionSupport_iff gpu extensions).mp (by simpa using hc)
    by_cases hs : gpu.SurfaceFormats.isEmpty = true
    · rw [if_pos hs]
      refine ⟨fun hq => ?_, fun _ => rfl⟩
      exact absurd (List.isEmpty_iff.mp hs) hq.2.1
    · rw [if_neg hs]
      by_cases hm : gpu.PresentModes.isEmpty = true
      · rw [if_pos hm]
        refine ⟨fun hq => ?_, fun _ => rfl⟩
        exact absurd (List.isEmpty_iff.mp hm) hq.2.2.1
      · rw [if_neg hm]
        have hs2 : gpu.SurfaceFormats ≠ [] := fun h => hs (List.isEmpty_iff.mpr h)
        have hm2 : gpu.PresentModes ≠ [] := fun h => hm (List.isEmpty_iff.mpr h)
        rcases firstFamily_lowest isGraphicsFamily gpu.QueueFamilyProperties hlen with
          ⟨g, hg, hgl⟩ | ⟨hg, hgn⟩
        · rcases firstFamily_lowest (fun j _ => supportsPresent gpu.Device j)
            gpu.QueueFamilyProperties hlen with ⟨p, hp, hpl⟩ | ⟨hp, hpn⟩
          · rw [hg, hp]
            refine ⟨fun _ => ⟨g, p, rfl, hgl, hpl⟩, fun hn => ?_⟩
            exfalso
            apply hn
            obtain ⟨⟨gp, hgp1, hgp2, hgp3⟩, -⟩ := hgl
            obtain ⟨⟨pp, hpp1, hpp2, hpp3⟩, -⟩ := hpl
            exact ⟨hext, hs2, hm2, ⟨g, gp, hgp1, hgp2, hgp3⟩, ⟨p, pp, hpp1, hpp2, hpp3⟩⟩
          · rw [hg, hp]
            refine ⟨fun hq => ?_, fun _ => rfl⟩
            obtain ⟨j, props, h1, h2, h3⟩ := hq.2.2.2.2
            exact absurd ⟨h2, h3⟩ (hpn j props h1)
        · rcases firstFamily_lowest (fun j _ => supportsPresent gpu.Device j)
            gpu.QueueFamilyProperties hlen with ⟨p, hp, hpl⟩ | ⟨hp, hpn⟩
          · rw [hg, hp]
            refine ⟨fun hq => ?_, fun _ => rfl⟩
            obtain ⟨j, props, h1, h2, h3⟩ := hq.2.2.2.1
            exact absurd ⟨h2, h3⟩ (hgn j props h1)
          · rw [hg, hp]
            refine ⟨fun hq => ?_, fun _ => rfl⟩
            obtain ⟨j, props, h1, h2, h3⟩ := hq.2.2.2.1
            exact absurd ⟨h2, h3⟩ (hgn j props h1)

theorem selectFrom_spec (extensions : List String) (supportsPresent : Handle → Nat → Bool) :
    ∀ (gpus : List GPUInfo) (i : Nat), i + gpus.length < 2 ^ 32 →
      (∀ g ∈ gpus, g.QueueFamilyProperties.length < 2 ^ 31) →
      (∀ (k : Nat) (gpu : GPUInfo), gpus[k]? = some gpu →
        Qualifies extensions supportsPresent gpu →
        (∀ (m : Nat) (g : GPUInfo), m < k → gpus[m]? = some g →
          ¬ Qualifies extensions supportsPresent g) →
        ∃ gi pi, selectFrom extensions supportsPresent i gpus =
            .ok (some { GraphicsFamilyIndex := gi, PresentFamilyIndex := pi,
                        PhysicalDevice := gpu.Device, GPU := i + k }) ∧
          LowestFamily isGraphicsFamily gpu.QueueFamilyProperties gi ∧
          LowestFamily (fun j _ => supportsPresent gpu.Device j)
            gpu.QueueFamilyProperties pi) ∧
      ((∀ g ∈ gpus, ¬ Qualifies extensions supportsPresent g) →
        selectFrom extensions supportsPresent i gpus = .error Abort.Fatal) := by
  intro gpus
  induction gpus with
  | nil =>
    intro i _ _
    exact ⟨fun k gpu h => by simp at h, fun _ => rfl⟩
  | cons gpu0 rest ih =>
    intro i hi hfam
    simp only [List.length_cons] at hi
    obtain ⟨hyes, hno⟩ := examineGPU_spec extensions supportsPresent gpu0
      (hfam gpu0 (List.mem_cons_self _ _))
    obtain ⟨ihk, ihnone⟩ := ih (i + 1) (by omega)
      (fun g hg => hfam g (List.mem_cons_of_mem _ hg))
    refine ⟨?_, ?_⟩
    · intro k gpu hk hq hbefore
      cases k with
      | zero =>
        simp only [List.getElem?_cons_zero, Option.some.injEq] at hk
        subst hk
        obtain ⟨g, p, hex, hgl, hpl⟩ := hyes hq
        refine ⟨g, p, ?_, hgl, hpl⟩
        unfold selectFrom
        rw [hex]
        rfl
      | succ k =>
        simp only [List.getElem?_cons_succ] at hk
        have h0 : ¬ Qualifies extensions supportsPresent gpu0 :=
          hbefore 0 gpu0 (by omega) (by simp)
        obtain ⟨gi, pi, hsel, hgl, hpl⟩ := ihk k gpu hk hq
          (fun m g hm hmg => hbefore (m + 1) g (by omega) (by simpa using hmg))
        refine ⟨gi, pi, ?_, hgl, hpl⟩
        unfold selectFrom
        rw [hno h0]
        simp only
        rw [if_neg (by omega), hsel]
        congr 3
        omega
    · intro hall
      have h0 : ¬ Qualifies extensions supportsPresent gpu0 :=
        hall gpu0 (List.mem_cons_self _ _)
      unfold selectFrom
      rw [hno h0]
      simp only
      rw [if_neg (by omega)]
      exact ihnone (fun g hg => hall g (List.mem_cons_of_mem _ hg))

/-- C30: for fewer than 2^32 GPUs with fewer than 2^31 queue families each (the
ranges of the loop indices). `CheckPhysicalDeviceExtensionSupport` is true
exactly when every required extension name equals some reported name.
`SelectPhysicalDevice` selects the first GPU in enumeration order that fits
the profile (every required extension, a surface format, a present mode, a
graphics-capable and a present-capable family with queues), and records as
graphics and present family index the lowest index of such a family of that
GPU. If no GPU fits, it selects nothing and fails fatally. -/
theorem C30_select_physical_device (extensions : List String)
    (supportsPresent : Handle → Nat → Bool) (gpus : List GPUInfo)
    (hgpus : gpus.length < 2 ^ 32)
    (hfam : ∀ g ∈ gpus, g.QueueFamilyProperties.length < 2 ^ 31) :
    (∀ gpu : GPUInfo, CheckPhysicalDeviceExtensionSupport gpu extensions = true ↔
      ∀ e ∈ extensions, e ∈ gpu.ExtensionProperties) ∧
    (∀ (i : Nat) (gpu : GPUInfo), gpus[i]? = some gpu →
      Qualifies extensions supportsPresent gpu →
      (∀ (k : Nat) (g : GPUInfo), k < i → gpus[k]? = some g →
        ¬ Qualifies extensions supportsPresent g) →
      ∃ selected, SelectPhysicalDevice extensions supportsPresent gpus = .ok (some selected) ∧
        selected.GPU = i ∧ selected.PhysicalDevice = gpu.Device ∧
        LowestFamily isGraphicsFamily gpu.QueueFamilyProperties
          selected.GraphicsFamilyIndex ∧
        LowestFamily (fun j _ => supportsPresent gpu.Device j) gpu.QueueFamilyProperties
          selected.PresentFamilyIndex) ∧
    ((∀ g ∈ gpus, ¬ Qualifies extensions supportsPresent g) →
      SelectPhysicalDevice extensions supportsPresent gpus = .error Abort.Fatal) := by
  obtain ⟨hsel, hnone⟩ := selectFrom_spec extensions supportsPresent gpus 0 (by omega) hfam
  refine ⟨fun gpu => CheckPhysicalDeviceExtensionSupport_iff gpu extensions, ?_, hnone⟩
  intro i gpu hi hq hbefore
  obtain ⟨gi, pi, h, hgl, hpl⟩ := hsel i gpu hi hq hbefore
  exact ⟨_, h, Nat.zero_add i, rfl, hgl, hpl⟩

/-- Witness of C30: of the three GPUs of the example the first lacks the
swapchain extension and the second fits; the second is selected, with family 2
for graphics (family 0 is compute only, family 1 has no queues) and family 2
for presentation. -/
theorem C30_select_physical_device_witness :
    Example.gpus.length < 2 ^ 32 ∧
    (∀ g ∈ Example.gpus, g.QueueFamilyProperties.length < 2 ^ 31) ∧
    SelectPhysicalDevice ["VK_KHR_swapchain"] Example.presents Example.gpus
      = .ok (some { GraphicsFamilyIndex := 2, PresentFamilyIndex := 2,
                    PhysicalDevice := 501, GPU := 1 }) ∧
    ∃ selected,
      SelectPhysicalDevice ["VK_KHR_swapchain"] Example.presents Example.gpus
        = .ok (some selected) ∧
      selected.GPU = 1 ∧ selected.PhysicalDevice = Example.gpuDiscrete.Device ∧
      LowestFamily isGraphicsFamily Example.gpuDiscrete.QueueFamilyProperties
        selected.GraphicsFamilyIndex ∧
      LowestFamily (fun j _ => Example.presents Example.gpuDiscrete.Device j)
        Example.gpuDiscrete.QueueFamilyProperties selected.PresentFamilyIndex :=
  ⟨by decide, by decide, rfl,
   (C30_select_physical_device ["VK_KHR_swapchain"] Example.presents Example.gpus
      (by decide) (by decide)).2.1 1 Example.gpuDiscrete rfl
      ⟨by decide, by decide, by decide, ⟨2, ⟨3, 4⟩, rfl, by decide, rfl⟩,
        ⟨2, ⟨3, 4⟩, rfl, by decide, rfl⟩⟩
      (fun k g hk hg hq => by
        have h0 : k = 0 := by omega
        subst h0
        have hg0 : g = Example.gpuWithoutSwapchain := (Option.some.inj hg).symm
        subst hg0
        have := hq.1 "VK_KHR_swapchain" (List.mem_singleton.mpr rfl)
        revert this
        decide)⟩

/-! ## The frames `Initialize` builds -/

/-- What the frame loop of `Initialize` builds when a final render target is
set: as many frames as before, the frame of slot `i + k` holding swapchain
image `i + k` and a framebuffer created over it against `blit`. -/
theorem initFrames_with_target (ext : Collaborators) (ctx : Context)
    (images : ImageId → Image) (blit : Handle) :
    ∀ (frames frames1 : List RendererFrame) (i : Nat),
      initFrames ext ctx images true blit i frames = .ok frames1 →
      frames1.length = frames.length ∧
      ∀ (k : Nat) (frame : RendererFrame), frames1[k]? = some frame →
        ∃ image, ctx.SwapchainImages[i + k]? = some image ∧
          frame.SwapchainImage = some image ∧
          frame.FrameBuffer =
            { Created := true, Attachments := [some image], RenderPass := blit,
              Extent := ext.DefaultExtent [images image] } := by
  intro frames
  induction frames with
  | nil =>
    intro frames1 i h
    simp only [initFrames] at h
    cases h
    exact ⟨rfl, fun k frame hk => by simp at hk⟩
  | cons frame0 rest ih =>
    intro frames1 i h
    simp only [initFrames, if_true] at h
    cases himg : ctx.SwapchainImages[i]? with
    | none =>
      rw [himg] at h
      cases h
    | some image =>
      rw [himg] at h
      simp only at h
      split at h
      · cases h
      · rename_i tail htail
        cases h
        obtain ⟨hlen, hrest⟩ := ih tail (i + 1) htail
        refine ⟨by simp [hlen], ?_⟩
        intro k frame hk
        cases k with
        | zero =>
          simp only [List.getElem?_cons_zero, Option.some.injEq] at hk
          subst hk
          exact ⟨image, himg, rfl, rfl⟩
        | succ k =>
          simp only [List.getElem?_cons_succ] at hk
          obtain ⟨img, h1, h2, h3⟩ := hrest k frame hk
          exact ⟨img, by rw [show i + (k + 1) = i + 1 + k by omega]; exact h1, h2, h3⟩

theorem initStages_target (ext : Collaborators) (ctx : Context) :
    ∀ (objects : List RendererStage) (nodes : List Node) (blit : Handle) (w : World)
      (loop : List RendererStage × Handle × World),
      initStages ext ctx objects nodes blit w = .ok loop →
      loop.2.2.Data.FinalTarget = w.Data.FinalTarget ∧
      loop.2.2.Data.MaxFrameCount = w.Data.MaxFrameCount ∧
      loop.2.2.Data.Frames = w.Data.Frames := by
  intro objects
  induction objects with
  | nil =>
    intro nodes blit w loop h
    simp only [initStages] at h
    cases h
    exact ⟨rfl, rfl, rfl⟩
  | cons stage stages ih =>
    intro nodes blit w loop h
    cases nodes with
    | nil =>
      simp only [initStages] at h
      cases h
    | cons node nodes =>
      simp only [initStages] at h
      split at h
      · cases h
      · rename_i built hb
        split at h
        · cases h
        · rename_i rest hrest
          cases h
          obtain ⟨h1, h2, h3⟩ := ih nodes _ _ rest hrest
          have hdata : built.2.Data = w.Data := by
            unfold RendererStage.Init at hb
            split at hb
            · cases hb
            · rename_i first hfirst
              split at hb
              · cases hb
              · rename_i w2 hw2
                split at hb
                · cases hb
                · cases hb
                  obtain ⟨-, -, hd2, -⟩ := initShader_log hw2
                  have hd1 : first.2.Data = w.Data := by
                    unfold RendererStage.initRenderPass at hfirst
                    split at hfirst
                    · split at hfirst
                      · cases hfirst
                      · simp only at hfirst
                        split at hfirst
                        · cases hfirst
                        · cases hfirst
                          rfl
                    · cases hfirst
                      rfl
                  simp only [hd2, hd1]
          simp only [h1, h2, h3]
          split <;> simp [hdata]

/-- With a final render target set, a returning `Initialize` builds the
configured number of frames, and the frame of slot `i` holds swapchain image
`i` and a created framebuffer over it. -/
theorem Initialize_frames_with_target (ext : Collaborators) (ctx : Context)
    (g : RenderGraph) (w w1 : World) (ht : w.Data.FinalTarget.isSome = true)
    (h : Renderer.Initialize ext ctx g w = .ok w1) :
    w1.Data.Frames.length = (ctx.frameCount % 2 ^ 32).toNat ∧
    ∃ blit, ∀ (i : Nat) (frame : RendererFrame), w1.Data.Frames[i]? = some frame →
      ∃ image, ctx.SwapchainImages[i]? = some image ∧
        frame.SwapchainImage = some image ∧
        frame.FrameBuffer.Created = true ∧
        frame.FrameBuffer.Attachments = [some image] ∧
        frame.FrameBuffer.RenderPass = blit := by
  unfold Renderer.Initialize at h
  simp only at h
  split at h
  · cases h
  · rename_i loop hloop
    obtain ⟨hft, hmax, hframes⟩ := initStages_target ext ctx _ _ _ _ loop hloop
    simp only at hft hmax hframes
    rw [hft, ht] at h
    split at h
    · cases h
    · rename_i frames1 hf
      cases h
      obtain ⟨hlen, hall⟩ := initFrames_with_target ext ctx _ _ _ frames1 0 hf
      refine ⟨?_, loop.2.1, ?_⟩
      · simp only [hlen, resize_length, hmax]
      · intro i frame hi
        obtain ⟨image, h1, h2, h3⟩ := hall i frame hi
        rw [Nat.zero_add] at h1
        exact ⟨image, h1, h2, by rw [h3], by rw [h3], by rw [h3]⟩

end Hog
